import Mathlib

/-!
# Fast486 FPU emulation (`lib/fast486/fpu.c`): shallow embedding

Machine integers are natural numbers (bit patterns) reduced modulo `2 ^ w`
where the C code can wrap; `LONGLONG` cells are held as their 64-bit
two's-complement pattern and read back with `toInt64`.

Shifts whose count is not smaller than the width of the shifted type have no
defined result in C.  The embedding does not pick one: every function that
performs such a shift takes a `ShiftModel`, which says what count the
implementation effectively applies, and the theorems hold for every model.
-/

namespace Fast486

/-! ## Machine arithmetic -/

/-- Behaviour of the C implementation on oversized shift counts: the count that
is effectively applied when a 64-bit value is shifted by `n ≥ 64`
(`cnt64 n`) and when the `int` constant `1` is shifted by `n ≥ 31`
(`cnt32 n`). -/
structure ShiftModel where
  cnt64 : Nat → Nat
  cnt32 : Nat → Nat

/-- The shift model of x86 shift instructions: the count is masked to the
width of the operand. -/
def ShiftModel.masked : ShiftModel := ⟨fun n => n % 64, fun n => n % 32⟩

/-- The shift model in which every oversized shift pushes all bits out. -/
def ShiftModel.flushed : ShiftModel := ⟨fun n => n, fun n => n⟩

/-- `ULONGLONG >> n`. -/
def shr64 (sm : ShiftModel) (m n : Nat) : Nat :=
  if n < 64 then m >>> n else m >>> sm.cnt64 n

/-- The 32-bit pattern of the `int` expression `1 << n`. -/
def intShl1 (sm : ShiftModel) (n : Nat) : Nat :=
  if n < 31 then 2 ^ n else 2 ^ sm.cnt32 n % 2 ^ 32

/-- Conversion of an `int` (given as its 32-bit pattern) to a 64-bit integer
type: sign extension. -/
def sext32 (p : Nat) : Nat :=
  if p < 2 ^ 31 then p else p + (2 ^ 64 - 2 ^ 32)

/-- The 64-bit value of the `int` expression `(1 << n)`. -/
def intBit (sm : ShiftModel) (n : Nat) : Nat :=
  sext32 (intShl1 sm n)

/-- The 64-bit value of the `int` expression `(1 << n) - 1`. -/
def intMask (sm : ShiftModel) (n : Nat) : Nat :=
  sext32 ((intShl1 sm n + (2 ^ 32 - 1)) % 2 ^ 32)

/-- Two's-complement pattern of a mathematical integer in a 64-bit cell. -/
def toU64 (i : Int) : Nat := (i % 2 ^ 64).toNat

/-- Signed reading of a 64-bit pattern (`LONGLONG`). -/
def toInt64 (p : Nat) : Int :=
  if p % 2 ^ 64 < 2 ^ 63 then (p % 2 ^ 64 : Nat) else (p % 2 ^ 64 : Nat) - 2 ^ 64

/-- Negation in a 64-bit cell (`-x`, wrapping). -/
def neg64 (p : Nat) : Nat := (2 ^ 64 - p % 2 ^ 64) % 2 ^ 64

/-- Leading zero bits among the lowest `k` bits of `m`, scanning from bit
`k - 1` downwards. -/
def clzFrom : Nat → Nat → Nat
  | 0, _ => 0
  | k + 1, m => if m.testBit k then 0 else 1 + clzFrom k m

/-- The intrinsic `CountLeadingZeros64`. -/
def CountLeadingZeros64 (m : Nat) : Nat := clzFrom 64 m

/-! ## Data model -/

/-- Modelled from the spec: the register type `FAST486_FPU_DATA_REG` is declared in
a header that is not among the sources.  The spec gives a 1-bit sign, a biased
exponent and a 64-bit mantissa with an explicit integer bit; the code stores the
exponent through `USHORT` casts, so the exponent field wraps modulo `2 ^ 16`. -/
structure FAST486_FPU_DATA_REG where
  Mantissa : Nat
  Exponent : Nat
  Sign : Bool
deriving DecidableEq, Repr

/-- Modelled from the spec: bias of the 8-bit exponent of a single real. -/
def FPU_REAL4_BIAS : Nat := 0x7F

/-- Modelled from the spec: bias of the 11-bit exponent of a double real. -/
def FPU_REAL8_BIAS : Nat := 0x3FF

/-- Modelled from the spec: bias of the 15-bit exponent of the extended format. -/
def FPU_REAL10_BIAS : Nat := 0x3FFF

/-- Modelled from the spec: the largest exponent of a finite value; the exponent
`FPU_MAX_EXPONENT + 1` is the all-ones 15-bit exponent that marks a special
value. -/
def FPU_MAX_EXPONENT : Nat := 0x7FFE

/-- Modelled from the spec: bit 63 of the mantissa, the explicit integer bit. -/
def FPU_MANTISSA_HIGH_BIT : Nat := 2 ^ 63

/-- Modelled from the spec: `Zero ⇔ exponent = 0 and mantissa = 0`. -/
def FPU_IS_ZERO (x : FAST486_FPU_DATA_REG) : Bool :=
  x.Exponent == 0 && x.Mantissa == 0

/-- Modelled from the spec: `Normalized ⇔ mantissa's bit 63 is set, unless the
value is zero`. -/
def FPU_IS_NORMALIZED (x : FAST486_FPU_DATA_REG) : Bool :=
  FPU_IS_ZERO x || (x.Mantissa &&& FPU_MANTISSA_HIGH_BIT) != 0

/-- Modelled from the spec: `exponent = MAX_EXPONENT + 1` flags the value as
special (infinity or NaN). -/
def FPU_IS_NAN (x : FAST486_FPU_DATA_REG) : Bool :=
  x.Exponent == FPU_MAX_EXPONENT + 1

/-- Modelled from the spec: infinity is the special exponent with mantissa
`1 << 63`; the sign gives the polarity. -/
def FPU_IS_POS_INF (x : FAST486_FPU_DATA_REG) : Bool :=
  FPU_IS_NAN x && x.Mantissa == FPU_MANTISSA_HIGH_BIT && !x.Sign

/-- Modelled from the spec: negative infinity, see `FPU_IS_POS_INF`. -/
def FPU_IS_NEG_INF (x : FAST486_FPU_DATA_REG) : Bool :=
  FPU_IS_NAN x && x.Mantissa == FPU_MANTISSA_HIGH_BIT && x.Sign

/-- Modelled from the spec: rounding mode Nearest-Even of the control word. -/
def FPU_ROUND_NEAREST : Nat := 0

/-- Modelled from the spec: rounding mode Down of the control word. -/
def FPU_ROUND_DOWN : Nat := 1

/-- Modelled from the spec: rounding mode Up of the control word. -/
def FPU_ROUND_UP : Nat := 2

/-- Modelled from the spec: rounding mode Truncate of the control word. -/
def FPU_ROUND_TRUNCATE : Nat := 3

/-- Modelled from the spec: tag of a slot holding a finite non-zero value. -/
def FPU_TAG_VALID : Nat := 0

/-- Modelled from the spec: tag of a slot holding zero. -/
def FPU_TAG_ZERO : Nat := 1

/-- Modelled from the spec: tag of a slot holding a special value. -/
def FPU_TAG_SPECIAL : Nat := 2

/-- Modelled from the spec: tag of an empty slot (`FINIT` stores `0xFFFF`, all
eight 2-bit tags set to 3). -/
def FPU_TAG_EMPTY : Nat := 3

/-- The fields of `State->FpuStatus` that `fpu.c` names. -/
structure FAST486_FPU_STATUS where
  Ie : Bool
  De : Bool
  Ze : Bool
  Oe : Bool
  Ue : Bool
  Pe : Bool
  Sf : Bool
  Es : Bool
  Code0 : Bool
  Code2 : Bool
  Top : Nat
  Code3 : Bool
  Busy : Bool
deriving DecidableEq, Repr

/-- The fields of `State->FpuControl` that `fpu.c` names: the rounding-control
field `Rc`; `Rest` stands for the other bits of the control word. -/
structure FAST486_FPU_CONTROL where
  Rc : Nat
  Rest : Nat
deriving DecidableEq, Repr

/-- The FPU part of `FAST486_STATE`: eight data registers, the control and
status words and the tag word (2 bits per physical slot). -/
structure FAST486_STATE where
  FpuRegisters : Fin 8 → FAST486_FPU_DATA_REG
  FpuControl : FAST486_FPU_CONTROL
  FpuStatus : FAST486_FPU_STATUS
  FpuTag : Nat

/-! ## Format converters -/

/-- `Fast486FpuFromInteger` (fpu.c 69-90); `Value` is a `LONGLONG`. -/
def Fast486FpuFromInteger (Value : Int) : FAST486_FPU_DATA_REG :=
  if Value = 0 then ⟨0, 0, false⟩
  else
    let Sign := decide (Value < 0)
    -- `Value = -Value` wraps in a LONGLONG; the cast gives the pattern
    let Mantissa := if Value < 0 then toU64 (-Value) else toU64 Value
    let ZeroCount := CountLeadingZeros64 Mantissa
    { Mantissa := Mantissa * 2 ^ ZeroCount % 2 ^ 64
      Exponent := (FPU_REAL10_BIAS + 63 - ZeroCount) % 2 ^ 16
      Sign := Sign }

/-- `SHORT UnbiasedExp = (SHORT)Value->Exponent - FPU_REAL10_BIAS`. -/
def UnbiasedExp (Exponent : Nat) : Int :=
  let e : Int := ((Exponent % 2 ^ 16 : Nat) : Int)
  let s : Int := if e < 2 ^ 15 then e else e - 2 ^ 16
  (s - FPU_REAL10_BIAS + 2 ^ 15) % 2 ^ 16 - 2 ^ 15

/-- What a call of `Fast486FpuToInteger` leaves behind: the return value, the
state, the `LONGLONG` the caller passed (`Result`) and the `LONGLONG` that
follows it in memory (`Next`), which the function reaches once it has
incremented its pointer; and whether `ASSERT(*Result >= 0LL)` (fpu.c 121) was
reached with a negative `*Result`.  `fpu.c` is compiled with the debug checks
(`#define NDEBUG` is commented out), so a failed `ASSERT` stops the call at
that line: when `AssertFailed` is set the call does not return normally, and the
other fields hold what the statements after the check compute if execution
is continued past it. -/
structure ToIntegerOut where
  Ok : Bool
  State : FAST486_STATE
  Result : Nat
  Next : Nat
  AssertFailed : Bool

/-- `Fast486FpuToInteger` (fpu.c 92-163).  `Result0` and `Next0` are the cell the
caller passed and the cell after it, before the call.  The statement
`*Result++` reads the cell and advances the pointer; `Result = 0LL` in the
zero branch assigns the pointer.  `ASSERT(*Result >= 0LL)` follows the shift
and reads the shifted mantissa as a `LONGLONG`; the zero branch and the
invalid branch return before it. -/
def Fast486FpuToInteger (sm : ShiftModel) (State : FAST486_STATE)
    (Value : FAST486_FPU_DATA_REG) (Result0 Next0 : Nat) : ToIntegerOut :=
  let Unbiased := UnbiasedExp Value.Exponent
  if FPU_IS_ZERO Value then
    ⟨true, State, Result0, Next0, false⟩
  else if FPU_IS_NAN Value || !FPU_IS_NORMALIZED Value || Unbiased < 0 || Unbiased > 63 then
    ⟨false, { State with FpuStatus := { State.FpuStatus with Ie := true } }, Result0, Next0,
      false⟩
  else
    let Bits := (63 - Unbiased).toNat
    let R := (Value.Mantissa >>> Bits) % 2 ^ 64
    let Remainder := Value.Mantissa &&& intMask sm Bits
    -- `ASSERT(*Result >= 0LL)`
    let Failed := !decide (toInt64 R ≥ 0)
    let BitsM1 := (Bits + (2 ^ 32 - 1)) % 2 ^ 32
    -- `moved`: the pointer was incremented; `Next1`: the cell after rounding
    let (moved, Next1) :=
      if State.FpuControl.Rc = FPU_ROUND_NEAREST then
        if (Remainder &&& intBit sm BitsM1) != 0 then
          if (Remainder &&& intMask sm BitsM1) == 0 then
            (true, Next0 &&& (2 ^ 64 - 2))
          else (true, Next0)
        else (false, Next0)
      else if State.FpuControl.Rc = FPU_ROUND_DOWN then
        (decide (Remainder ≠ 0) && Value.Sign, Next0)
      else if State.FpuControl.Rc = FPU_ROUND_UP then
        (decide (Remainder ≠ 0) && !Value.Sign, Next0)
      else (false, Next0)
    if Value.Sign then
      if moved then ⟨true, State, R, neg64 Next1, Failed⟩
      else ⟨true, State, neg64 R, Next1, Failed⟩
    else ⟨true, State, R, Next1, Failed⟩

/-- `Fast486FpuFromSingleReal` (fpu.c 165-184); `Value` is a `ULONG`. -/
def Fast486FpuFromSingleReal (Value : Nat) : FAST486_FPU_DATA_REG :=
  let Sign := decide ((Value >>> 31) % 2 ^ 8 ≠ 0)
  let Exponent := (Value >>> 23) &&& 0xFF
  let Mantissa := (((Value &&& 0x7FFFFF) ||| 0x800000) <<< 40) % 2 ^ 64
  if Value = 0 then ⟨Mantissa, Exponent, Sign⟩
  else if Exponent = 0xFF then ⟨Mantissa, FPU_MAX_EXPONENT + 1, Sign⟩
  else ⟨Mantissa, (Exponent + (FPU_REAL10_BIAS - FPU_REAL4_BIAS)) % 2 ^ 16, Sign⟩

/-- `Fast486FpuFromDoubleReal` (fpu.c 186-205); `Value` is a `ULONGLONG`. -/
def Fast486FpuFromDoubleReal (Value : Nat) : FAST486_FPU_DATA_REG :=
  let Sign := decide ((Value >>> 63) % 2 ^ 8 ≠ 0)
  let Exponent := (Value >>> 52) &&& 0x7FF
  let Mantissa := (((Value &&& 0xFFFFFFFFFFFFF) ||| 0x10000000000000) <<< 11) % 2 ^ 64
  if Value = 0 then ⟨Mantissa, Exponent, Sign⟩
  else if Exponent = 0x3FF then ⟨Mantissa, FPU_MAX_EXPONENT + 1, Sign⟩
  else ⟨Mantissa, (Exponent + (FPU_REAL10_BIAS - FPU_REAL8_BIAS)) % 2 ^ 16, Sign⟩

/-! ## Arithmetic core -/

/-- `UnsignedMult128` (fpu.c 37-67): the pair (`*HighProduct`, returned low
product), every intermediate reduced to its C type. -/
def UnsignedMult128 (Multiplicand Multiplier : Nat) : Nat × Nat :=
  let MultiplicandLow := (Multiplicand &&& 0xFFFFFFFF) % 2 ^ 32
  let MultiplicandHigh := (Multiplicand >>> 32) % 2 ^ 32
  let MultiplierLow := (Multiplier &&& 0xFFFFFFFF) % 2 ^ 32
  let MultiplierHigh := (Multiplier >>> 32) % 2 ^ 32
  let LowProduct := MultiplicandLow * MultiplierLow % 2 ^ 64
  let Intermediate1 := MultiplicandLow * MultiplierHigh % 2 ^ 64
  let Intermediate2 := MultiplicandHigh * MultiplierLow % 2 ^ 64
  let High0 := MultiplicandHigh * MultiplierHigh % 2 ^ 64
  let Intermediate := (Intermediate1 + Intermediate2) % 2 ^ 64
  let High1 := if Intermediate < Intermediate1 then (High0 + 2 ^ 32) % 2 ^ 64 else High0
  let IntermediateLow := (Intermediate &&& 0xFFFFFFFF) % 2 ^ 32
  let IntermediateHigh := (Intermediate >>> 32) % 2 ^ 32
  let LowProduct1 := (LowProduct + (IntermediateLow <<< 32) % 2 ^ 64) % 2 ^ 64
  let High2 :=
    if (LowProduct1 >>> 32) % 2 ^ 32 < IntermediateLow then (High1 + 1) % 2 ^ 64 else High1
  ((High2 + IntermediateHigh) % 2 ^ 64, LowProduct1)

/-- One turn of the renormalization loop: shift the mantissa left by one bit and
decrement the exponent (a 16-bit field). -/
def normalizeStep (Data : FAST486_FPU_DATA_REG) : FAST486_FPU_DATA_REG :=
  { Data with
    Mantissa := Data.Mantissa * 2 % 2 ^ 64
    Exponent := (Data.Exponent + (2 ^ 16 - 1)) % 2 ^ 16 }

/-- The renormalization loop with an explicit bound on the number of turns. -/
def normalizeLoop : Nat → FAST486_FPU_DATA_REG → FAST486_FPU_DATA_REG
  | 0, Data => Data
  | fuel + 1, Data =>
    if !FPU_IS_ZERO Data && (Data.Mantissa &&& FPU_MANTISSA_HIGH_BIT) == 0 then
      normalizeLoop fuel (normalizeStep Data)
    else Data

/-- Modelled from the spec: the helper `Fast486FpuNormalize` is defined in a header
that is not among the sources.  The spec: "while the value is non-zero and its
leading mantissa bit is unset, left-shift the mantissa and decrement the
exponent".  A non-zero mantissa needs at most 63 turns; a zero mantissa with
exponent `e` becomes the zero value after `e` turns, so `2 ^ 16 + 64` turns
always reach the end of the loop. -/
def Fast486FpuNormalize (Data : FAST486_FPU_DATA_REG) : FAST486_FPU_DATA_REG :=
  normalizeLoop (2 ^ 16 + 64) Data

/-- The alignment step of `Fast486FpuAdd`: an operand whose exponent is below the
largest one has its mantissa shifted right by the difference. -/
def adjustTo (sm : ShiftModel) (x : FAST486_FPU_DATA_REG) (Exponent : Nat) :
    FAST486_FPU_DATA_REG :=
  if x.Exponent < Exponent then
    { x with Mantissa := shr64 sm x.Mantissa (Exponent - x.Exponent), Exponent := Exponent }
  else x

/-- `Fast486FpuAdd` (fpu.c 207-285): the state after the call and the value
stored through `Result`.  Both operands are read before `Result` is written,
so the result does not depend on whether `Result` aliases an operand. -/
def Fast486FpuAdd (sm : ShiftModel) (State : FAST486_STATE)
    (FirstOperand SecondOperand : FAST486_FPU_DATA_REG) :
    FAST486_STATE × FAST486_FPU_DATA_REG :=
  let State1 : FAST486_STATE :=
    if !FPU_IS_NORMALIZED FirstOperand || !FPU_IS_NORMALIZED SecondOperand then
      { State with FpuStatus := { State.FpuStatus with De := true } }
    else State
  let Exponent :=
    if FirstOperand.Exponent > SecondOperand.Exponent then FirstOperand.Exponent
    else SecondOperand.Exponent
  let FirstAdjusted := adjustTo sm FirstOperand Exponent
  let SecondAdjusted := adjustTo sm SecondOperand Exponent
  -- sign and mantissa of the result, and the mantissas left in the two copies
  let (Sign, Mantissa, FirstMantissa, SecondMantissa) :=
    if FirstAdjusted.Sign = SecondAdjusted.Sign then
      (FirstAdjusted.Sign, (FirstAdjusted.Mantissa + SecondAdjusted.Mantissa) % 2 ^ 64,
        FirstAdjusted.Mantissa, SecondAdjusted.Mantissa)
    else
      let Sign :=
        if FirstAdjusted.Mantissa > SecondAdjusted.Mantissa then FirstAdjusted.Sign
        else if FirstAdjusted.Mantissa < SecondAdjusted.Mantissa then SecondAdjusted.Sign
        else false
      let FirstMantissa :=
        if FirstAdjusted.Sign then neg64 FirstAdjusted.Mantissa else FirstAdjusted.Mantissa
      let SecondMantissa :=
        if SecondAdjusted.Sign then neg64 SecondAdjusted.Mantissa else SecondAdjusted.Mantissa
      (Sign, (FirstMantissa + SecondMantissa) % 2 ^ 64, FirstMantissa, SecondMantissa)
  let FirstAdjusted1 := { FirstAdjusted with Mantissa := FirstMantissa }
  let SecondAdjusted1 := { SecondAdjusted with Mantissa := SecondMantissa }
  if FPU_IS_NORMALIZED FirstAdjusted1 && FPU_IS_NORMALIZED SecondAdjusted1 then
    if Exponent = FPU_MAX_EXPONENT then
      ({ State1 with FpuStatus := { State1.FpuStatus with Oe := true } },
        Fast486FpuNormalize ⟨FPU_MANTISSA_HIGH_BIT, FPU_MAX_EXPONENT + 1, Sign⟩)
    else
      (State1, Fast486FpuNormalize
        ⟨(Mantissa >>> 1) ||| FPU_MANTISSA_HIGH_BIT, (Exponent + 1) % 2 ^ 16, Sign⟩)
  else
    (State1, Fast486FpuNormalize ⟨Mantissa, Exponent, Sign⟩)

/-- `Fast486FpuSubtract` (fpu.c 287-300): the state after the call and the content
of `*Result` after it; `Result` is the content of `*Result` before the call.
The call is `Fast486FpuAdd(State, Result, FirstOperand, &NegativeSecondOperand)`
against the parameter list `(State, FirstOperand, SecondOperand, Result)`:
the addends are `*Result` and `*FirstOperand`, and the sum is stored in the
local `NegativeSecondOperand`, which is dropped on return. -/
def Fast486FpuSubtract (sm : ShiftModel) (State : FAST486_STATE)
    (FirstOperand SecondOperand Result : FAST486_FPU_DATA_REG) :
    FAST486_STATE × FAST486_FPU_DATA_REG :=
  let NegativeSecondOperand := { SecondOperand with Sign := !SecondOperand.Sign }
  let Sum := Fast486FpuAdd sm State Result FirstOperand
  -- the sum `Sum.2` is stored over the local, which held the negated operand
  let _Local : FAST486_FPU_DATA_REG × FAST486_FPU_DATA_REG := (NegativeSecondOperand, Sum.2)
  (Sum.1, Result)

/-- Assignment of the three condition codes. -/
def setCodes (State : FAST486_STATE) (c0 c2 c3 : Bool) : FAST486_STATE :=
  { State with FpuStatus := { State.FpuStatus with Code0 := c0, Code2 := c2, Code3 := c3 } }

/-- `Fast486FpuCompare` (fpu.c 302-353).  `TempResult` is the content of the
uninitialized local of that name when the function is entered. -/
def Fast486FpuCompare (sm : ShiftModel) (State : FAST486_STATE)
    (FirstOperand SecondOperand TempResult : FAST486_FPU_DATA_REG) : FAST486_STATE :=
  if FPU_IS_NAN FirstOperand || FPU_IS_NAN SecondOperand then
    if FPU_IS_POS_INF FirstOperand && FPU_IS_NEG_INF SecondOperand then
      setCodes State false false false
    else if FPU_IS_NEG_INF FirstOperand && FPU_IS_POS_INF SecondOperand then
      setCodes State true false false
    else
      setCodes State true true true
  else
    let Sub := Fast486FpuSubtract sm State FirstOperand SecondOperand TempResult
    if FPU_IS_ZERO Sub.2 then setCodes Sub.1 false false true
    else if Sub.2.Sign then setCodes Sub.1 true false false
    else setCodes Sub.1 false false false

/-- `Fast486FpuMultiply` (fpu.c 355-379): the state after the call and the value
stored through `Result`. -/
def Fast486FpuMultiply (State : FAST486_STATE)
    (FirstOperand SecondOperand : FAST486_FPU_DATA_REG) :
    FAST486_STATE × FAST486_FPU_DATA_REG :=
  let State1 : FAST486_STATE :=
    if !FPU_IS_NORMALIZED FirstOperand || !FPU_IS_NORMALIZED SecondOperand then
      { State with FpuStatus := { State.FpuStatus with De := true } }
    else State
  let Mantissa := (UnsignedMult128 FirstOperand.Mantissa SecondOperand.Mantissa).1
  let Exponent := (FirstOperand.Exponent + SecondOperand.Exponent) % 2 ^ 16
  let Sign := xor FirstOperand.Sign SecondOperand.Sign
  (State1, Fast486FpuNormalize ⟨Mantissa, Exponent, Sign⟩)

/-- `Fast486FpuDivide` (fpu.c 381-402): the state after the call and the content of
`*Result` after it; `Result` is the content of `*Result` before the call.
Past the zero check the function computes an exponent and a sign into a
local and stores nothing. -/
def Fast486FpuDivide (State : FAST486_STATE)
    (FirstOperand SecondOperand Result : FAST486_FPU_DATA_REG) :
    FAST486_STATE × FAST486_FPU_DATA_REG :=
  if FPU_IS_ZERO SecondOperand then
    ({ State with FpuStatus := { State.FpuStatus with Ze := true } }, Result)
  else
    let _Exponent := (FirstOperand.Exponent + 2 ^ 16 - SecondOperand.Exponent) % 2 ^ 16
    let _Sign := xor FirstOperand.Sign SecondOperand.Sign
    (State, Result)

/-! ## Register stack and tag table -/

/-- Modelled from the spec: the macro `FPU_ST` is defined in a header that is not
among the sources.  The spec: "logical register i maps to physical slot
(pointer + i) mod 8".  This is the physical slot of logical register `i`. -/
def stSlot (State : FAST486_STATE) (i : Nat) : Fin 8 :=
  Fin.ofNat (State.FpuStatus.Top + i)

/-- Modelled from the spec: `FPU_ST(i)` read as a value, the content of the
physical slot of logical register `i`. -/
def FPU_ST (State : FAST486_STATE) (i : Nat) : FAST486_FPU_DATA_REG :=
  State.FpuRegisters (stSlot State i)

/-- Modelled from the spec: `FPU_ST(i)` as the target of an assignment. -/
def setST (State : FAST486_STATE) (i : Nat) (v : FAST486_FPU_DATA_REG) : FAST486_STATE :=
  { State with FpuRegisters := Function.update State.FpuRegisters (stSlot State i) v }

/-- The 2-bit tag of physical slot `p` in the tag word. -/
def getTag (FpuTag : Nat) (p : Fin 8) : Nat :=
  FpuTag / 4 ^ p.val % 4

/-- The tag word with the 2-bit tag of physical slot `p` replaced by `t`. -/
def setTag (FpuTag : Nat) (p : Fin 8) (t : Nat) : Nat :=
  FpuTag - getTag FpuTag p * 4 ^ p.val + t % 4 * 4 ^ p.val

/-- Modelled from the spec: the macro `FPU_GET_TAG` is defined in a header that is
not among the sources.  The spec has one tag per physical slot and makes the
dispatcher check the "logical-register tag", so the tag of logical register
`i` is the tag of its physical slot. -/
def FPU_GET_TAG (State : FAST486_STATE) (i : Nat) : Nat :=
  getTag State.FpuTag (stSlot State i)

/-- Modelled from the spec: the tag of logical register `i` set to `t`. -/
def FPU_SET_TAG (State : FAST486_STATE) (i : Nat) (t : Nat) : FAST486_STATE :=
  { State with FpuTag := setTag State.FpuTag (stSlot State i) t }

/-- Modelled from the spec: the tag "derived from the slot's extended value":
`Zero` for the zero value, `Special` for the special exponent, `Valid`
otherwise. -/
def classify (v : FAST486_FPU_DATA_REG) : Nat :=
  if FPU_IS_ZERO v then FPU_TAG_ZERO
  else if FPU_IS_NAN v then FPU_TAG_SPECIAL
  else FPU_TAG_VALID

/-- Modelled from the spec: `Fast486FpuPush` is defined in a header that is not
among the sources.  The spec: "`push(value)` moves the pointer back by one and
stores the value, setting the tag by inspecting the value"; "Push decrements
(mod 8) then stores"; there is no check for a full stack. -/
def Fast486FpuPush (State : FAST486_STATE) (Data : FAST486_FPU_DATA_REG) : FAST486_STATE :=
  let State1 : FAST486_STATE :=
    { State with FpuStatus := { State.FpuStatus with Top := (State.FpuStatus.Top + 7) % 8 } }
  FPU_SET_TAG (setST State1 0 Data) 0 (classify Data)

/-- Modelled from the spec: `Fast486FpuPop` is defined in a header that is not among
the sources.  The spec: "`pop()` reads logical register 0, advances the
pointer, and sets the vacated physical slot's tag to `Empty`"; "pop reads then
increments (mod 8)". -/
def Fast486FpuPop (State : FAST486_STATE) : FAST486_STATE :=
  let State1 := FPU_SET_TAG State 0 FPU_TAG_EMPTY
  { State1 with FpuStatus := { State1.FpuStatus with Top := (State1.FpuStatus.Top + 1) % 8 } }

/-! ## Opcode dispatcher

The handlers are modelled from the point where `Fast486ParseModRegRm` has
succeeded and `FPU_CHECK()` has passed.  What the memory subsystem returns is
an argument: `none` stands for "exception occurred", after which the handler
returns at once.  Uninitialized locals are arguments too. -/

/-- The fields of the decoded addressing byte (`FAST486_MOD_REG_RM`) that the
handlers read: memory or register operand, the 3-bit sub-field `Register`
and the 3-bit register index `SecondRegister`. -/
structure FAST486_MOD_REG_RM where
  Memory : Bool
  Register : Nat
  SecondRegister : Nat
deriving DecidableEq, Repr

/-- Signed reading of a 16-bit pattern, `(LONGLONG)` of a `SHORT`. -/
def toInt16 (p : Nat) : Int :=
  if p % 2 ^ 16 < 2 ^ 15 then (p % 2 ^ 16 : Nat) else (p % 2 ^ 16 : Nat) - 2 ^ 16

/-- Signed reading of a 32-bit pattern, `(LONGLONG)` of a `LONG`. -/
def toInt32 (p : Nat) : Int :=
  if p % 2 ^ 32 < 2 ^ 31 then (p % 2 ^ 32 : Nat) else (p % 2 ^ 32 : Nat) - 2 ^ 32

/-- The state with Invalid-Operation set: `State->FpuStatus.Ie = TRUE`. -/
def setIe (State : FAST486_STATE) : FAST486_STATE :=
  { State with FpuStatus := { State.FpuStatus with Ie := true } }

/-- The `switch (ModRegRm.Register)` that ends the handlers of D8/DC, DA and DE
(fpu.c 500-555, 647-702, 994-1049).  `Dest` is the logical index of the stack
register `DestOperand` points to, `Source` the value `SourceOperand` points
to: every arithmetic function reads its operands before it stores, so the
value read on entry is the value used.  `Fast486FpuSubtract` and
`Fast486FpuDivide` store nothing through `Result`, so no register is written
after them.  `TempResult` is the uninitialized local of
`Fast486FpuCompare`. -/
def fpuOperation (sm : ShiftModel) (State : FAST486_STATE) (Register Dest : Nat)
    (Source TempResult : FAST486_FPU_DATA_REG) : FAST486_STATE :=
  let DestOperand := FPU_ST State Dest
  match Register with
  | 0 =>
    let r := Fast486FpuAdd sm State DestOperand Source
    setST r.1 Dest r.2
  | 1 =>
    let r := Fast486FpuMultiply State DestOperand Source
    setST r.1 Dest r.2
  | 2 => Fast486FpuCompare sm State DestOperand Source TempResult
  | 3 => Fast486FpuPop (Fast486FpuCompare sm State DestOperand Source TempResult)
  | 4 => (Fast486FpuSubtract sm State DestOperand Source DestOperand).1
  | 5 => (Fast486FpuSubtract sm State Source DestOperand DestOperand).1
  | 6 => (Fast486FpuDivide State DestOperand Source DestOperand).1
  | 7 => (Fast486FpuDivide State Source DestOperand DestOperand).1
  | _ => State

/-- `Fast486FpuOpcodeD8DC` (fpu.c 408-558).  `Opcode` is `0xD8` or `0xDC`; `Value`
is what the memory read returns in the memory form (a `ULONGLONG` for `0xDC`,
a `ULONG` otherwise). -/
def Fast486FpuOpcodeD8DC (sm : ShiftModel) (State : FAST486_STATE) (Opcode : Nat)
    (ModRegRm : FAST486_MOD_REG_RM) (Value : Option Nat)
    (TempResult : FAST486_FPU_DATA_REG) : FAST486_STATE :=
  if FPU_GET_TAG State 0 = FPU_TAG_EMPTY then setIe State
  else if ModRegRm.Memory then
    match Value with
    | none => State
    | some v =>
      let MemoryData :=
        if Opcode = 0xDC then Fast486FpuFromDoubleReal v else Fast486FpuFromSingleReal v
      fpuOperation sm State ModRegRm.Register 0 MemoryData TempResult
  else if FPU_GET_TAG State ModRegRm.SecondRegister = FPU_TAG_EMPTY then setIe State
  else if Opcode = 0xDC then
    fpuOperation sm State ModRegRm.Register ModRegRm.SecondRegister (FPU_ST State 0) TempResult
  else
    fpuOperation sm State ModRegRm.Register 0 (FPU_ST State ModRegRm.SecondRegister) TempResult

/-- `Fast486FpuOpcodeDA` (fpu.c 582-705): the state after the call and whether
`Fast486Exception(State, FAST486_EXCEPTION_UD)` was called.  `Value` is the
`LONG` the memory read returns in the memory form. -/
def Fast486FpuOpcodeDA (sm : ShiftModel) (State : FAST486_STATE)
    (ModRegRm : FAST486_MOD_REG_RM) (Value : Option Nat)
    (TempResult : FAST486_FPU_DATA_REG) : FAST486_STATE × Bool :=
  if !ModRegRm.Memory then
    if ModRegRm.Register ≠ 5 ∧ ModRegRm.SecondRegister ≠ 1 then (State, true)
    else if FPU_GET_TAG State 0 = FPU_TAG_EMPTY ∨ FPU_GET_TAG State 1 = FPU_TAG_EMPTY then
      (setIe State, false)
    else
      (Fast486FpuPop (Fast486FpuPop
        (Fast486FpuCompare sm State (FPU_ST State 0) (FPU_ST State 1) TempResult)), false)
  else
    match Value with
    | none => (State, false)
    | some v =>
      let MemoryData := Fast486FpuFromInteger (toInt32 v)
      if FPU_GET_TAG State 0 = FPU_TAG_EMPTY then (setIe State, false)
      else (fpuOperation sm State ModRegRm.Register 0 MemoryData TempResult, false)

/-- `Fast486FpuOpcodeDE` (fpu.c 925-1054): the state after the call and whether
`Fast486Exception(State, FAST486_EXCEPTION_UD)` was called.  `Value` is the
`SHORT` the memory read returns in the memory form. -/
def Fast486FpuOpcodeDE (sm : ShiftModel) (State : FAST486_STATE)
    (ModRegRm : FAST486_MOD_REG_RM) (Value : Option Nat)
    (TempResult : FAST486_FPU_DATA_REG) : FAST486_STATE × Bool :=
  if FPU_GET_TAG State 0 = FPU_TAG_EMPTY then (setIe State, false)
  else if ModRegRm.Memory then
    match Value with
    | none => (State, false)
    | some v =>
      let MemoryData := Fast486FpuFromInteger (toInt16 v)
      (fpuOperation sm State ModRegRm.Register 0 MemoryData TempResult, false)
  else if ModRegRm.Register = 3 ∧ ModRegRm.SecondRegister ≠ 1 then (State, true)
  else if FPU_GET_TAG State ModRegRm.SecondRegister = FPU_TAG_EMPTY then (setIe State, false)
  else
    (Fast486FpuPop (fpuOperation sm State ModRegRm.Register ModRegRm.SecondRegister
      (FPU_ST State 0) TempResult), false)

/-- Byte `i` of the little-endian layout of `n`. -/
def byteAt (n i : Nat) : Nat := n / 256 ^ i % 256

/-- The 10 bytes FSTP builds in `Buffer` (fpu.c 825-826): the mantissa in bytes
0-7 and the `USHORT` `Exponent | (Sign ? 0x8000 : 0)` in bytes 8-9, in the
little-endian byte order of the host. -/
def encodeReal10 (v : FAST486_FPU_DATA_REG) : List Nat :=
  let Word := (v.Exponent ||| (if v.Sign then 0x8000 else 0)) % 2 ^ 16
  [byteAt (v.Mantissa % 2 ^ 64) 0, byteAt (v.Mantissa % 2 ^ 64) 1,
   byteAt (v.Mantissa % 2 ^ 64) 2, byteAt (v.Mantissa % 2 ^ 64) 3,
   byteAt (v.Mantissa % 2 ^ 64) 4, byteAt (v.Mantissa % 2 ^ 64) 5,
   byteAt (v.Mantissa % 2 ^ 64) 6, byteAt (v.Mantissa % 2 ^ 64) 7,
   byteAt Word 0, byteAt Word 1]

/-- The register value FLD reads out of the 10 bytes of `Buffer` (fpu.c 805-807):
`*((PULONGLONG)Buffer)`, `*((PUSHORT)&Buffer[8]) & (FPU_MAX_EXPONENT + 1)` and
`*((PUCHAR)&Buffer[9]) >> 7`. -/
def decodeReal10 (Buffer : List Nat) : FAST486_FPU_DATA_REG :=
  let b := fun i => Buffer.getD i 0 % 256
  { Mantissa := b 0 + b 1 * 256 + b 2 * 256 ^ 2 + b 3 * 256 ^ 3 + b 4 * 256 ^ 4
      + b 5 * 256 ^ 5 + b 6 * 256 ^ 6 + b 7 * 256 ^ 7
    Exponent := (b 8 + b 9 * 256) &&& (FPU_MAX_EXPONENT + 1)
    Sign := decide (b 9 >>> 7 ≠ 0) }

/-- What a call of `Fast486FpuOpcodeDB` leaves behind: the state, whether
`Fast486Exception(State, FAST486_EXCEPTION_UD)` was called, the `ULONG` passed
to `Fast486WriteModrmDwordOperands` and the 10 bytes passed to
`Fast486WriteMemory`, when the write was made and succeeded; and whether the
`ASSERT` of `Fast486FpuToInteger` failed during the call, in which case the
call does not return normally and the other fields hold what the statements
after the check leave if execution is continued past it. -/
structure OpcodeDBOut where
  State : FAST486_STATE
  Exception : Bool
  Dword : Option Nat
  Buffer : Option (List Nat)
  AssertFailed : Bool

/-- `Fast486FpuOpcodeDB` (fpu.c 707-901).  `DefaultControl` stands for the constant
`FAST486_FPU_DEFAULT_CONTROL`, which is defined in a header that is not among
the sources.  `Dword` and `Buffer` are what the memory reads of FILD and FLD
return, `WriteOk` says whether the memory write of FIST/FISTP/FSTP succeeds,
`Temp0` is the content of the uninitialized local `Temp` of FIST/FISTP and
`Next0` the content of the memory cell after it.  FIST/FISTP hand on whether
the `ASSERT` of `Fast486FpuToInteger` failed; no other path reaches it. -/
def Fast486FpuOpcodeDB (sm : ShiftModel) (State : FAST486_STATE)
    (ModRegRm : FAST486_MOD_REG_RM) (DefaultControl : FAST486_FPU_CONTROL)
    (Dword : Option Nat) (Buffer : Option (List Nat)) (WriteOk : Bool)
    (Temp0 Next0 : Nat) : OpcodeDBOut :=
  if ModRegRm.Memory then
    match ModRegRm.Register with
    | 0 =>
      match Dword with
      | none => ⟨State, false, none, none, false⟩
      | some v => ⟨Fast486FpuPush State (Fast486FpuFromInteger (toInt32 v)), false, none, none, false⟩
    | 2 | 3 =>
      if FPU_GET_TAG State 0 = FPU_TAG_EMPTY ∨ FPU_GET_TAG State 0 = FPU_TAG_SPECIAL then
        ⟨setIe State, false, none, none, false⟩
      else
        let Out := Fast486FpuToInteger sm State (FPU_ST State 0) Temp0 Next0
        if !Out.Ok then ⟨Out.State, false, none, none, Out.AssertFailed⟩
        else if (((Out.Result % 2 ^ 64) >>> 31) + 1) % 2 ^ 64 > 1 then
          ⟨setIe Out.State, false, none, none, Out.AssertFailed⟩
        else if !WriteOk then ⟨Out.State, false, none, none, Out.AssertFailed⟩
        else if ModRegRm.Register = 3 then
          ⟨Fast486FpuPop Out.State, false, some (Out.Result % 2 ^ 32), none, Out.AssertFailed⟩
        else ⟨Out.State, false, some (Out.Result % 2 ^ 32), none, Out.AssertFailed⟩
    | 5 =>
      match Buffer with
      | none => ⟨State, false, none, none, false⟩
      | some b => ⟨Fast486FpuPush State (decodeReal10 b), false, none, none, false⟩
    | 7 =>
      if FPU_GET_TAG State 0 = FPU_TAG_EMPTY ∨ FPU_GET_TAG State 0 = FPU_TAG_SPECIAL then
        ⟨setIe State, false, none, none, false⟩
      else if !WriteOk then ⟨State, false, none, none, false⟩
      else ⟨Fast486FpuPop State, false, none, some (encodeReal10 (FPU_ST State 0)), false⟩
    | _ => ⟨State, true, none, none, false⟩
  else
    let Code := (ModRegRm.Register <<< 3) ||| ModRegRm.SecondRegister
    if Code = 0x22 then
      ⟨{ State with FpuStatus := { State.FpuStatus with
          Ie := false, De := false, Ze := false, Oe := false, Ue := false, Pe := false,
          Sf := false, Es := false, Busy := false } }, false, none, none, false⟩
    else if Code = 0x23 then
      ⟨{ State with
          FpuControl := DefaultControl
          FpuStatus := ⟨false, false, false, false, false, false, false, false,
            false, false, 0, false, false⟩
          FpuTag := 0xFFFF }, false, none, none, false⟩
    else if Code = 0x20 ∨ Code = 0x21 then ⟨State, false, none, none, false⟩
    else ⟨State, true, none, none, false⟩

/-! ## Values used in the statements -/

/-- The negation the spec speaks of: only the sign bit is flipped. -/
def negate (x : FAST486_FPU_DATA_REG) : FAST486_FPU_DATA_REG :=
  { x with Sign := !x.Sign }

/-- The state after `FINIT` with zeroed data registers, rounding mode `Rc`. -/
def initState (Rc : Nat) : FAST486_STATE :=
  { FpuRegisters := fun _ => ⟨0, 0, false⟩
    FpuControl := ⟨Rc, 0⟩
    FpuStatus := ⟨false, false, false, false, false, false, false, false,
      false, false, 0, false, false⟩
    FpuTag := 0xFFFF }

/-- The real number an extended value stands for, as the data model defines it:
`(−1)^sign × (mantissa / 2^63) × 2^(exponent − BIAS)`. -/
def extValue (x : FAST486_FPU_DATA_REG) : ℚ :=
  (if x.Sign then -1 else 1) * ((x.Mantissa : ℚ) / 2 ^ 63) *
    (2 : ℚ) ^ ((x.Exponent : ℤ) - (FPU_REAL10_BIAS : ℤ))

/-- The real number a single-precision pattern with a normal exponent field
stands for (IEEE 754): `(−1)^s × (1 + f / 2^23) × 2^(e − 127)` with `s` bit 31,
`e` bits 23..30 and `f` bits 0..22 of the pattern. -/
def real4Value (Value : Nat) : ℚ :=
  (if Value / 2 ^ 31 % 2 = 1 then -1 else 1) * (1 + ((Value % 2 ^ 23 : Nat) : ℚ) / 2 ^ 23) *
    (2 : ℚ) ^ (((Value / 2 ^ 23 % 2 ^ 8 : Nat) : ℤ) - 127)

/-- Every sticky exception flag that is set in `before` is set in `after`. -/
def stickyKept (before after : FAST486_FPU_STATUS) : Prop :=
  (before.Ie = true → after.Ie = true) ∧ (before.De = true → after.De = true) ∧
  (before.Ze = true → after.Ze = true) ∧ (before.Oe = true → after.Oe = true) ∧
  (before.Ue = true → after.Ue = true) ∧ (before.Pe = true → after.Pe = true)

/-- The value `*Result` holds when `ASSERT(*Result >= 0LL)` (fpu.c 121) is
evaluated, for an operand that has passed the validity check: the shifted
mantissa read as a `LONGLONG`. -/
def ToIntegerAsserted (Value : FAST486_FPU_DATA_REG) : Int :=
  toInt64 ((Value.Mantissa >>> (63 - UnbiasedExp Value.Exponent).toNat) % 2 ^ 64)

/-- The logical index of the stack register `DestOperand` points to in
`Fast486FpuOpcodeD8DC` (fpu.c 470-496): `ST(SecondRegister)` for the register
forms of `0xDC`, `ST0` for the memory forms and the register forms of `0xD8`. -/
def d8dcDest (Opcode : Nat) (ModRegRm : FAST486_MOD_REG_RM) : Nat :=
  if ModRegRm.Memory then 0 else if Opcode = 0xDC then ModRegRm.SecondRegister else 0

end Fast486

namespace Widl

/-! ## The name hash of widl (tools/widl/hash.c)

The lookup tables are arrays of `unsigned char` declared with `128 * 3`
elements; a table is the list of its elements in index order, laid out in
the rows of the source. -/

/-- `Lookup_16` (hash.c 29-65). -/
def Lookup_16 : List Nat :=
  [
   0x00, 0x01, 0x02, 0x03, 0x04, 0x05, 0x06, 0x07, 0x08, 0x09, 0x0A, 0x0B, 0x0C,
   0x0D, 0x0E, 0x0F, 0x10, 0x11, 0x12, 0x13, 0x14, 0x15, 0x16, 0x17, 0x18, 0x19,
   0x1A, 0x1B, 0x1C, 0x1D, 0x1E, 0x1F, 0x20, 0x21, 0x22, 0x23, 0x24, 0x25, 0x26,
   0x27, 0x28, 0x29, 0x2A, 0x2B, 0x2C, 0x2D, 0x2E, 0x00, 0x30, 0x31, 0x32, 0x33,
   0x34, 0x35, 0x36, 0x37, 0x38, 0x39, 0x3A, 0x3B, 0x3C, 0x3D, 0x3E, 0x3F, 0x40,
   0x41, 0x42, 0x43, 0x44, 0x45, 0x46, 0x47, 0x48, 0x49, 0x4A, 0x4B, 0x4C, 0x4D,
   0x4E, 0x4F, 0x50, 0x51, 0x52, 0x53, 0x54, 0x55, 0x56, 0x56, 0x58, 0x55, 0x5A,
   0x5B, 0x5C, 0x5D, 0x5E, 0x5F, 0x60, 0x41, 0x42, 0x43, 0x44, 0x45, 0x46, 0x47,
   0x48, 0x49, 0x4A, 0x4B, 0x4C, 0x4D, 0x4E, 0x4F, 0x50, 0x51, 0x52, 0x53, 0x54,
   0x55, 0x56, 0x56, 0x58, 0x55, 0x5A, 0x7B, 0x7C, 0x7D, 0x7E, 0x7F,
   0x7F, 0x7F, 0x82, 0x46, 0x84, 0x85, 0x86, 0x87, 0x7F, 0x89, 0x53, 0x8B, 0x8C,
   0x7F, 0x7F, 0x7F, 0x7F, 0x91, 0x92, 0x93, 0x94, 0x95, 0x96, 0x96, 0x98, 0x99,
   0x53, 0x9B, 0x8C, 0x7F, 0x7F, 0x55, 0xA0, 0xA1, 0xA2, 0xA3, 0xA4, 0xA5, 0xA6,
   0xA7, 0xA8, 0xA9, 0x41, 0xAB, 0xAC, 0x96, 0xAE, 0xAF, 0xB0, 0xB1, 0x32, 0x33,
   0xB4, 0xB5, 0xB6, 0xB7, 0xB8, 0x31, 0x4F, 0xBB, 0xBC, 0xBD, 0xBE, 0xBF, 0x41,
   0x41, 0x41, 0x41, 0x41, 0x41, 0x41, 0x43, 0x45, 0x45, 0x45, 0x45, 0x49, 0x49,
   0x49, 0x49, 0x44, 0x4E, 0x4F, 0x4F, 0x4F, 0x4F, 0x4F, 0xD7, 0x4F, 0x55, 0x55,
   0x55, 0x55, 0x55, 0xDE, 0xDF, 0x41, 0x41, 0x41, 0x41, 0x41, 0x41, 0x41, 0x43,
   0x45, 0x45, 0x45, 0x45, 0x49, 0x49, 0x49, 0x49, 0x44, 0x4E, 0x4F, 0x4F, 0x4F,
   0x4F, 0x4F, 0xF7, 0x4F, 0x55, 0x55, 0x55, 0x55, 0x55, 0xDE, 0x55,
   0x41, 0x41, 0x43, 0x45, 0x4E, 0x4F, 0x55, 0x41, 0x41, 0x41, 0x41, 0x41, 0x41,
   0x43, 0x45, 0x45, 0x45, 0x45, 0x49, 0x49, 0x49, 0x49, 0x4E, 0x4F, 0x4F, 0x4F,
   0x4F, 0x4F, 0x55, 0x55, 0x55, 0x55, 0xA0, 0xA1, 0xA2, 0xA3, 0xA4, 0xA5, 0xA6,
   0xA7, 0xA8, 0xA9, 0xAA, 0xAB, 0xAC, 0xAD, 0x41, 0x4F, 0xB0, 0xB1, 0xB2, 0xB3,
   0xB4, 0xB5, 0xB6, 0xB7, 0xB8, 0xB9, 0xBA, 0x41, 0x4F, 0xBD, 0x41, 0x4F, 0xC0,
   0xC1, 0xC2, 0xC3, 0x46, 0xC5, 0xC6, 0xC7, 0xC8, 0xC9, 0xCA, 0x41, 0x41, 0x4F,
   0xCE, 0xCE, 0xD0, 0xD0, 0xD2, 0xD3, 0xD4, 0xD5, 0xD6, 0xD7, 0x55, 0x55, 0xDA,
   0xDB, 0xDC, 0xDD, 0x3F, 0x3F, 0xE0, 0xE1, 0xE2, 0xE3, 0xE4, 0x41, 0x45, 0x41,
   0x45, 0x45, 0x49, 0x49, 0x49, 0x49, 0x4F, 0x4F, 0x3F, 0x4F, 0x55, 0x55, 0x55,
   0x49, 0x7F, 0xF7, 0x7F, 0xF9, 0xFA, 0xFB, 0x3F, 0xFD, 0xFE, 0x7F]

/-- `Lookup_32` (hash.c 67-103). -/
def Lookup_32 : List Nat :=
  [
   0x00, 0x01, 0x02, 0x03, 0x04, 0x05, 0x06, 0x07, 0x08, 0x09, 0x0A, 0x0B, 0x0C,
   0x0D, 0x0E, 0x0F, 0x10, 0x11, 0x12, 0x13, 0x14, 0x15, 0x16, 0x17, 0x18, 0x19,
   0x1A, 0x1B, 0x1C, 0x1D, 0x1E, 0x1F, 0x20, 0x21, 0x22, 0x23, 0x24, 0x25, 0x26,
   0x27, 0x28, 0x29, 0x2A, 0x2B, 0x2C, 0x2D, 0x2E, 0x00, 0x30, 0x31, 0x32, 0x33,
   0x34, 0x35, 0x36, 0x37, 0x38, 0x39, 0x3A, 0x3B, 0x3C, 0x3D, 0x3E, 0x3F, 0x40,
   0x41, 0x42, 0x43, 0x44, 0x45, 0x46, 0x47, 0x48, 0x49, 0x4A, 0x4B, 0x4C, 0x4D,
   0x4E, 0x4F, 0x50, 0x51, 0x52, 0x53, 0x54, 0x55, 0x56, 0x57, 0x58, 0x59, 0x5A,
   0x5B, 0x5C, 0x5D, 0x5E, 0x5F, 0x60, 0x41, 0x42, 0x43, 0x44, 0x45, 0x46, 0x47,
   0x48, 0x49, 0x4A, 0x4B, 0x4C, 0x4D, 0x4E, 0x4F, 0x50, 0x51, 0x52, 0x53, 0x54,
   0x55, 0x56, 0x57, 0x58, 0x59, 0x5A, 0x7B, 0x7C, 0x7D, 0x7E, 0x7F,
   0x7F, 0x7F, 0x82, 0x7F, 0x84, 0x85, 0x86, 0x87, 0x7F, 0x89, 0x53, 0x8B, 0x53,
   0x54, 0x5A, 0x5A, 0x7F, 0x91, 0x92, 0x93, 0x94, 0x95, 0x96, 0x96, 0x7F, 0x99,
   0x53, 0x9B, 0x53, 0x54, 0x5A, 0x5A, 0xA0, 0x7F, 0xA2, 0x4C, 0xA4, 0x41, 0xA6,
   0xA7, 0xA8, 0xA9, 0x53, 0xAB, 0xAC, 0x96, 0xAE, 0x5A, 0xB0, 0xB1, 0xB2, 0x4C,
   0xB4, 0xB5, 0xB6, 0xB7, 0xB8, 0x41, 0x53, 0xBB, 0x4C, 0xBD, 0x4C, 0x5A, 0x52,
   0x41, 0x41, 0x41, 0x41, 0x4C, 0x43, 0x43, 0x43, 0x45, 0x45, 0x45, 0x45, 0x49,
   0x49, 0x44, 0xD0, 0x4E, 0x4E, 0x4F, 0x4F, 0x4F, 0x4F, 0xD7, 0x52, 0x55, 0x55,
   0x55, 0x55, 0x59, 0x54, 0xDF, 0x52, 0x41, 0x41, 0x41, 0x41, 0x4C, 0x43, 0x43,
   0x43, 0x45, 0x45, 0x45, 0x45, 0x49, 0x49, 0x44, 0xD0, 0x4E, 0x4E, 0x4F, 0x4F,
   0x4F, 0x4F, 0xF7, 0x52, 0x55, 0x55, 0x55, 0x55, 0x59, 0x54, 0xFF,
   0x41, 0x41, 0x41, 0x45, 0x41, 0x4F, 0x55, 0x41, 0x41, 0x43, 0x41, 0x43, 0x43,
   0x43, 0x45, 0x5A, 0x5A, 0x44, 0x49, 0x44, 0x45, 0x45, 0x45, 0x4F, 0x45, 0x4F,
   0x4F, 0x4F, 0x55, 0x45, 0x45, 0x55, 0xA0, 0xA1, 0x45, 0xA3, 0xA4, 0xA5, 0xA6,
   0xA7, 0xA8, 0xA9, 0xAA, 0x45, 0xAC, 0xAD, 0x47, 0x49, 0x49, 0x49, 0xB2, 0xB3,
   0x49, 0x4B, 0xB6, 0xB7, 0x4C, 0x4C, 0x4C, 0x4C, 0x4C, 0x4C, 0x4C, 0x4E, 0x4E,
   0x4E, 0xC2, 0xC3, 0x4E, 0x4E, 0xC6, 0xC7, 0xC8, 0xC9, 0xCA, 0x4E, 0x4F, 0x4F,
   0x4F, 0x4F, 0xD0, 0xD0, 0xD2, 0xD3, 0xD4, 0xD5, 0xD6, 0xD7, 0x4F, 0x52, 0x52,
   0x52, 0xDC, 0xDD, 0x52, 0x52, 0x52, 0x53, 0xE2, 0xE3, 0x53, 0x53, 0x53, 0x41,
   0x54, 0x54, 0x49, 0x5A, 0x5A, 0x55, 0x4F, 0x4F, 0x55, 0x55, 0x55, 0x55, 0x55,
   0x55, 0x55, 0x55, 0x59, 0x59, 0x4B, 0x5A, 0x4C, 0x4C, 0x47, 0xFF]

/-- `Lookup_48` (hash.c 105-141). -/
def Lookup_48 : List Nat :=
  [
   0x00, 0x01, 0x02, 0x03, 0x04, 0x05, 0x06, 0x07, 0x08, 0x09, 0x0A, 0x0B, 0x0C,
   0x0D, 0x0E, 0x0F, 0x10, 0x11, 0x12, 0x13, 0x14, 0x15, 0x16, 0x17, 0x18, 0x19,
   0x1A, 0x1B, 0x1C, 0x1D, 0x1E, 0x1F, 0x20, 0x21, 0x22, 0x23, 0x24, 0x25, 0x26,
   0x27, 0x28, 0x29, 0x2A, 0x2B, 0x2C, 0x2D, 0x2E, 0x00, 0x30, 0x31, 0x32, 0x33,
   0x34, 0x35, 0x36, 0x37, 0x38, 0x39, 0x3A, 0x3B, 0x3C, 0x3D, 0x3E, 0x3F, 0x40,
   0x41, 0x42, 0x43, 0x44, 0x45, 0x46, 0x47, 0x48, 0x49, 0x4A, 0x4B, 0x4C, 0x4D,
   0x4E, 0x4F, 0x50, 0x51, 0x52, 0x53, 0x54, 0x55, 0x56, 0x57, 0x58, 0x59, 0x5A,
   0x5B, 0x5C, 0x5D, 0x5E, 0x5F, 0x60, 0x41, 0x42, 0x43, 0x44, 0x45, 0x46, 0x47,
   0x48, 0x49, 0x4A, 0x4B, 0x4C, 0x4D, 0x4E, 0x4F, 0x50, 0x51, 0x52, 0x53, 0x54,
   0x55, 0x56, 0x57, 0x58, 0x59, 0x5A, 0x7B, 0x7C, 0x7D, 0x7E, 0x7F,
   0x7F, 0x7F, 0x82, 0x46, 0x84, 0x85, 0x86, 0x87, 0x7F, 0x89, 0x53, 0x8B, 0x8C,
   0x7F, 0x7F, 0x7F, 0x7F, 0x91, 0x92, 0x93, 0x94, 0x95, 0x96, 0x96, 0x98, 0x99,
   0x53, 0x9B, 0x8C, 0x7F, 0x7F, 0x59, 0xA0, 0xA1, 0xA2, 0xA3, 0xA4, 0xA5, 0xA6,
   0xA7, 0xA8, 0xA9, 0x41, 0xAB, 0xAC, 0x96, 0xAE, 0xAF, 0xB0, 0xB1, 0x32, 0x33,
   0xB4, 0xB5, 0xB6, 0xB7, 0xB8, 0x31, 0x4F, 0xBB, 0xBC, 0xBD, 0xBE, 0xBF, 0x41,
   0x41, 0x41, 0x41, 0x41, 0x41, 0xC6, 0x43, 0x45, 0x45, 0x45, 0x45, 0x49, 0x49,
   0x49, 0x49, 0xD0, 0x4E, 0x4F, 0x4F, 0x4F, 0x4F, 0x4F, 0xD7, 0x4F, 0x55, 0x55,
   0x55, 0x55, 0x59, 0xDE, 0xDF, 0x41, 0x41, 0x41, 0x41, 0x41, 0x41, 0xC6, 0x43,
   0x45, 0x45, 0x45, 0x45, 0x49, 0x49, 0x49, 0x49, 0xD0, 0x4E, 0x4F, 0x4F, 0x4F,
   0x4F, 0x4F, 0xF7, 0x4F, 0x55, 0x55, 0x55, 0x55, 0x59, 0xDE, 0x59,
   0x80, 0x81, 0x82, 0x83, 0x84, 0x85, 0x86, 0x87, 0x88, 0x89, 0x8A, 0x8B, 0x8C,
   0x8D, 0x8E, 0x8F, 0x90, 0x91, 0x92, 0x93, 0x94, 0x95, 0x96, 0x97, 0x98, 0x99,
   0x9A, 0x9B, 0x9C, 0x9D, 0x9E, 0x9F, 0xA0, 0xA1, 0xA2, 0xA3, 0xA4, 0xA5, 0xA6,
   0xA7, 0xA8, 0xA9, 0xAA, 0xAB, 0xAB, 0xAD, 0xAE, 0xAE, 0xB0, 0xB1, 0xB2, 0xB3,
   0xA7, 0xB5, 0xB6, 0xB7, 0xB8, 0xB8, 0xBA, 0xBA, 0xBC, 0xBC, 0xBE, 0xBE, 0xB7,
   0xC1, 0xC2, 0xC3, 0x46, 0xC5, 0xC6, 0xC7, 0xC8, 0xC9, 0xCA, 0xCB, 0xCB, 0xCD,
   0xCD, 0xC1, 0xD0, 0xD0, 0xD2, 0xD3, 0xD4, 0xD5, 0xD6, 0xD7, 0xD8, 0xD8, 0xDA,
   0xDA, 0xDC, 0xDD, 0xDD, 0x9F, 0x80, 0x81, 0x82, 0x83, 0x84, 0x85, 0x86, 0x87,
   0x88, 0x89, 0x8A, 0x8B, 0x8C, 0x8D, 0x8E, 0x8F, 0x90, 0x91, 0x92, 0x93, 0x94,
   0x95, 0x96, 0x97, 0x98, 0x99, 0x9A, 0x9B, 0x9C, 0x9D, 0x9E, 0x9F]

/-- `Lookup_64` (hash.c 143-178).  The initializer list has 371 values for the
`128 * 3` declared elements: its first row starts at `0x0D`.  The elements
without an initializer are zero. -/
def Lookup_64 : List Nat :=
  [
   0x0D, 0x0E, 0x0F, 0x10, 0x11, 0x12, 0x13, 0x14, 0x15, 0x16, 0x17, 0x18, 0x19,
   0x1A, 0x1B, 0x1C, 0x1D, 0x1E, 0x1F, 0x20, 0x21, 0x22, 0x23, 0x24, 0x25, 0x26,
   0x27, 0x28, 0x29, 0x2A, 0x2B, 0x2C, 0x2D, 0x2E, 0x00, 0x30, 0x31, 0x32, 0x33,
   0x34, 0x35, 0x36, 0x37, 0x38, 0x39, 0x3A, 0x3B, 0x3C, 0x3D, 0x3E, 0x3F, 0x40,
   0x41, 0x42, 0x43, 0x44, 0x45, 0x46, 0x47, 0x48, 0x49, 0x4A, 0x4B, 0x4C, 0x4D,
   0x4E, 0x4F, 0x50, 0x51, 0x52, 0x53, 0x54, 0x55, 0x56, 0x56, 0x58, 0x55, 0x5A,
   0x5B, 0x5C, 0x5D, 0x5E, 0x5F, 0x60, 0x41, 0x42, 0x43, 0x44, 0x45, 0x46, 0x47,
   0x48, 0x49, 0x4A, 0x4B, 0x4C, 0x4D, 0x4E, 0x4F, 0x50, 0x51, 0x52, 0x53, 0x54,
   0x55, 0x56, 0x56, 0x58, 0x55, 0x5A, 0x7B, 0x7C, 0x7D, 0x7E, 0x7F,
   0x00, 0x00, 0x00, 0x00, 0x00, 0x00, 0x00, 0x00, 0x00, 0x00, 0x00, 0x00, 0x00,
   0x00, 0x00, 0x00, 0x00, 0x00, 0x00, 0x00, 0x00, 0x00, 0x00, 0x00, 0x00, 0x00,
   0x00, 0x00, 0x00, 0x00, 0x00, 0x00, 0x00, 0xA1, 0xA2, 0xA3, 0xA4, 0xA5, 0xA6,
   0xA7, 0xA8, 0xA9, 0x41, 0xAB, 0xAC, 0x96, 0xAE, 0xAF, 0xB0, 0xB1, 0x32, 0x33,
   0xB4, 0xB5, 0xB6, 0xB7, 0xB8, 0x31, 0x4F, 0xBB, 0xBC, 0xBD, 0xBE, 0xBF, 0x41,
   0x41, 0x41, 0x41, 0x41, 0x41, 0x41, 0x43, 0x45, 0x45, 0x45, 0x45, 0x49, 0x49,
   0x49, 0x49, 0x44, 0x4E, 0x4F, 0x4F, 0x4F, 0x4F, 0x4F, 0xD7, 0x4F, 0x55, 0x55,
   0x55, 0x55, 0x55, 0xDE, 0xDF, 0x00, 0x00, 0x00, 0x00, 0x00, 0x00, 0x00, 0x00,
   0x00, 0x00, 0x00, 0x00, 0x00, 0x00, 0x00, 0x00, 0x00, 0x00, 0x00, 0x00, 0x00,
   0x00, 0x00, 0x00, 0x00, 0x00, 0x00, 0x00, 0x00, 0x00, 0x00, 0x00,
   0x00, 0x00, 0x00, 0x00, 0x00, 0x00, 0x00, 0x00, 0x00, 0x00, 0x00, 0x00, 0x00,
   0x00, 0x00, 0x00, 0x00, 0x00, 0x00, 0x00, 0x00, 0x00, 0x00, 0x00, 0x00, 0x00,
   0x00, 0x00, 0x00, 0x00, 0x00, 0x00, 0x00, 0xA1, 0xA2, 0xA3, 0xA4, 0xA5, 0xA6,
   0xA7, 0xA8, 0xA9, 0x41, 0xAB, 0xAC, 0x96, 0xAE, 0xAF, 0xB0, 0xB1, 0x32, 0x33,
   0xB4, 0xB5, 0xB6, 0xB7, 0xB8, 0x31, 0x4F, 0xBB, 0xBC, 0xBD, 0xBE, 0xBF, 0x41,
   0x41, 0x41, 0x41, 0x41, 0x41, 0x41, 0x43, 0x45, 0x45, 0x45, 0x45, 0x49, 0x49,
   0x49, 0x49, 0x44, 0x4E, 0x4F, 0x4F, 0x4F, 0x4F, 0x4F, 0xD7, 0x4F, 0x55, 0x55,
   0x55, 0x55, 0x55, 0xDE, 0xDF, 0x00, 0x00, 0x00, 0x00, 0x00, 0x00, 0x00, 0x00,
   0x00, 0x00, 0x00, 0x00, 0x00, 0x00, 0x00, 0x00, 0x00, 0x00, 0x00, 0x00, 0x00,
   0x00, 0x00, 0x00, 0x00, 0x00, 0x00, 0x00, 0x00, 0x00, 0x00, 0x00]
  ++ List.replicate 13 0

/-- `Lookup_80` (hash.c 180-216). -/
def Lookup_80 : List Nat :=
  [
   0x00, 0x01, 0x02, 0x03, 0x04, 0x05, 0x06, 0x07, 0x08, 0x09, 0x0A, 0x0B, 0x0C,
   0x0D, 0x0E, 0x0F, 0x10, 0x11, 0x12, 0x13, 0x14, 0x15, 0x16, 0x17, 0x18, 0x19,
   0x1A, 0x1B, 0x1C, 0x1D, 0x1E, 0x1F, 0x20, 0x21, 0x22, 0x23, 0x24, 0x25, 0x26,
   0x27, 0x28, 0x29, 0x2A, 0x2B, 0x2C, 0x2D, 0x2E, 0x00, 0x30, 0x31, 0x32, 0x33,
   0x34, 0x35, 0x36, 0x37, 0x38, 0x39, 0x3A, 0x3B, 0x3C, 0x3D, 0x3E, 0x3F, 0x40,
   0x41, 0x42, 0x43, 0x44, 0x45, 0x46, 0x47, 0x48, 0x49, 0x4A, 0x4B, 0x4C, 0x4D,
   0x4E, 0x4F, 0x50, 0x51, 0x52, 0x53, 0x54, 0x55, 0x56, 0x56, 0x58, 0x55, 0x5A,
   0x5B, 0x5C, 0x5D, 0x5E, 0x5F, 0x60, 0x41, 0x42, 0x43, 0x44, 0x45, 0x46, 0x47,
   0x48, 0x49, 0x4A, 0x4B, 0x4C, 0x4D, 0x4E, 0x4F, 0x50, 0x51, 0x52, 0x53, 0x54,
   0x55, 0x56, 0x56, 0x58, 0x55, 0x5A, 0x7B, 0x7C, 0x7D, 0x7E, 0x7F,
   0x7F, 0x00, 0x00, 0x00, 0x00, 0x00, 0x00, 0x00, 0x00, 0x00, 0x00, 0x00, 0x00,
   0x00, 0x00, 0x00, 0x00, 0x00, 0x00, 0x00, 0x00, 0x00, 0x00, 0x00, 0x00, 0x00,
   0x00, 0x00, 0x00, 0x00, 0x00, 0x00, 0x00, 0x00, 0x00, 0x00, 0x00, 0x00, 0x00,
   0x00, 0x00, 0x00, 0x00, 0x00, 0x00, 0x00, 0x00, 0x00, 0x00, 0x00, 0x00, 0x00,
   0x00, 0x00, 0x00, 0x00, 0x00, 0x00, 0x00, 0x00, 0x00, 0x00, 0x00, 0x00, 0x00,
   0x00, 0x00, 0x00, 0x00, 0x00, 0x00, 0x00, 0x00, 0x00, 0x00, 0x00, 0x00, 0x00,
   0x00, 0x00, 0x00, 0x00, 0x00, 0x00, 0x00, 0x00, 0x00, 0x00, 0x00, 0x00, 0x00,
   0x00, 0x00, 0x00, 0x00, 0x00, 0x00, 0x00, 0x00, 0x00, 0x00, 0x00, 0x00, 0x00,
   0x00, 0x00, 0x00, 0x00, 0x00, 0x00, 0x00, 0x00, 0x00, 0x00, 0x00, 0x00, 0x00,
   0x00, 0x00, 0x00, 0x00, 0x00, 0x00, 0x00, 0x00, 0x00, 0x00, 0x55,
   0x7F, 0x00, 0x00, 0x00, 0x00, 0x00, 0x00, 0x00, 0x00, 0x00, 0x00, 0x00, 0x00,
   0x00, 0x00, 0x00, 0x00, 0x00, 0x00, 0x00, 0x00, 0x00, 0x00, 0x00, 0x00, 0x00,
   0x00, 0x00, 0x00, 0x00, 0x00, 0x00, 0x00, 0x00, 0x00, 0x00, 0x00, 0x00, 0x00,
   0x00, 0x00, 0x00, 0x00, 0x00, 0x00, 0x00, 0x00, 0x00, 0x00, 0x00, 0x00, 0x00,
   0x00, 0x00, 0x00, 0x00, 0x00, 0x00, 0x00, 0x00, 0x00, 0x00, 0x00, 0x00, 0x00,
   0x00, 0x00, 0x00, 0x00, 0x00, 0x00, 0x00, 0x00, 0x00, 0x00, 0x00, 0x00, 0x00,
   0x00, 0x00, 0x00, 0x00, 0x00, 0x00, 0x00, 0x00, 0x00, 0x00, 0x00, 0x00, 0x00,
   0x00, 0x00, 0x00, 0x00, 0x00, 0x00, 0x00, 0x00, 0x00, 0x00, 0x00, 0x00, 0x00,
   0x00, 0x00, 0x00, 0x00, 0x00, 0x00, 0x00, 0x00, 0x00, 0x00, 0x00, 0x00, 0x00,
   0x00, 0x00, 0x00, 0x00, 0x00, 0x00, 0x00, 0x00, 0x00, 0x00, 0x55]

/-- `Lookup_112` (hash.c 218-254). -/
def Lookup_112 : List Nat :=
  [
   0x00, 0x01, 0x02, 0x03, 0x04, 0x05, 0x06, 0x07, 0x08, 0x09, 0x0A, 0x0B, 0x0C,
   0x0D, 0x0E, 0x0F, 0x10, 0x11, 0x12, 0x13, 0x14, 0x15, 0x16, 0x17, 0x18, 0x19,
   0x1A, 0x1B, 0x1C, 0x1D, 0x1E, 0x1F, 0x20, 0x21, 0x22, 0x23, 0x24, 0x25, 0x26,
   0x27, 0x28, 0x29, 0x2A, 0x2B, 0x2C, 0x2D, 0x2E, 0x00, 0x30, 0x31, 0x32, 0x33,
   0x34, 0x35, 0x36, 0x37, 0x38, 0x39, 0x3A, 0x3B, 0x3C, 0x3D, 0x3E, 0x3F, 0x40,
   0x41, 0x42, 0x43, 0x44, 0x45, 0x46, 0x47, 0x48, 0x49, 0x4A, 0x4B, 0x4C, 0x4D,
   0x4E, 0x4F, 0x50, 0x51, 0x52, 0x53, 0x54, 0x55, 0x56, 0x56, 0x58, 0x55, 0x5A,
   0x5B, 0x5C, 0x5D, 0x5E, 0x5F, 0x60, 0x41, 0x42, 0x43, 0x44, 0x45, 0x46, 0x47,
   0x48, 0x49, 0x4A, 0x4B, 0x4C, 0x4D, 0x4E, 0x4F, 0x50, 0x51, 0x52, 0x53, 0x54,
   0x55, 0x56, 0x56, 0x58, 0x55, 0x5A, 0x7B, 0x7C, 0x7D, 0x7E, 0x7F,
   0x7F, 0x00, 0x00, 0x00, 0x00, 0x00, 0x00, 0x00, 0x00, 0x00, 0x00, 0x00, 0x00,
   0x00, 0x00, 0x00, 0x00, 0x00, 0x00, 0x00, 0x00, 0x00, 0x00, 0x00, 0x00, 0x00,
   0x00, 0x00, 0x00, 0x00, 0x00, 0x00, 0x00, 0x00, 0x00, 0x00, 0x00, 0x00, 0x00,
   0x00, 0x00, 0x00, 0x00, 0x00, 0x00, 0x00, 0x00, 0x00, 0x00, 0x00, 0x00, 0x00,
   0x00, 0x00, 0x00, 0x00, 0x00, 0x00, 0x00, 0x00, 0x00, 0x00, 0x00, 0x00, 0x00,
   0x00, 0x00, 0x00, 0x00, 0x00, 0x00, 0x00, 0x00, 0x00, 0x00, 0x00, 0x00, 0x00,
   0x00, 0x00, 0x00, 0x00, 0x00, 0x00, 0x00, 0x00, 0x00, 0x00, 0x00, 0x00, 0x00,
   0x00, 0x00, 0x00, 0x00, 0x00, 0x00, 0x00, 0x00, 0x00, 0x00, 0x00, 0x00, 0x00,
   0x00, 0x00, 0x00, 0x00, 0x00, 0x00, 0x00, 0x00, 0x00, 0x00, 0x00, 0x00, 0x00,
   0x00, 0x00, 0x00, 0x00, 0x00, 0x00, 0x00, 0x00, 0x00, 0x00, 0x55,
   0x7F, 0x00, 0x00, 0x00, 0x00, 0x00, 0x00, 0x00, 0x00, 0x00, 0x00, 0x00, 0x00,
   0x00, 0x00, 0x00, 0x00, 0x00, 0x00, 0x00, 0x00, 0x00, 0x00, 0x00, 0x00, 0x00,
   0x00, 0x00, 0x00, 0x00, 0x00, 0x00, 0x00, 0x00, 0x00, 0x00, 0x00, 0x00, 0x00,
   0x00, 0x00, 0x00, 0x00, 0x00, 0x00, 0x00, 0x00, 0x00, 0x00, 0x00, 0x00, 0x00,
   0x00, 0x00, 0x00, 0x00, 0x00, 0x00, 0x00, 0x00, 0x00, 0x00, 0x00, 0x00, 0x00,
   0x00, 0x00, 0x00, 0x00, 0x00, 0x00, 0x00, 0x00, 0x00, 0x00, 0x00, 0x00, 0x00,
   0x00, 0x00, 0x00, 0x00, 0x00, 0x00, 0x00, 0x00, 0x00, 0x00, 0x00, 0x00, 0x00,
   0x00, 0x00, 0x00, 0x00, 0x00, 0x00, 0x00, 0x00, 0x00, 0x00, 0x00, 0x00, 0x00,
   0x00, 0x00, 0x00, 0x00, 0x00, 0x00, 0x00, 0x00, 0x00, 0x00, 0x00, 0x00, 0x00,
   0x00, 0x00, 0x00, 0x00, 0x00, 0x00, 0x00, 0x00, 0x00, 0x00, 0x55]

/-- `Lookup_128` (hash.c 256-292). -/
def Lookup_128 : List Nat :=
  [
   0x00, 0x01, 0x02, 0x03, 0x04, 0x05, 0x06, 0x07, 0x08, 0x09, 0x0A, 0x0B, 0x0C,
   0x0D, 0x0E, 0x0F, 0x10, 0x11, 0x12, 0x13, 0x14, 0x15, 0x16, 0x17, 0x18, 0x19,
   0x1A, 0x1B, 0x1C, 0x1D, 0x1E, 0x1F, 0x20, 0x21, 0x22, 0x23, 0x24, 0x25, 0x26,
   0x27, 0x28, 0x29, 0x2A, 0x2B, 0x2C, 0x2D, 0x2E, 0x2F, 0x30, 0x31, 0x32, 0x33,
   0x34, 0x35, 0x36, 0x37, 0x38, 0x39, 0x3A, 0x3B, 0x3C, 0x3D, 0x3E, 0x3F, 0x40,
   0x41, 0x42, 0x43, 0x44, 0x45, 0x46, 0x47, 0x48, 0x49, 0x4A, 0x4B, 0x4C, 0x4D,
   0x4E, 0x4F, 0x50, 0x51, 0x52, 0x53, 0x54, 0x55, 0x56, 0x57, 0x58, 0x59, 0x5A,
   0x5B, 0x5C, 0x5D, 0x5E, 0x5F, 0x60, 0x41, 0x42, 0x43, 0x44, 0x45, 0x46, 0x47,
   0x48, 0x49, 0x4A, 0x4B, 0x4C, 0x4D, 0x4E, 0x4F, 0x50, 0x51, 0x52, 0x53, 0x54,
   0x55, 0x56, 0x57, 0x58, 0x59, 0x5A, 0x7B, 0x7C, 0x7D, 0x7E, 0x00,
   0x00, 0x00, 0x82, 0x46, 0x84, 0x85, 0x86, 0x87, 0x00, 0x89, 0x00, 0x8B, 0x00,
   0x00, 0x00, 0x00, 0x00, 0x91, 0x92, 0x93, 0x94, 0x95, 0x2D, 0x2D, 0x00, 0x99,
   0x00, 0x9B, 0x00, 0x00, 0x00, 0x00, 0x09, 0xA1, 0xA2, 0xA3, 0xA4, 0xA5, 0xA6,
   0xA7, 0xA8, 0xA9, 0x00, 0xAB, 0xAC, 0x2D, 0xAE, 0x2D, 0xB0, 0xB1, 0x32, 0x33,
   0xB4, 0xB5, 0xB6, 0xB7, 0xB8, 0xB9, 0xBA, 0xBB, 0xBC, 0xBD, 0xBE, 0xBF, 0xBA,
   0xA2, 0xC2, 0xC3, 0xC4, 0xB8, 0xC6, 0xB9, 0xC8, 0xBA, 0xCA, 0xCB, 0xCC, 0xCD,
   0xCE, 0xBC, 0xD0, 0xD1, 0x00, 0xD3, 0xD4, 0xBE, 0xD6, 0xD7, 0xD8, 0xBF, 0xBA,
   0xBE, 0xA2, 0xB8, 0xB9, 0xBA, 0xBE, 0xA2, 0xC2, 0xC3, 0xC4, 0xB8, 0xC6, 0xB9,
   0xC8, 0xBA, 0xCA, 0xCB, 0xCC, 0xCD, 0xCE, 0xBC, 0xD0, 0xD1, 0xD3, 0xD3, 0xD4,
   0xBE, 0xD6, 0xD7, 0xD8, 0xBF, 0xBA, 0xBE, 0xBC, 0xBE, 0xBF, 0x00,
   0x41, 0x31, 0x32, 0x45, 0x33, 0x4F, 0x55, 0x87, 0x41, 0x41, 0x41, 0x00, 0x8C,
   0x43, 0x45, 0x45, 0x45, 0x45, 0x92, 0x93, 0x49, 0x49, 0x96, 0x97, 0x98, 0x4F,
   0x4F, 0x9B, 0x3F, 0x55, 0x55, 0x55, 0xA0, 0xA1, 0xA2, 0xA3, 0xA4, 0xA5, 0xA6,
   0xA7, 0xA8, 0xA9, 0xAA, 0xAB, 0xAC, 0xAD, 0xAE, 0xAF, 0xB0, 0xB1, 0xB2, 0xB3,
   0xB4, 0xB5, 0xB6, 0xB7, 0xB8, 0xAB, 0xBA, 0xBB, 0xBC, 0xBD, 0xBE, 0xBF, 0xB0,
   0xC1, 0xC2, 0xC3, 0xC4, 0xC5, 0xC6, 0xC7, 0xC8, 0xC9, 0x09, 0xBD, 0xCC, 0xB0,
   0xB6, 0xCF, 0x2D, 0x2D, 0xD2, 0xD3, 0xD4, 0xD5, 0xD6, 0xB8, 0xAB, 0xC3, 0xBD,
   0xB6, 0xB8, 0xAB, 0xC3, 0xBF, 0xBD, 0xB0, 0xB5, 0xBE, 0xA2, 0xB6, 0xBC, 0xA1,
   0xB8, 0xAB, 0xA5, 0xBA, 0xA4, 0xBB, 0xC1, 0xC3, 0xA6, 0xBF, 0xC4, 0xAA, 0xC6,
   0xA3, 0xBF, 0xAA, 0xCC, 0xBD, 0xB7, 0xAB, 0xBD, 0xAB, 0xBD, 0x3F]

/-- `Lookup_144` (hash.c 294-330). -/
def Lookup_144 : List Nat :=
  [
   0x00, 0x01, 0x02, 0x03, 0x04, 0x05, 0x06, 0x07, 0x08, 0x09, 0x0A, 0x0B, 0x0C,
   0x0D, 0x0E, 0x0F, 0x10, 0x11, 0x12, 0x13, 0x14, 0x15, 0x16, 0x17, 0x18, 0x19,
   0x1A, 0x1B, 0x1C, 0x1D, 0x1E, 0x1F, 0x20, 0x21, 0x22, 0x23, 0x24, 0x25, 0x26,
   0x27, 0x28, 0x29, 0x2A, 0x2B, 0x2C, 0x2D, 0x2E, 0x2F, 0x30, 0x31, 0x32, 0x33,
   0x34, 0x35, 0x36, 0x37, 0x38, 0x39, 0x3A, 0x3B, 0x3C, 0x3D, 0x3E, 0x3F, 0x40,
   0x41, 0x42, 0x43, 0x44, 0x45, 0x46, 0x47, 0x48, 0x49, 0x4A, 0x4B, 0x4C, 0x4D,
   0x4E, 0x4F, 0x50, 0x51, 0x52, 0x53, 0x54, 0x55, 0x56, 0x57, 0x58, 0x59, 0x5A,
   0x5B, 0x5C, 0x5D, 0x5E, 0x5F, 0x60, 0x41, 0x42, 0x43, 0x44, 0x45, 0x46, 0x47,
   0x48, 0x49, 0x4A, 0x4B, 0x4C, 0x4D, 0x4E, 0x4F, 0x50, 0x51, 0x52, 0x53, 0x54,
   0x55, 0x56, 0x57, 0x58, 0x59, 0x5A, 0x7B, 0x7C, 0x7D, 0x7E, 0x00,
   0x00, 0x00, 0x82, 0x46, 0x84, 0x85, 0x86, 0x87, 0x00, 0x89, 0x53, 0x8B, 0x8C,
   0x00, 0x00, 0x00, 0x00, 0x91, 0x92, 0x93, 0x94, 0x95, 0x2D, 0x2D, 0x98, 0x99,
   0x53, 0x9B, 0x8C, 0x00, 0x00, 0x59, 0x09, 0xA1, 0xA2, 0xA3, 0xA4, 0xA5, 0xA6,
   0xA7, 0xA8, 0xA9, 0x41, 0xAB, 0xAC, 0x2D, 0xAE, 0xAF, 0xB0, 0xB1, 0x32, 0x33,
   0xB4, 0xB5, 0xB6, 0xB7, 0xB8, 0x31, 0x4F, 0xBB, 0xBC, 0xBD, 0xBE, 0xBF, 0x41,
   0xC1, 0x41, 0x41, 0x41, 0x41, 0xC6, 0x43, 0x45, 0xC9, 0x45, 0x45, 0x49, 0xCD,
   0x49, 0x49, 0xD0, 0x4E, 0x4F, 0xD3, 0x4F, 0x4F, 0xD6, 0xD7, 0xD6, 0x55, 0xDA,
   0x55, 0x55, 0xDD, 0xDE, 0xDF, 0x41, 0xC1, 0x41, 0x41, 0x41, 0x41, 0xC6, 0x43,
   0x45, 0xC9, 0x45, 0x45, 0x49, 0xCD, 0x49, 0x49, 0xD0, 0x4E, 0x4F, 0xD3, 0x4F,
   0x4F, 0xD6, 0xF7, 0xD6, 0x55, 0xDA, 0x55, 0x55, 0xDD, 0xDE, 0x59,
   0x00, 0x00, 0x82, 0x46, 0x84, 0x85, 0x86, 0x87, 0x00, 0x89, 0x53, 0x8B, 0x8C,
   0x00, 0x00, 0x00, 0x00, 0x91, 0x92, 0x93, 0x94, 0x95, 0x2D, 0x2D, 0x98, 0x99,
   0x53, 0x9B, 0x8C, 0x00, 0x00, 0x59, 0x09, 0xA1, 0xA2, 0xA3, 0xA4, 0xA5, 0xA6,
   0xA7, 0xA8, 0xA9, 0x41, 0xAB, 0xAC, 0x2D, 0xAE, 0xAF, 0xB0, 0xB1, 0x32, 0x33,
   0xB4, 0xB5, 0xB6, 0xB7, 0xB8, 0x31, 0x4F, 0xBB, 0xBC, 0xBD, 0xBE, 0xBF, 0x41,
   0xC1, 0x41, 0x41, 0x41, 0x41, 0xC6, 0x43, 0x45, 0xC9, 0x45, 0x45, 0x49, 0xCD,
   0x49, 0x49, 0xD0, 0x4E, 0x4F, 0xD3, 0x4F, 0x4F, 0xD6, 0xD7, 0xD6, 0x55, 0xDA,
   0x55, 0x55, 0xDD, 0xDE, 0xDF, 0x41, 0xC1, 0x41, 0x41, 0x41, 0x41, 0xC6, 0x43,
   0x45, 0xC9, 0x45, 0x45, 0x49, 0xCD, 0x49, 0x49, 0xD0, 0x4E, 0x4F, 0xD3, 0x4F,
   0x4F, 0xD6, 0xF7, 0xD6, 0x55, 0xDA, 0x55, 0x55, 0xDD, 0xDE, 0x59]

/-- `Lookup_160` (hash.c 332-368). -/
def Lookup_160 : List Nat :=
  [
   0x00, 0x01, 0x02, 0x03, 0x04, 0x05, 0x06, 0x07, 0x08, 0x09, 0x0A, 0x0B, 0x0C,
   0x0D, 0x0E, 0x0F, 0x10, 0x11, 0x12, 0x13, 0x14, 0x15, 0x16, 0x17, 0x18, 0x19,
   0x1A, 0x1B, 0x1C, 0x1D, 0x1E, 0x1F, 0x20, 0x21, 0x22, 0x23, 0x24, 0x25, 0x26,
   0x27, 0x28, 0x29, 0x2A, 0x2B, 0x2C, 0x2D, 0x2E, 0x2F, 0x30, 0x31, 0x32, 0x33,
   0x34, 0x35, 0x36, 0x37, 0x38, 0x39, 0x3A, 0x3B, 0x3C, 0x3D, 0x3E, 0x3F, 0x40,
   0x41, 0x42, 0x43, 0x44, 0x45, 0x46, 0x47, 0x48, 0x49, 0x4A, 0x4B, 0x4C, 0x4D,
   0x4E, 0x4F, 0x50, 0x51, 0x52, 0x53, 0x54, 0x55, 0x56, 0x57, 0x58, 0x59, 0x5A,
   0x5B, 0x5C, 0x5D, 0x5E, 0x5F, 0x60, 0x41, 0x42, 0x43, 0x44, 0x45, 0x46, 0x47,
   0x48, 0x49, 0x4A, 0x4B, 0x4C, 0x4D, 0x4E, 0x4F, 0x50, 0x51, 0x52, 0x53, 0x54,
   0x55, 0x56, 0x57, 0x58, 0x59, 0x5A, 0x7B, 0x7C, 0x7D, 0x7E, 0x00,
   0x00, 0x00, 0x82, 0x46, 0x84, 0x85, 0x86, 0x87, 0x00, 0x89, 0x53, 0x8B, 0x8C,
   0x00, 0x00, 0x00, 0x00, 0x91, 0x92, 0x93, 0x94, 0x95, 0x2D, 0x2D, 0x98, 0x99,
   0x53, 0x9B, 0x8C, 0x00, 0x00, 0x59, 0x09, 0xA1, 0xA2, 0xA3, 0xA4, 0xA5, 0xA6,
   0xA7, 0xA8, 0xA9, 0x41, 0xAB, 0xAC, 0x2D, 0xAE, 0xAF, 0xB0, 0xB1, 0x32, 0x33,
   0xB4, 0xB5, 0xB6, 0xB7, 0xB8, 0x31, 0x4F, 0xBB, 0xBC, 0xBD, 0xBE, 0xBF, 0x41,
   0x41, 0x41, 0x41, 0x41, 0x41, 0xC6, 0xC7, 0x45, 0x45, 0x45, 0x45, 0x49, 0x49,
   0x49, 0x49, 0xD0, 0x4E, 0x4F, 0x4F, 0x4F, 0x4F, 0xD6, 0xD7, 0x4F, 0x55, 0x55,
   0x55, 0xDC, 0xDD, 0xDE, 0xDF, 0x41, 0x41, 0x41, 0x41, 0x41, 0x41, 0xC6, 0xC7,
   0x45, 0x45, 0x45, 0x45, 0x49, 0x49, 0x49, 0x49, 0xD0, 0x4E, 0x4F, 0x4F, 0x4F,
   0x4F, 0xD6, 0xF7, 0x4F, 0x55, 0x55, 0x55, 0xDC, 0xDD, 0xDE, 0x59,
   0x00, 0x00, 0x82, 0x46, 0x84, 0x85, 0x86, 0x87, 0x00, 0x89, 0x53, 0x8B, 0x8C,
   0x00, 0x00, 0x00, 0x00, 0x91, 0x92, 0x93, 0x94, 0x95, 0x2D, 0x2D, 0x98, 0x99,
   0x53, 0x9B, 0x8C, 0x00, 0x00, 0x59, 0x09, 0xA1, 0xA2, 0xA3, 0xA4, 0xA5, 0xA6,
   0xA7, 0xA8, 0xA9, 0x41, 0xAB, 0xAC, 0x2D, 0xAE, 0xAF, 0xB0, 0xB1, 0x32, 0x33,
   0xB4, 0xB5, 0xB6, 0xB7, 0xB8, 0x31, 0x4F, 0xBB, 0xBC, 0xBD, 0xBE, 0xBF, 0x41,
   0x41, 0x41, 0x41, 0x41, 0x41, 0xC6, 0xC7, 0x45, 0x45, 0x45, 0x45, 0x49, 0x49,
   0x49, 0x49, 0xD0, 0x4E, 0x4F, 0x4F, 0x4F, 0x4F, 0xD6, 0xD7, 0x4F, 0x55, 0x55,
   0x55, 0xDC, 0xDD, 0xDE, 0xDF, 0x41, 0x41, 0x41, 0x41, 0x41, 0x41, 0xC6, 0xC7,
   0x45, 0x45, 0x45, 0x45, 0x49, 0x49, 0x49, 0x49, 0xD0, 0x4E, 0x4F, 0x4F, 0x4F,
   0x4F, 0xD6, 0xF7, 0x4F, 0x55, 0x55, 0x55, 0xDC, 0xDD, 0xDE, 0x59]

/-- `Lookup_176` (hash.c 370-406). -/
def Lookup_176 : List Nat :=
  [
   0x00, 0x01, 0x02, 0x03, 0x04, 0x05, 0x06, 0x07, 0x08, 0x09, 0x0A, 0x0B, 0x0C,
   0x0D, 0x0E, 0x0F, 0x10, 0x11, 0x12, 0x13, 0x14, 0x15, 0x16, 0x17, 0x18, 0x19,
   0x1A, 0x1B, 0x1C, 0x1D, 0x1E, 0x1F, 0x20, 0x21, 0x22, 0x23, 0x24, 0x25, 0x26,
   0x27, 0x28, 0x29, 0x2A, 0x2B, 0x2C, 0x2D, 0x2E, 0x2F, 0x30, 0x31, 0x32, 0x33,
   0x34, 0x35, 0x36, 0x37, 0x38, 0x39, 0x3A, 0x3B, 0x3C, 0x3D, 0x3E, 0x3F, 0x40,
   0x41, 0x42, 0x43, 0x44, 0x45, 0x46, 0x47, 0x48, 0x49, 0x4A, 0x4B, 0x4C, 0x4D,
   0x4E, 0x4F, 0x50, 0x51, 0x52, 0x53, 0x54, 0x55, 0x56, 0x57, 0x58, 0x59, 0x5A,
   0x5B, 0x5C, 0x5D, 0x5E, 0x5F, 0x60, 0x41, 0x42, 0x43, 0x44, 0x45, 0x46, 0x47,
   0x48, 0x49, 0x4A, 0x4B, 0x4C, 0x4D, 0x4E, 0x4F, 0x50, 0x51, 0x52, 0x53, 0x54,
   0x55, 0x56, 0x57, 0x58, 0x59, 0x5A, 0x7B, 0x7C, 0x7D, 0x7E, 0x00,
   0x00, 0x00, 0x82, 0x46, 0x84, 0x85, 0x86, 0x87, 0x00, 0x89, 0x53, 0x8B, 0x8C,
   0x00, 0x00, 0x00, 0x00, 0x91, 0x92, 0x93, 0x94, 0x95, 0x2D, 0x2D, 0x98, 0x99,
   0x53, 0x9B, 0x8C, 0x00, 0x00, 0x59, 0x09, 0xA1, 0xA2, 0xA3, 0xA4, 0xA5, 0xA6,
   0xA7, 0xA8, 0xA9, 0x41, 0xAB, 0xAC, 0x2D, 0xAE, 0xAF, 0xB0, 0xB1, 0x32, 0x33,
   0xB4, 0xB5, 0xB6, 0xB7, 0xB8, 0x31, 0x4F, 0xBB, 0xBC, 0xBD, 0xBE, 0xBF, 0x41,
   0x41, 0x41, 0x41, 0xC4, 0xC5, 0xC4, 0x43, 0x45, 0x45, 0x45, 0x45, 0x49, 0x49,
   0x49, 0x49, 0x44, 0x4E, 0x4F, 0x4F, 0x4F, 0x4F, 0xD6, 0xD7, 0xD6, 0x55, 0x55,
   0x55, 0x59, 0x59, 0xDE, 0xDF, 0x41, 0x41, 0x41, 0x41, 0xC4, 0xC5, 0xC4, 0x43,
   0x45, 0x45, 0x45, 0x45, 0x49, 0x49, 0x49, 0x49, 0x44, 0x4E, 0x4F, 0x4F, 0x4F,
   0x4F, 0xD6, 0xF7, 0xD6, 0x55, 0x55, 0x55, 0x59, 0x59, 0xDE, 0x59,
   0x80, 0x81, 0x43, 0x45, 0x4E, 0x85, 0x59, 0x41, 0x41, 0x41, 0x80, 0x41, 0x81,
   0x43, 0x45, 0x45, 0x45, 0x45, 0x49, 0x49, 0x49, 0x49, 0x4E, 0x4F, 0x4F, 0x4F,
   0x85, 0x4F, 0x55, 0x55, 0x55, 0x59, 0xA0, 0xA1, 0xA2, 0xA3, 0xA4, 0xA5, 0xA6,
   0xA7, 0xA8, 0xA9, 0xAA, 0xAB, 0xAC, 0xAD, 0x80, 0x85, 0xB0, 0xB1, 0xB2, 0xB3,
   0xB4, 0xB5, 0xB6, 0xB7, 0xB8, 0xB9, 0xBA, 0x41, 0x4F, 0xBD, 0x80, 0x85, 0xC0,
   0xC1, 0xC2, 0xC3, 0x46, 0xC5, 0xC6, 0xC7, 0xC8, 0xC9, 0x09, 0x41, 0x41, 0x4F,
   0xCE, 0xCE, 0x2D, 0x2D, 0xD2, 0xD3, 0xD4, 0xD5, 0xD6, 0xD7, 0x59, 0x59, 0xDA,
   0xDB, 0xDC, 0xDD, 0x3F, 0x3F, 0xE0, 0xE1, 0xE2, 0xE3, 0xE4, 0x41, 0x45, 0x41,
   0x45, 0x45, 0x49, 0x49, 0x49, 0x49, 0x4F, 0x4F, 0x3F, 0x4F, 0x55, 0x55, 0x55,
   0x49, 0x00, 0xF7, 0x00, 0xF9, 0xFA, 0xFB, 0x3F, 0xFD, 0xFE, 0x00]

/-- `Lookup_208` (hash.c 408-444). -/
def Lookup_208 : List Nat :=
  [
   0x00, 0x01, 0x02, 0x03, 0x04, 0x05, 0x06, 0x07, 0x08, 0x09, 0x0A, 0x0B, 0x0C,
   0x0D, 0x0E, 0x0F, 0x10, 0x11, 0x12, 0x13, 0x14, 0x15, 0x16, 0x17, 0x18, 0x19,
   0x1A, 0x1B, 0x1C, 0x1D, 0x1E, 0x1F, 0x20, 0x21, 0x22, 0x23, 0x24, 0x25, 0x26,
   0x27, 0x28, 0x29, 0x2A, 0x2B, 0x2C, 0x2D, 0x2E, 0x2F, 0x30, 0x31, 0x32, 0x33,
   0x34, 0x35, 0x36, 0x37, 0x38, 0x39, 0x3A, 0x3B, 0x3C, 0x3D, 0x3E, 0x3F, 0x40,
   0x41, 0x42, 0x43, 0x44, 0x45, 0x46, 0x47, 0x48, 0x49, 0x4A, 0x4B, 0x4C, 0x4D,
   0x4E, 0x4F, 0x50, 0x51, 0x52, 0x53, 0x54, 0x55, 0x56, 0x57, 0x58, 0x59, 0x5A,
   0x5B, 0x5C, 0x5D, 0x5E, 0x5F, 0x60, 0x41, 0x42, 0x43, 0x44, 0x45, 0x46, 0x47,
   0x48, 0x49, 0x4A, 0x4B, 0x4C, 0x4D, 0x4E, 0x4F, 0x50, 0x51, 0x52, 0x53, 0x54,
   0x55, 0x56, 0x57, 0x58, 0x59, 0x5A, 0x7B, 0x7C, 0x7D, 0x7E, 0x7F,
   0x80, 0x81, 0x82, 0x46, 0x84, 0x85, 0x86, 0x87, 0x5E, 0x89, 0x8A, 0x8B, 0x8C,
   0x8D, 0x8E, 0x8F, 0x90, 0x91, 0x92, 0x93, 0x94, 0x95, 0x96, 0x97, 0x98, 0x99,
   0x9A, 0x9B, 0x8C, 0x9D, 0x00, 0x9F, 0xA0, 0xA1, 0xA2, 0xA3, 0xA4, 0xA5, 0xA6,
   0xA7, 0xA8, 0xA9, 0xAA, 0xAB, 0xAC, 0xAD, 0xAE, 0xAF, 0xB0, 0xB1, 0x32, 0x33,
   0xB4, 0xB5, 0xB6, 0xB7, 0xB8, 0x31, 0xBA, 0xBB, 0xBC, 0xBD, 0xBE, 0xBF, 0xC0,
   0xC1, 0xC2, 0xC1, 0xC1, 0xC1, 0xC1, 0xC7, 0xC8, 0xC9, 0xC9, 0xCB, 0xCC, 0xCD,
   0xCE, 0xCF, 0xD0, 0xD1, 0xD2, 0xD3, 0xD4, 0xD5, 0xD6, 0xD7, 0xD8, 0xD9, 0xDA,
   0xDB, 0x00, 0xDD, 0xDE, 0xDF, 0x41, 0xE1, 0x41, 0xE3, 0xE4, 0xE5, 0xE6, 0x43,
   0x45, 0x45, 0x45, 0x45, 0xEC, 0xEC, 0x49, 0x49, 0xF0, 0xF1, 0xF2, 0xF3, 0x4F,
   0xF5, 0xF6, 0xF7, 0xF8, 0x55, 0xFA, 0x55, 0x55, 0x00, 0x00, 0xFF,
   0x41, 0x81, 0x43, 0x45, 0x4E, 0x4F, 0x55, 0x41, 0x41, 0x41, 0x41, 0x8B, 0x8C,
   0x43, 0x45, 0x45, 0x45, 0x45, 0x49, 0x93, 0x49, 0x49, 0x4E, 0x4F, 0x98, 0x4F,
   0x4F, 0x9B, 0x55, 0x55, 0x55, 0x55, 0xA0, 0xA1, 0xA2, 0xA3, 0xA4, 0xA5, 0xA6,
   0xA7, 0xA8, 0xA9, 0xAA, 0xAB, 0xAC, 0xAD, 0xAE, 0xAF, 0xB0, 0xB1, 0xB2, 0xB3,
   0xB4, 0xB5, 0xB6, 0xB7, 0xB8, 0xB9, 0xBA, 0xBB, 0xBC, 0xBD, 0xBE, 0xBF, 0xC0,
   0xC1, 0xC2, 0xC1, 0xC1, 0xC1, 0xC1, 0xC7, 0xC8, 0xC9, 0xC9, 0xCB, 0xCC, 0xCD,
   0xCE, 0xCF, 0xD0, 0xD1, 0xD2, 0xD3, 0xD4, 0xD5, 0xD6, 0xD7, 0xD8, 0xD9, 0xDA,
   0xDB, 0xDC, 0xDD, 0xDE, 0xDF, 0x00, 0xE1, 0xE2, 0xE3, 0xE4, 0xE5, 0xE6, 0xE7,
   0xE8, 0xE9, 0xE9, 0xEB, 0xEC, 0xED, 0xEE, 0xEF, 0xF0, 0xF1, 0xF2, 0xF3, 0xF4,
   0xF5, 0xF6, 0xF7, 0xF8, 0xF9, 0xFA, 0xFB, 0xFC, 0xFD, 0xFE, 0xFF]

/-- `Lookup_224` (hash.c 446-482). -/
def Lookup_224 : List Nat :=
  [
   0x00, 0x01, 0x02, 0x03, 0x04, 0x05, 0x06, 0x07, 0x08, 0x09, 0x0A, 0x0B, 0x0C,
   0x0D, 0x0E, 0x0F, 0x10, 0x11, 0x12, 0x13, 0x14, 0x15, 0x16, 0x17, 0x18, 0x19,
   0x1A, 0x1B, 0x1C, 0x1D, 0x1E, 0x1F, 0x20, 0x21, 0x22, 0x23, 0x24, 0x25, 0x26,
   0x27, 0x28, 0x29, 0x2A, 0x2B, 0x2C, 0x2D, 0x2E, 0x2F, 0x30, 0x31, 0x32, 0x33,
   0x34, 0x35, 0x36, 0x37, 0x38, 0x39, 0x3A, 0x3B, 0x3C, 0x3D, 0x3E, 0x3F, 0x40,
   0x41, 0x42, 0x43, 0x44, 0x45, 0x46, 0x47, 0x48, 0x49, 0x4A, 0x4B, 0x4C, 0x4D,
   0x4E, 0x4F, 0x50, 0x51, 0x52, 0x53, 0x54, 0x55, 0x56, 0x57, 0x58, 0x59, 0x5A,
   0x5B, 0x5C, 0x5D, 0x5E, 0x5F, 0x60, 0x41, 0x42, 0x43, 0x44, 0x45, 0x46, 0x47,
   0x48, 0x49, 0x4A, 0x4B, 0x4C, 0x4D, 0x4E, 0x4F, 0x50, 0x51, 0x52, 0x53, 0x54,
   0x55, 0x56, 0x57, 0x58, 0x59, 0x5A, 0x7B, 0x7C, 0x7D, 0x7E, 0x7F,
   0x80, 0x81, 0x82, 0x46, 0x84, 0x85, 0x86, 0x87, 0x5E, 0x89, 0x8A, 0x8B, 0x8C,
   0x8D, 0x8E, 0x8F, 0x90, 0x91, 0x92, 0x93, 0x94, 0x95, 0x96, 0x97, 0x98, 0x99,
   0x9A, 0x9B, 0x9C, 0x9D, 0x9E, 0x9F, 0xA0, 0xA1, 0xA2, 0xA3, 0xA4, 0xA5, 0xA6,
   0xA7, 0xA8, 0xA9, 0xAA, 0xAB, 0xAC, 0xAD, 0xAE, 0xAF, 0xB0, 0xB1, 0x32, 0x33,
   0xB4, 0xB5, 0xB6, 0xB7, 0xB8, 0x31, 0xBA, 0xBB, 0xBC, 0xBD, 0xBE, 0xBF, 0xC0,
   0xC1, 0xC2, 0xC3, 0xC4, 0xC5, 0xC6, 0xC7, 0xC8, 0xC9, 0xCA, 0xCB, 0xCC, 0xCD,
   0xCE, 0xCF, 0xD0, 0xD1, 0xD2, 0xD3, 0xD4, 0xD5, 0xD6, 0xD7, 0xD8, 0xD9, 0xDA,
   0xDB, 0xDC, 0xDD, 0xDE, 0xDF, 0xE0, 0xE1, 0xE2, 0xE3, 0xE4, 0xE5, 0xE6, 0xE7,
   0xE8, 0xE9, 0xEA, 0xEA, 0xEC, 0xED, 0xED, 0xEF, 0xEF, 0xF1, 0xF2, 0xF3, 0xF3,
   0xF5, 0xF5, 0xF7, 0xF8, 0xF9, 0xFA, 0xFB, 0xFC, 0x00, 0x00, 0xFF,
   0x41, 0x41, 0x43, 0x45, 0x4E, 0x4F, 0x55, 0x41, 0x41, 0x41, 0x41, 0x41, 0x41,
   0x43, 0x45, 0x45, 0x45, 0x45, 0x49, 0x49, 0x49, 0x49, 0x4E, 0x4F, 0x4F, 0x4F,
   0x4F, 0x4F, 0x55, 0x55, 0x55, 0x55, 0xA0, 0xA1, 0xA2, 0xA3, 0xA4, 0xA5, 0xA6,
   0xA7, 0xA8, 0xA9, 0xAA, 0xAB, 0xAC, 0xAD, 0xAE, 0xAF, 0xB0, 0xB1, 0xB2, 0xB3,
   0xB4, 0xB5, 0xB6, 0xB7, 0xB8, 0xB9, 0xBA, 0xBB, 0xBC, 0xBD, 0xBE, 0xBF, 0xC0,
   0xC1, 0xC2, 0xC3, 0xC4, 0xC5, 0xC6, 0xC7, 0xC8, 0xC9, 0xCA, 0xCB, 0xCC, 0xCD,
   0xCE, 0xCF, 0xD0, 0xD1, 0xD2, 0xD3, 0xD4, 0xD5, 0xD6, 0xD7, 0xD8, 0xD9, 0xDA,
   0xDB, 0xDC, 0xDD, 0xDE, 0xDF, 0xE0, 0xE1, 0xE2, 0xE3, 0xE4, 0xE5, 0xE6, 0xE7,
   0xE8, 0xE9, 0xEA, 0xEA, 0xEC, 0xED, 0xED, 0xEF, 0xEF, 0xF1, 0xF2, 0xF3, 0xF3,
   0xF5, 0xF5, 0xF7, 0xF8, 0xF9, 0xFA, 0xFB, 0xFC, 0xFD, 0xFE, 0xFF]

/-- What hash.c takes from the headers `nls.h` and `widltypes.h`, which are not
among the sources: the macros that split a locale id, the language constants
that label the cases of the `switch`, and the enumerator `SYS_MAC`.  The
constants that label the first case group (`LANG_AFRIKAANS` … `LANG_NEUTRAL`)
are not listed: that group shares its body with `default`. -/
structure NlsHeaders where
  LANGIDFROMLCID : Nat → Nat
  PRIMARYLANGID : Nat → Nat
  SUBLANGID : Nat → Nat
  LANG_CZECH : Nat
  LANG_HUNGARIAN : Nat
  LANG_POLISH : Nat
  LANG_SLOVAK : Nat
  LANG_SPANISH : Nat
  LANG_HEBREW : Nat
  LANG_JAPANESE : Nat
  LANG_KOREAN : Nat
  LANG_CHINESE : Nat
  LANG_GREEK : Nat
  LANG_ICELANDIC : Nat
  LANG_TURKISH : Nat
  LANG_NORWEGIAN : Nat
  LANG_ARABIC : Nat
  LANG_FARSI : Nat
  LANG_RUSSIAN : Nat
  SUBLANG_NORWEGIAN_NYNORSK : Nat
  SYS_MAC : Nat

/-- The values these names have in the Windows headers: a locale id holds the
language id in its low 16 bits, a language id the primary language in its
low 10 bits and the sublanguage above them.  Used as a concrete instance. -/
def winHeaders : NlsHeaders where
  LANGIDFROMLCID := fun lcid => lcid % 2 ^ 16
  PRIMARYLANGID := fun lgid => (lgid % 2 ^ 16) &&& 0x3ff
  SUBLANGID := fun lgid => (lgid % 2 ^ 16) >>> 10
  LANG_CZECH := 0x05
  LANG_HUNGARIAN := 0x0e
  LANG_POLISH := 0x15
  LANG_SLOVAK := 0x1b
  LANG_SPANISH := 0x0a
  LANG_HEBREW := 0x0d
  LANG_JAPANESE := 0x11
  LANG_KOREAN := 0x12
  LANG_CHINESE := 0x04
  LANG_GREEK := 0x08
  LANG_ICELANDIC := 0x0f
  LANG_TURKISH := 0x1f
  LANG_NORWEGIAN := 0x14
  LANG_ARABIC := 0x01
  LANG_FARSI := 0x29
  LANG_RUSSIAN := 0x19
  SUBLANG_NORWEGIAN_NYNORSK := 0x02
  SYS_MAC := 2

/-- The initializer `nMask = skind == SYS_MAC ? 1 : 0` (hash.c 506). -/
def nMask (H : NlsHeaders) (skind : Nat) : Nat :=
  if skind = H.SYS_MAC then 1 else 0

/-- The `switch` of `lhash_val_of_name_sys` (hash.c 513-626): the values of
`nOffset` and `pnLookup` after it.  The labels of a `switch` are pairwise
distinct, so the order in which the case groups are tested is immaterial;
`default` and the first case group share the body that selects `Lookup_16`,
and the message `default` prints does not enter the result. -/
def selectTable (H : NlsHeaders) (lcid : Nat) : Nat × List Nat :=
  let lang := H.PRIMARYLANGID (H.LANGIDFROMLCID lcid)
  if lang = H.LANG_CZECH ∨ lang = H.LANG_HUNGARIAN ∨ lang = H.LANG_POLISH ∨
      lang = H.LANG_SLOVAK ∨ lang = H.LANG_SPANISH then (32, Lookup_32)
  else if lang = H.LANG_HEBREW then (48, Lookup_48)
  else if lang = H.LANG_JAPANESE then (64, Lookup_64)
  else if lang = H.LANG_KOREAN then (80, Lookup_80)
  else if lang = H.LANG_CHINESE then (112, Lookup_112)
  else if lang = H.LANG_GREEK then (128, Lookup_128)
  else if lang = H.LANG_ICELANDIC then (144, Lookup_144)
  else if lang = H.LANG_TURKISH then (160, Lookup_160)
  else if lang = H.LANG_NORWEGIAN then
    if H.SUBLANGID (H.LANGIDFROMLCID lcid) = H.SUBLANG_NORWEGIAN_NYNORSK then
      (176, Lookup_176)
    else (16, Lookup_16)
  else if lang = H.LANG_ARABIC ∨ lang = H.LANG_FARSI then (208, Lookup_208)
  else if lang = H.LANG_RUSSIAN then (224, Lookup_224)
  else (16, Lookup_16)

/-- The index of the table lookup (hash.c 632):
`*str > 0x7f && nMask ? *str + 0x80 : *str`. -/
def hashIndex (nMask : Nat) (c : Fin 256) : Nat :=
  if c.val > 0x7f ∧ nMask ≠ 0 then c.val + 0x80 else c.val

/-- The loop `while (*str)` (hash.c 630-634) on the `ULONG` (32-bit) `nLoWord`.  The
list holds the bytes from `str` on; the loop ends at the first zero byte, and
the end of the list stands for the terminator. -/
def hashLoop (pnLookup : List Nat) (nMask : Nat) : Nat → List (Fin 256) → Nat
  | nLoWord, [] => nLoWord
  | nLoWord, c :: str =>
    if c.val = 0 then nLoWord
    else
      hashLoop pnLookup nMask
        ((37 * nLoWord + pnLookup.getD (hashIndex nMask c) 0) % 2 ^ 32) str

/-- `lhash_val_of_name_sys` (hash.c 504-639).  `lpStr` is `none` for a NULL pointer
and the bytes it points to otherwise. -/
def lhash_val_of_name_sys (H : NlsHeaders) (skind lcid : Nat)
    (lpStr : Option (List (Fin 256))) : Nat :=
  match lpStr with
  | none => 0
  | some str =>
    let t := selectTable H lcid
    let nHiWord := ((t.1 ||| nMask H skind) <<< 16) % 2 ^ 32
    let nLoWord := hashLoop t.2 (nMask H skind) 0x0deadbee str
    let nLoWord1 := (nLoWord % 65599) &&& 0xffff
    nHiWord ||| nLoWord1

/-! ### Values used in the statements about the hash -/

/-- The constants that label the case groups of the `switch` other than the first,
in the order of the source.  The labels of one `switch` are pairwise distinct
in C. -/
def caseLabels (H : NlsHeaders) : List Nat :=
  [H.LANG_CZECH, H.LANG_HUNGARIAN, H.LANG_POLISH, H.LANG_SLOVAK, H.LANG_SPANISH,
   H.LANG_HEBREW, H.LANG_JAPANESE, H.LANG_KOREAN, H.LANG_CHINESE, H.LANG_GREEK,
   H.LANG_ICELANDIC, H.LANG_TURKISH, H.LANG_NORWEGIAN, H.LANG_ARABIC, H.LANG_FARSI,
   H.LANG_RUSSIAN]

/-- The bytes of the C string that starts the list: those before the first zero
byte. -/
def cString (bytes : List (Fin 256)) : List (Fin 256) :=
  bytes.takeWhile (fun c => c.val ≠ 0)

/-- The low word in the words of the claim: `h` starts at `0x0deadbee`, each string
byte `c` updates `h` to `37 * h + lookup[index(c)]` modulo `2^32`, and the low
word is `(h mod 65599) & 0xffff`. -/
def specLowWord (lookup : List Nat) (nMask : Nat) (str : List (Fin 256)) : Nat :=
  (str.foldl (fun h c => (37 * h + lookup.getD (hashIndex nMask c) 0) % 2 ^ 32) 0x0deadbee
    % 65599) &&& 0xffff

/-- The byte with an ASCII lowercase letter replaced by its uppercase letter. -/
def asciiUpper (c : Fin 256) : Fin 256 :=
  if h : 0x61 ≤ c.val ∧ c.val ≤ 0x7A then ⟨c.val - 0x20, by omega⟩ else c

end Widl

namespace Fast486

/-! ## Helper lemmas -/

theorem shr64_zero (sm : ShiftModel) (n : Nat) : shr64 sm 0 n = 0 := by
  unfold shr64; split <;> simp

theorem getTag_setTag (T : Nat) (p : Fin 8) (t : Nat) (ht : t < 4) :
    getTag (setTag T p t) p = t := by
  obtain ⟨p, hp⟩ := p
  unfold setTag getTag
  interval_cases p <;> simp <;> omega

theorem Fast486FpuAdd_status (sm : ShiftModel) (State : FAST486_STATE)
    (a b : FAST486_FPU_DATA_REG) :
    (Fast486FpuAdd sm State a b).1.FpuStatus.Ie = State.FpuStatus.Ie ∧
    (Fast486FpuAdd sm State a b).1.FpuStatus.De =
      (State.FpuStatus.De || !FPU_IS_NORMALIZED a || !FPU_IS_NORMALIZED b) := by
  simp only [Fast486FpuAdd, apply_ite Prod.fst, apply_ite FAST486_STATE.FpuStatus,
    apply_ite FAST486_FPU_STATUS.Ie, apply_ite FAST486_FPU_STATUS.De, ite_self]
  generalize FPU_IS_NORMALIZED a = na
  generalize FPU_IS_NORMALIZED b = nb
  cases na <;> cases nb <;> simp

theorem clzFrom_spec (k m : Nat) (hm : 0 < m) (hk : m < 2 ^ k) :
    clzFrom k m < k ∧ 2 ^ (k - 1) ≤ m * 2 ^ clzFrom k m ∧ m * 2 ^ clzFrom k m < 2 ^ k := by
  induction k with
  | zero => simp at hk; omega
  | succ k ih =>
    unfold clzFrom
    by_cases hb : m.testBit k = true
    · have hge := Nat.testBit_implies_ge hb
      simp [hb]
      exact ⟨hge, hk⟩
    · have hlt : m < 2 ^ k := by
        rw [Nat.testBit_to_div_mod] at hb
        have h2 : m / 2 ^ k < 2 := by
          rw [Nat.div_lt_iff_lt_mul (Nat.two_pow_pos k)]
          rw [Nat.pow_succ] at hk
          omega
        have hb1 : ¬ (m / 2 ^ k % 2 = 1) := by
          intro hc
          exact hb (by simp [hc])
        have h0 : m / 2 ^ k = 0 := by
          generalize m / 2 ^ k = q at h2 hb1
          omega
        exact (Nat.div_eq_zero_iff (Nat.two_pow_pos k)).mp h0
      have hk0 : 0 < k := by
        rcases k with _ | k
        · simp at hlt; omega
        · omega
      obtain ⟨h1, h2, h3⟩ := ih hlt
      simp only [hb, Bool.false_eq_true, if_false]
      have e1 : m * 2 ^ (1 + clzFrom k m) = 2 * (m * 2 ^ clzFrom k m) := by
        rw [Nat.pow_add]; ring
      have e2 : 2 ^ (k + 1 - 1) = 2 * 2 ^ (k - 1) := by
        have : k + 1 - 1 = (k - 1) + 1 := by omega
        rw [this, Nat.pow_succ]; ring
      have e3 : 2 ^ (k + 1) = 2 * 2 ^ k := by rw [Nat.pow_succ]; ring
      rw [e1, e2, e3]
      omega

theorem and_high_bit_ne_zero (M : Nat) (h1 : 2 ^ 63 ≤ M) (h2 : M < 2 ^ 64) :
    M &&& 2 ^ 63 ≠ 0 := by
  rw [Nat.and_two_pow]
  have hb : M.testBit 63 = true := by
    rw [Nat.testBit_to_div_mod]
    simp
    omega
  simp [hb]

theorem toU64_abs (n : Int) (hlo : -2 ^ 63 ≤ n) (hhi : n < 2 ^ 63) :
    (if n < 0 then toU64 (-n) else toU64 n) = n.natAbs := by
  unfold toU64
  split <;> omega

theorem Fast486FpuFromInteger_nonzero (n : Int) (h0 : n ≠ 0) (hlo : -2 ^ 63 ≤ n)
    (hhi : n < 2 ^ 63) :
    Fast486FpuFromInteger n
        = ⟨n.natAbs * 2 ^ CountLeadingZeros64 n.natAbs,
            FPU_REAL10_BIAS + 63 - CountLeadingZeros64 n.natAbs, decide (n < 0)⟩ ∧
    CountLeadingZeros64 n.natAbs ≤ 63 ∧
    2 ^ 63 ≤ n.natAbs * 2 ^ CountLeadingZeros64 n.natAbs ∧
    n.natAbs * 2 ^ CountLeadingZeros64 n.natAbs < 2 ^ 64 := by
  have hm : 0 < n.natAbs := by omega
  have hk : n.natAbs < 2 ^ 64 := by omega
  obtain ⟨h1, h2, h3⟩ := clzFrom_spec 64 n.natAbs hm hk
  have h2' : 2 ^ 63 ≤ n.natAbs * 2 ^ CountLeadingZeros64 n.natAbs := h2
  have h3' : n.natAbs * 2 ^ CountLeadingZeros64 n.natAbs < 2 ^ 64 := h3
  have h1' : CountLeadingZeros64 n.natAbs ≤ 63 := by unfold CountLeadingZeros64; omega
  refine ⟨?_, h1', h2', h3'⟩
  unfold Fast486FpuFromInteger
  simp only [h0, if_false, toU64_abs n hlo hhi]
  rw [Nat.mod_eq_of_lt h3', Nat.mod_eq_of_lt]
  unfold FPU_REAL10_BIAS
  omega

/-- Round trip away from zero: for every signed 64-bit integer `n ≠ 0`, in
Truncate mode, the statements of `Fast486FpuToInteger` applied to the value
produced by `Fast486FpuFromInteger n` lead to `return TRUE` and store `n` in
the integer of the caller.  For `n = -2^63` the `ASSERT` fails on the way
(`Fast486FpuToInteger_assert`). -/
theorem roundtrip_nonzero (sm : ShiftModel) (State : FAST486_STATE) (n : Int)
    (Result0 Next0 : Nat) (h0 : n ≠ 0) (hlo : -2 ^ 63 ≤ n) (hhi : n < 2 ^ 63)
    (hRc : State.FpuControl.Rc = FPU_ROUND_TRUNCATE) :
    (Fast486FpuToInteger sm State (Fast486FpuFromInteger n) Result0 Next0).Ok = true ∧
    toInt64 (Fast486FpuToInteger sm State (Fast486FpuFromInteger n) Result0 Next0).Result
      = n := by
  obtain ⟨hv, hz, hlo', hhi'⟩ := Fast486FpuFromInteger_nonzero n h0 hlo hhi
  rw [hv]
  generalize CountLeadingZeros64 n.natAbs = z at hz hlo' hhi'
  have hE : UnbiasedExp (FPU_REAL10_BIAS + 63 - z) = 63 - (z : Int) := by
    unfold UnbiasedExp FPU_REAL10_BIAS
    simp only []
    have : ((16383 + 63 - z) % 2 ^ 16 : Nat) = 16446 - z := by omega
    rw [this]
    split <;> omega
  have hZ : FPU_IS_ZERO ⟨n.natAbs * 2 ^ z, FPU_REAL10_BIAS + 63 - z, decide (n < 0)⟩ = false := by
    simp [FPU_IS_ZERO, FPU_REAL10_BIAS]; omega
  have hN : FPU_IS_NAN ⟨n.natAbs * 2 ^ z, FPU_REAL10_BIAS + 63 - z, decide (n < 0)⟩ = false := by
    simp [FPU_IS_NAN, FPU_REAL10_BIAS, FPU_MAX_EXPONENT]; omega
  have hNm : FPU_IS_NORMALIZED ⟨n.natAbs * 2 ^ z, FPU_REAL10_BIAS + 63 - z, decide (n < 0)⟩
      = true := by
    have := and_high_bit_ne_zero _ hlo' hhi'
    simp only [FPU_IS_NORMALIZED, FPU_MANTISSA_HIGH_BIT, Bool.or_eq_true, bne_iff_ne]
    exact Or.inr this
  have hR : (n.natAbs * 2 ^ z) >>> z % 2 ^ 64 = n.natAbs := by
    rw [Nat.shiftRight_eq_div_pow, Nat.mul_div_cancel _ (Nat.two_pow_pos z)]
    omega
  have hB : (63 - (63 - (z : Int))).toNat = z := by omega
  have hc : ¬ ((false || !true || decide (63 - (z : Int) < 0) || decide (63 - (z : Int) > 63)) = true) := by
    simp; omega
  simp only [Fast486FpuToInteger, hE, hZ, hN, hNm, hB, hR, hRc, hc, if_false, Bool.false_eq_true]
  have r1 : ¬ FPU_ROUND_TRUNCATE = FPU_ROUND_NEAREST := by decide
  have r2 : ¬ FPU_ROUND_TRUNCATE = FPU_ROUND_DOWN := by decide
  have r3 : ¬ FPU_ROUND_TRUNCATE = FPU_ROUND_UP := by decide
  simp only [if_neg r1, if_neg r2, if_neg r3, Bool.false_eq_true, if_false]
  by_cases hneg : n < 0
  · simp only [hneg, decide_True, if_true]
    refine ⟨trivial, ?_⟩
    unfold toInt64 neg64
    split <;> omega
  · simp only [hneg, decide_False, Bool.false_eq_true, if_false]
    refine ⟨trivial, ?_⟩
    unfold toInt64
    split <;> omega


/-! ## Claims -/

/-- C1, at the integer 0: `Fast486FpuToInteger` applied to the value that
`Fast486FpuFromInteger` produces for 0 returns TRUE and stores nothing, so the
caller's integer keeps the content it had before the call (and is 0 only if
it was 0 already).  This holds in every rounding mode, Truncate included; for
every other `n` the statements of the function store `n`
(`roundtrip_nonzero`). -/
theorem C1_zero_is_not_written (sm : ShiftModel) (State : FAST486_STATE)
    (Result0 Next0 : Nat) :
    (Fast486FpuToInteger sm State (Fast486FpuFromInteger 0) Result0 Next0).Ok = true ∧
    (Fast486FpuToInteger sm State (Fast486FpuFromInteger 0) Result0 Next0).Result = Result0 :=
  ⟨rfl, rfl⟩

/-- C2: `Fast486FpuAdd` is commutative.  For every pair of operands (finite and
non-NaN ones in particular), every initial state and every shift model,
swapping the operands gives the same result value and the same state, hence
the same status flags. -/
theorem C2_add_comm (sm : ShiftModel) (State : FAST486_STATE)
    (a b : FAST486_FPU_DATA_REG) :
    Fast486FpuAdd sm State a b = Fast486FpuAdd sm State b a := by
  have hE : (if a.Exponent > b.Exponent then a.Exponent else b.Exponent)
      = (if b.Exponent > a.Exponent then b.Exponent else a.Exponent) := by
    split_ifs <;> omega
  simp only [Fast486FpuAdd, hE]
  generalize (if b.Exponent > a.Exponent then b.Exponent else a.Exponent) = E
  generalize adjustTo sm a E = A
  generalize adjustTo sm b E = B
  rw [Bool.or_comm (!FPU_IS_NORMALIZED a)]
  generalize (if (!FPU_IS_NORMALIZED b || !FPU_IS_NORMALIZED a) = true then
      ({ State with FpuStatus := { State.FpuStatus with De := true } } : FAST486_STATE)
    else State) = S1
  obtain ⟨ma, ea, sa⟩ := A
  obtain ⟨mb, eb, sb⟩ := B
  rcases Nat.lt_trichotomy ma mb with h | h | h
  · have h1 : ¬ mb < ma := by omega
    cases sa <;> cases sb <;> simp [h, h1, Nat.add_comm, and_comm]
  · subst h
    cases sa <;> cases sb <;> simp [Nat.add_comm, and_comm]
  · have h1 : ¬ ma < mb := by omega
    cases sa <;> cases sb <;> simp [h, h1, Nat.add_comm, and_comm]

/-- C3, at a = -1.5 and Zero = +0: `Fast486FpuAdd` returns -0.5 (exponent one
below the bias, mantissa `1 << 63`), not a.  The mantissa of the negative
operand is replaced by its two's complement and the sum is never turned back
into a magnitude. -/
theorem C3_add_zero_to_negative (sm : ShiftModel) (State : FAST486_STATE) :
    (Fast486FpuAdd sm State ⟨0xC000000000000000, FPU_REAL10_BIAS, true⟩ ⟨0, 0, false⟩).2
      = ⟨0x8000000000000000, FPU_REAL10_BIAS - 1, true⟩ := by
  simp [Fast486FpuAdd, adjustTo, shr64_zero, FPU_REAL10_BIAS, FPU_IS_NORMALIZED, FPU_IS_ZERO,
    FPU_MANTISSA_HIGH_BIT, FPU_MAX_EXPONENT, neg64]
  decide

/-- C4: when at least one operand of `Fast486FpuCompare` is NaN/special and the
pair is neither (+infinity, -infinity) nor (-infinity, +infinity), the
condition codes Code0, Code2 and Code3 are all set. -/
theorem C4_compare_unordered (sm : ShiftModel) (State : FAST486_STATE)
    (a b TempResult : FAST486_FPU_DATA_REG)
    (hnan : FPU_IS_NAN a = true ∨ FPU_IS_NAN b = true)
    (h1 : ¬ (FPU_IS_POS_INF a = true ∧ FPU_IS_NEG_INF b = true))
    (h2 : ¬ (FPU_IS_NEG_INF a = true ∧ FPU_IS_POS_INF b = true)) :
    (Fast486FpuCompare sm State a b TempResult).FpuStatus.Code0 = true ∧
    (Fast486FpuCompare sm State a b TempResult).FpuStatus.Code2 = true ∧
    (Fast486FpuCompare sm State a b TempResult).FpuStatus.Code3 = true := by
  have c1 : (FPU_IS_NAN a || FPU_IS_NAN b) = true := by
    rcases hnan with h | h <;> simp [h]
  have c2 : ¬ (FPU_IS_POS_INF a && FPU_IS_NEG_INF b) = true := by
    simpa using h1
  have c3 : ¬ (FPU_IS_NEG_INF a && FPU_IS_POS_INF b) = true := by
    simpa using h2
  simp only [Fast486FpuCompare, if_pos c1, if_neg c2, if_neg c3, setCodes, and_self]

/-- Witness of C4: a quiet NaN compared with 1.0. -/
theorem C4_compare_unordered_witness :
    (Fast486FpuCompare ShiftModel.masked (initState 0)
        ⟨0xC000000000000000, 0x7FFF, false⟩ ⟨0x8000000000000000, 0x3FFF, false⟩
        ⟨0, 0, false⟩).FpuStatus.Code0 = true ∧
    (Fast486FpuCompare ShiftModel.masked (initState 0)
        ⟨0xC000000000000000, 0x7FFF, false⟩ ⟨0x8000000000000000, 0x3FFF, false⟩
        ⟨0, 0, false⟩).FpuStatus.Code2 = true ∧
    (Fast486FpuCompare ShiftModel.masked (initState 0)
        ⟨0xC000000000000000, 0x7FFF, false⟩ ⟨0x8000000000000000, 0x3FFF, false⟩
        ⟨0, 0, false⟩).FpuStatus.Code3 = true :=
  C4_compare_unordered ShiftModel.masked (initState 0)
    ⟨0xC000000000000000, 0x7FFF, false⟩ ⟨0x8000000000000000, 0x3FFF, false⟩ ⟨0, 0, false⟩
    (Or.inl (by decide)) (by decide) (by decide)

/-- C5, at the operands 2^(MAX_EXPONENT - BIAS) and its negative: the combined
exponent exceeds MAX_EXPONENT, yet `Fast486FpuMultiply` leaves the Overflow
flag as it was and returns exponent `0xFFFB` with mantissa `1 << 63`, which is
not infinity. -/
theorem C5_multiply_no_saturation (State : FAST486_STATE) :
    (Fast486FpuMultiply State ⟨0x8000000000000000, FPU_MAX_EXPONENT, false⟩
        ⟨0x8000000000000000, FPU_MAX_EXPONENT, true⟩).1.FpuStatus.Oe = State.FpuStatus.Oe ∧
    (Fast486FpuMultiply State ⟨0x8000000000000000, FPU_MAX_EXPONENT, false⟩
        ⟨0x8000000000000000, FPU_MAX_EXPONENT, true⟩).2
      = ⟨0x8000000000000000, 0xFFFB, true⟩ :=
  ⟨rfl, rfl⟩

/-- C6, at 3.5 (and at 2.5): in Nearest-Even mode `Fast486FpuToInteger` returns
TRUE and leaves 3 in the caller's integer for the operand 3.5, where the even
neighbour is 4; for 2.5 it leaves 2.  The rounding step `*Result++` advances
the pointer instead of incrementing the integer, so the magnitude is never
rounded up, whatever the shift model. -/
theorem C6_nearest_tie_not_rounded_up (sm : ShiftModel) (State : FAST486_STATE)
    (Result0 Next0 : Nat) (hRc : State.FpuControl.Rc = FPU_ROUND_NEAREST) :
    (Fast486FpuToInteger sm State ⟨0xE000000000000000, FPU_REAL10_BIAS + 1, false⟩
        Result0 Next0).Ok = true ∧
    (Fast486FpuToInteger sm State ⟨0xE000000000000000, FPU_REAL10_BIAS + 1, false⟩
        Result0 Next0).Result = 3 ∧
    (Fast486FpuToInteger sm State ⟨0xA000000000000000, FPU_REAL10_BIAS + 1, false⟩
        Result0 Next0).Result = 2 := by
  have e : UnbiasedExp (FPU_REAL10_BIAS + 1) = 1 := by decide
  simp only [Fast486FpuToInteger, e, hRc]
  refine ⟨?_, ?_, ?_⟩ <;> simp [FPU_IS_ZERO, FPU_IS_NAN, FPU_IS_NORMALIZED, FPU_REAL10_BIAS,
    FPU_MAX_EXPONENT, FPU_MANTISSA_HIGH_BIT]

/-- Witness of C6: the state after `FINIT` (rounding mode Nearest-Even), masked
shift counts, the caller's integer and its neighbour both 0 before the call. -/
theorem C6_nearest_tie_not_rounded_up_witness :
    (initState 0).FpuControl.Rc = FPU_ROUND_NEAREST ∧
    (Fast486FpuToInteger ShiftModel.masked (initState 0)
        ⟨0xE000000000000000, FPU_REAL10_BIAS + 1, false⟩ 0 0).Result = 3 :=
  ⟨rfl, (C6_nearest_tie_not_rounded_up ShiftModel.masked (initState 0) 0 0 rfl).2.1⟩

/-- C7: when the divisor is zero, `Fast486FpuDivide` sets the Zero-Divide flag and
leaves the destination as it was, for every dividend and every prior content
of the destination; the data registers, the tags, the control word and every
other field of the status word are unchanged as well. -/
theorem C7_divide_by_zero (State : FAST486_STATE)
    (x Zero Dest : FAST486_FPU_DATA_REG) (hz : FPU_IS_ZERO Zero = true) :
    (Fast486FpuDivide State x Zero Dest).1.FpuStatus.Ze = true ∧
    (Fast486FpuDivide State x Zero Dest).2 = Dest ∧
    (Fast486FpuDivide State x Zero Dest).1
      = { State with FpuStatus := { State.FpuStatus with Ze := true } } := by
  simp [Fast486FpuDivide, hz]

/-- Witness of C7: 1.0 divided by +0 into a destination holding 1.0. -/
theorem C7_divide_by_zero_witness :
    FPU_IS_ZERO ⟨0, 0, false⟩ = true ∧
    (Fast486FpuDivide (initState 0) ⟨0x8000000000000000, 0x3FFF, false⟩ ⟨0, 0, false⟩
        ⟨0x8000000000000000, 0x3FFF, false⟩).1.FpuStatus.Ze = true ∧
    (Fast486FpuDivide (initState 0) ⟨0x8000000000000000, 0x3FFF, false⟩ ⟨0, 0, false⟩
        ⟨0x8000000000000000, 0x3FFF, false⟩).2 = ⟨0x8000000000000000, 0x3FFF, false⟩ :=
  ⟨rfl, (C7_divide_by_zero (initState 0) ⟨0x8000000000000000, 0x3FFF, false⟩ ⟨0, 0, false⟩
    ⟨0x8000000000000000, 0x3FFF, false⟩ rfl).1,
   (C7_divide_by_zero (initState 0) ⟨0x8000000000000000, 0x3FFF, false⟩ ⟨0, 0, false⟩
    ⟨0x8000000000000000, 0x3FFF, false⟩ rfl).2.1⟩

/-- C8: the single-precision pattern `0x3FC00000` converts to the extended value
1.5, and adding it as the source operand to a destination holding 1.0 (the
argument order of the D8 /0 memory form) gives 2.5: sign 0, exponent
`BIAS + 1`, mantissa `0xA000000000000000`.  Invalid-Operation and Overflow
stay clear when they were clear before. -/
theorem C8_single_1_5_plus_1 (sm : ShiftModel) (State : FAST486_STATE)
    (hIe : State.FpuStatus.Ie = false) (hOe : State.FpuStatus.Oe = false) :
    Fast486FpuFromSingleReal 0x3FC00000 = ⟨0xC000000000000000, FPU_REAL10_BIAS, false⟩ ∧
    (Fast486FpuAdd sm State ⟨0x8000000000000000, FPU_REAL10_BIAS, false⟩
        (Fast486FpuFromSingleReal 0x3FC00000)).2
      = ⟨0xA000000000000000, FPU_REAL10_BIAS + 1, false⟩ ∧
    (Fast486FpuAdd sm State ⟨0x8000000000000000, FPU_REAL10_BIAS, false⟩
        (Fast486FpuFromSingleReal 0x3FC00000)).1.FpuStatus.Ie = false ∧
    (Fast486FpuAdd sm State ⟨0x8000000000000000, FPU_REAL10_BIAS, false⟩
        (Fast486FpuFromSingleReal 0x3FC00000)).1.FpuStatus.Oe = false := by
  have hv : Fast486FpuFromSingleReal 0x3FC00000
      = ⟨0xC000000000000000, FPU_REAL10_BIAS, false⟩ := by decide
  rw [hv]
  refine ⟨rfl, ?_, ?_, ?_⟩
  · simp [Fast486FpuAdd, adjustTo, FPU_REAL10_BIAS, FPU_IS_NORMALIZED, FPU_IS_ZERO,
      FPU_MANTISSA_HIGH_BIT, FPU_MAX_EXPONENT]
    decide
  · rw [(Fast486FpuAdd_status sm State _ _).1, hIe]
  · simp [Fast486FpuAdd, adjustTo, FPU_REAL10_BIAS, FPU_IS_NORMALIZED, FPU_IS_ZERO,
      FPU_MANTISSA_HIGH_BIT, FPU_MAX_EXPONENT, hOe]

/-- Witness of C8: the state after `FINIT`, masked shift counts. -/
theorem C8_single_1_5_plus_1_witness :
    (initState 0).FpuStatus.Ie = false ∧ (initState 0).FpuStatus.Oe = false ∧
    (Fast486FpuAdd ShiftModel.masked (initState 0) ⟨0x8000000000000000, FPU_REAL10_BIAS, false⟩
        (Fast486FpuFromSingleReal 0x3FC00000)).2
      = ⟨0xA000000000000000, FPU_REAL10_BIAS + 1, false⟩ :=
  ⟨rfl, rfl, (C8_single_1_5_plus_1 ShiftModel.masked (initState 0) rfl rfl).2.1⟩

/-- C9: a push of `v` followed at once by a pop restores the top-of-stack pointer,
makes the physical slot that was logical ST0 before the push logical ST0
again with its value unchanged, and leaves the physical slot that held `v`
tagged Empty. -/
theorem C9_push_pop (State : FAST486_STATE) (v : FAST486_FPU_DATA_REG)
    (hTop : State.FpuStatus.Top < 8) :
    FPU_ST (Fast486FpuPush State v) 0 = v ∧
    (Fast486FpuPop (Fast486FpuPush State v)).FpuStatus.Top = State.FpuStatus.Top ∧
    stSlot (Fast486FpuPop (Fast486FpuPush State v)) 0 = stSlot State 0 ∧
    FPU_ST (Fast486FpuPop (Fast486FpuPush State v)) 0 = FPU_ST State 0 ∧
    getTag (Fast486FpuPop (Fast486FpuPush State v)).FpuTag (stSlot (Fast486FpuPush State v) 0)
      = FPU_TAG_EMPTY := by
  refine ⟨?_, ?_, ?_, ?_, ?_⟩
  · simp [FPU_ST, Fast486FpuPush, FPU_SET_TAG, setST, stSlot]
  · simp only [Fast486FpuPop, Fast486FpuPush, FPU_SET_TAG, setST]
    omega
  · have h : ((State.FpuStatus.Top + 7) % 8 + 1) % 8 = State.FpuStatus.Top := by omega
    simp only [stSlot, Fast486FpuPop, Fast486FpuPush, FPU_SET_TAG, setST, h]
  · have h : ((State.FpuStatus.Top + 7) % 8 + 1) % 8 = State.FpuStatus.Top := by omega
    have hne : (Fin.ofNat (State.FpuStatus.Top + 0) : Fin 8)
        ≠ Fin.ofNat ((State.FpuStatus.Top + 7) % 8 + 0) := by
      intro hc
      have := congrArg Fin.val hc
      simp [Fin.ofNat] at this
      omega
    simp only [FPU_ST, stSlot, Fast486FpuPop, Fast486FpuPush, FPU_SET_TAG, setST, h]
    exact Function.update_noteq hne _ _
  · exact getTag_setTag _ _ _ (by decide)

/-- Witness of C9: 1.0 pushed onto the stack of the state after `FINIT`. -/
theorem C9_push_pop_witness :
    (initState 0).FpuStatus.Top < 8 ∧
    (Fast486FpuPop (Fast486FpuPush (initState 0)
        ⟨0x8000000000000000, 0x3FFF, false⟩)).FpuStatus.Top = (initState 0).FpuStatus.Top :=
  ⟨by decide, (C9_push_pop (initState 0) ⟨0x8000000000000000, 0x3FFF, false⟩ (by decide)).2.1⟩

/-- C10, at a = 2.0, b = 1.0 with `Result` holding 2.0 (the operands of FSUB, whose
destination is also its first operand): `Fast486FpuSubtract` leaves 2.0 in
`Result`, while `Fast486FpuAdd(a, negate(b))` writes another value (exponent
`BIAS + 2`, mantissa `0xA000000000000000`).  For
all operands and every prior content, `Fast486FpuSubtract` stores nothing
through `Result`, and the state it leaves is that of the addition of the
prior content of `Result` and `a`. -/
theorem C10_subtract_stores_nothing (sm : ShiftModel) (State : FAST486_STATE) :
    (∀ a b Result : FAST486_FPU_DATA_REG,
      (Fast486FpuSubtract sm State a b Result).2 = Result ∧
      (Fast486FpuSubtract sm State a b Result).1 = (Fast486FpuAdd sm State Result a).1) ∧
    (Fast486FpuSubtract sm State ⟨0x8000000000000000, FPU_REAL10_BIAS + 1, false⟩
        ⟨0x8000000000000000, FPU_REAL10_BIAS, false⟩
        ⟨0x8000000000000000, FPU_REAL10_BIAS + 1, false⟩).2
      = ⟨0x8000000000000000, FPU_REAL10_BIAS + 1, false⟩ ∧
    (Fast486FpuAdd sm State ⟨0x8000000000000000, FPU_REAL10_BIAS + 1, false⟩
        (negate ⟨0x8000000000000000, FPU_REAL10_BIAS, false⟩)).2
      = ⟨0xA000000000000000, FPU_REAL10_BIAS + 2, false⟩ := by
  refine ⟨fun a b Result => ⟨rfl, rfl⟩, rfl, ?_⟩
  have hs : shr64 sm 0x8000000000000000 1 = 0x4000000000000000 := by
    simp [shr64]
  simp [Fast486FpuAdd, adjustTo, negate, hs, FPU_REAL10_BIAS,
    FPU_IS_NORMALIZED, FPU_IS_ZERO, FPU_MANTISSA_HIGH_BIT, FPU_MAX_EXPONENT, neg64]
  decide

/-- C11, for every pair of operands that are not NaN/special:
`Fast486FpuCompare` sets Code0, Code2 and Code3 from the content its
uninitialized local `TempResult` has on entry, and not from the operands.
`Fast486FpuSubtract` never stores the difference, so `TempResult` is tested
as it was: Code3 is set exactly when it holds the zero value, Code0 exactly
when it holds a non-zero value with the sign bit set. -/
theorem C11_compare_reads_uninitialized (sm : ShiftModel) (State : FAST486_STATE)
    (a b TempResult : FAST486_FPU_DATA_REG)
    (ha : FPU_IS_NAN a = false) (hb : FPU_IS_NAN b = false) :
    (Fast486FpuCompare sm State a b TempResult).FpuStatus.Code0
      = (!FPU_IS_ZERO TempResult && TempResult.Sign) ∧
    (Fast486FpuCompare sm State a b TempResult).FpuStatus.Code2 = false ∧
    (Fast486FpuCompare sm State a b TempResult).FpuStatus.Code3 = FPU_IS_ZERO TempResult := by
  simp only [Fast486FpuCompare, ha, hb, Bool.or_self, Bool.false_eq_true, if_false,
    Fast486FpuSubtract]
  cases hz : FPU_IS_ZERO TempResult <;> cases hs : TempResult.Sign <;> simp [setCodes]

/-- Witness of C11 and its failing input: 1.0 compared with 2.0 while the local
holds the zero value gives 'equal' (Code3 set, Code0 clear), where 1.0 < 2.0
asks for 'less-than'. -/
theorem C11_compare_reads_uninitialized_witness :
    FPU_IS_NAN ⟨0x8000000000000000, 0x3FFF, false⟩ = false ∧
    FPU_IS_NAN ⟨0x8000000000000000, 0x4000, false⟩ = false ∧
    (Fast486FpuCompare ShiftModel.masked (initState 0) ⟨0x8000000000000000, 0x3FFF, false⟩
        ⟨0x8000000000000000, 0x4000, false⟩ ⟨0, 0, false⟩).FpuStatus.Code0 = false ∧
    (Fast486FpuCompare ShiftModel.masked (initState 0) ⟨0x8000000000000000, 0x3FFF, false⟩
        ⟨0x8000000000000000, 0x4000, false⟩ ⟨0, 0, false⟩).FpuStatus.Code3 = true :=
  ⟨rfl, rfl,
    (C11_compare_reads_uninitialized ShiftModel.masked (initState 0)
      ⟨0x8000000000000000, 0x3FFF, false⟩ ⟨0x8000000000000000, 0x4000, false⟩ ⟨0, 0, false⟩
      rfl rfl).1,
    (C11_compare_reads_uninitialized ShiftModel.masked (initState 0)
      ⟨0x8000000000000000, 0x3FFF, false⟩ ⟨0x8000000000000000, 0x4000, false⟩ ⟨0, 0, false⟩
      rfl rfl).2.2⟩

/-- C12 as stated fails: `Fast486FpuCompare(+infinity, -infinity)` does not set the
less-than codes (Code0 set, Code2 and Code3 clear). -/
theorem C12_counterexample :
    ¬ ((Fast486FpuCompare ShiftModel.masked (initState 0)
          ⟨0x8000000000000000, 0x7FFF, false⟩ ⟨0x8000000000000000, 0x7FFF, true⟩
          ⟨0, 0, false⟩).FpuStatus.Code0 = true ∧
       (Fast486FpuCompare ShiftModel.masked (initState 0)
          ⟨0x8000000000000000, 0x7FFF, false⟩ ⟨0x8000000000000000, 0x7FFF, true⟩
          ⟨0, 0, false⟩).FpuStatus.Code2 = false ∧
       (Fast486FpuCompare ShiftModel.masked (initState 0)
          ⟨0x8000000000000000, 0x7FFF, false⟩ ⟨0x8000000000000000, 0x7FFF, true⟩
          ⟨0, 0, false⟩).FpuStatus.Code3 = false) := by
  decide

/-- C12 amended: `Fast486FpuCompare(+infinity, -infinity)` sets the codes of an
ordered greater result (Code0, Code2 and Code3 all clear), and
`Fast486FpuCompare(-infinity, +infinity)` sets the codes of an ordered
less-than result (Code0 set, Code2 and Code3 clear), whatever the state, the
shift model and the content of the local. -/
theorem C12_compare_infinities (sm : ShiftModel) (State : FAST486_STATE)
    (TempResult : FAST486_FPU_DATA_REG) :
    ((Fast486FpuCompare sm State ⟨FPU_MANTISSA_HIGH_BIT, FPU_MAX_EXPONENT + 1, false⟩
        ⟨FPU_MANTISSA_HIGH_BIT, FPU_MAX_EXPONENT + 1, true⟩ TempResult).FpuStatus.Code0 = false ∧
     (Fast486FpuCompare sm State ⟨FPU_MANTISSA_HIGH_BIT, FPU_MAX_EXPONENT + 1, false⟩
        ⟨FPU_MANTISSA_HIGH_BIT, FPU_MAX_EXPONENT + 1, true⟩ TempResult).FpuStatus.Code2 = false ∧
     (Fast486FpuCompare sm State ⟨FPU_MANTISSA_HIGH_BIT, FPU_MAX_EXPONENT + 1, false⟩
        ⟨FPU_MANTISSA_HIGH_BIT, FPU_MAX_EXPONENT + 1, true⟩ TempResult).FpuStatus.Code3 = false) ∧
    ((Fast486FpuCompare sm State ⟨FPU_MANTISSA_HIGH_BIT, FPU_MAX_EXPONENT + 1, true⟩
        ⟨FPU_MANTISSA_HIGH_BIT, FPU_MAX_EXPONENT + 1, false⟩ TempResult).FpuStatus.Code0 = true ∧
     (Fast486FpuCompare sm State ⟨FPU_MANTISSA_HIGH_BIT, FPU_MAX_EXPONENT + 1, true⟩
        ⟨FPU_MANTISSA_HIGH_BIT, FPU_MAX_EXPONENT + 1, false⟩ TempResult).FpuStatus.Code2 = false ∧
     (Fast486FpuCompare sm State ⟨FPU_MANTISSA_HIGH_BIT, FPU_MAX_EXPONENT + 1, true⟩
        ⟨FPU_MANTISSA_HIGH_BIT, FPU_MAX_EXPONENT + 1, false⟩ TempResult).FpuStatus.Code3 = false) := by
  refine ⟨⟨rfl, rfl, rfl⟩, ⟨rfl, rfl, rfl⟩⟩

theorem UnbiasedExp_eq (E : Nat) (hE : E < 2 ^ 16) :
    (0 ≤ UnbiasedExp E ∧ UnbiasedExp E ≤ 63 ↔ FPU_REAL10_BIAS ≤ E ∧ E ≤ FPU_REAL10_BIAS + 63) ∧
    (FPU_REAL10_BIAS ≤ E → E ≤ FPU_REAL10_BIAS + 63 →
      UnbiasedExp E = (E : Int) - FPU_REAL10_BIAS) := by
  unfold UnbiasedExp FPU_REAL10_BIAS
  simp only []
  have h : (E % 2 ^ 16 : Nat) = E := Nat.mod_eq_of_lt hE
  rw [h]
  constructor
  · split <;> omega
  · intro h1 h2
    split <;> omega

theorem high_bit_le (M : Nat) (h : M &&& 2 ^ 63 ≠ 0) : 2 ^ 63 ≤ M := by
  have h1 : M &&& 2 ^ 63 ≤ 2 ^ 63 := Nat.and_le_right
  have h2 : M &&& 2 ^ 63 ≤ M := Nat.and_le_left
  rw [Nat.and_two_pow] at h h2
  cases hb : M.testBit 63
  · simp [hb] at h
  · simp [hb] at h2
    exact h2

/-- The value tested by `ASSERT(*Result >= 0LL)` for an operand with bit 63 of the
mantissa set and an unbiased exponent in [0,63]: it is negative exactly when
the exponent is 63. -/
theorem shifted_mantissa_sign (M E : Nat) (hM : M < 2 ^ 64) (hbit : 2 ^ 63 ≤ M)
    (hlo : FPU_REAL10_BIAS ≤ E) (hhi : E ≤ FPU_REAL10_BIAS + 63) :
    (!decide (toInt64 ((M >>> (63 - ((E : Int) - FPU_REAL10_BIAS)).toNat) % 2 ^ 64) ≥ 0)) = true
      ↔ E = FPU_REAL10_BIAS + 63 := by
  have hB : (63 - ((E : Int) - FPU_REAL10_BIAS)).toNat = 63 - (E - FPU_REAL10_BIAS) := by omega
  rw [hB, Nat.shiftRight_eq_div_pow]
  by_cases he : E = FPU_REAL10_BIAS + 63
  · have hk : 63 - (E - FPU_REAL10_BIAS) = 0 := by omega
    rw [hk]
    simp only [pow_zero, Nat.div_one, Nat.mod_eq_of_lt hM, he, iff_true, Bool.not_eq_true',
      decide_eq_false_iff_not, ge_iff_le, not_le]
    unfold toInt64
    split <;> omega
  · have hk : 1 ≤ 63 - (E - FPU_REAL10_BIAS) := by omega
    have h2 : 2 ^ 1 ≤ 2 ^ (63 - (E - FPU_REAL10_BIAS)) :=
      Nat.pow_le_pow_right (by decide) hk
    have h3 : M / 2 ^ (63 - (E - FPU_REAL10_BIAS)) ≤ M / 2 ^ 1 :=
      Nat.div_le_div_left h2 (by decide)
    generalize M / 2 ^ (63 - (E - FPU_REAL10_BIAS)) = q at h3
    simp only [he, iff_false, Bool.not_eq_true', Bool.not_eq_false', decide_eq_true_eq,
      Bool.not_eq_true, decide_eq_false_iff_not, not_not, ge_iff_le]
    unfold toInt64
    split <;> omega

/-- The `ASSERT` of `Fast486FpuToInteger` fails exactly for the operands that pass
the validity check with the unbiased exponent 63. -/
theorem Fast486FpuToInteger_assert (sm : ShiftModel) (State : FAST486_STATE)
    (Value : FAST486_FPU_DATA_REG) (Result0 Next0 : Nat)
    (hE : Value.Exponent < 2 ^ 16) (hM : Value.Mantissa < 2 ^ 64) :
    (Fast486FpuToInteger sm State Value Result0 Next0).AssertFailed = true ↔
      (FPU_IS_ZERO Value = false ∧ FPU_IS_NAN Value = false ∧
        FPU_IS_NORMALIZED Value = true ∧ Value.Exponent = FPU_REAL10_BIAS + 63) := by
  obtain ⟨hiff, hval⟩ := UnbiasedExp_eq Value.Exponent hE
  by_cases hz : FPU_IS_ZERO Value = true
  · simp [Fast486FpuToInteger, hz]
  · have hz' : FPU_IS_ZERO Value = false := by simpa using hz
    by_cases hc : (FPU_IS_NAN Value || !FPU_IS_NORMALIZED Value ||
        decide (UnbiasedExp Value.Exponent < 0) || decide (UnbiasedExp Value.Exponent > 63)) = true
    · simp only [Fast486FpuToInteger, hz', hc, Bool.false_eq_true, if_false, if_true, false_iff]
      rintro ⟨-, hn, hnorm, he⟩
      have hU := hval (by omega) (by omega)
      simp only [Bool.or_eq_true, Bool.not_eq_true', decide_eq_true_eq, hn, hnorm,
        Bool.false_eq_true, Bool.true_eq_false, false_or] at hc
      omega
    · have hc2 : FPU_IS_NAN Value = false ∧ FPU_IS_NORMALIZED Value = true ∧
          0 ≤ UnbiasedExp Value.Exponent ∧ UnbiasedExp Value.Exponent ≤ 63 := by
        simp only [Bool.or_eq_true, Bool.not_eq_true', decide_eq_true_eq, not_or,
          Bool.not_eq_true, Bool.not_eq_false, not_lt, gt_iff_lt] at hc
        exact ⟨hc.1.1.1, hc.1.1.2, hc.1.2, hc.2⟩
      obtain ⟨hn, hnorm, hu0, hu63⟩ := hc2
      obtain ⟨hlo, hhi⟩ := hiff.mp ⟨hu0, hu63⟩
      have hU := hval hlo hhi
      have hbit : 2 ^ 63 ≤ Value.Mantissa := by
        apply high_bit_le
        simpa [FPU_IS_NORMALIZED, hz', FPU_MANTISSA_HIGH_BIT] using hnorm
      have hkey := shifted_mantissa_sign Value.Mantissa Value.Exponent hM hbit hlo hhi
      rw [← hU] at hkey
      have hrhs : (FPU_IS_ZERO Value = false ∧ FPU_IS_NAN Value = false ∧
          FPU_IS_NORMALIZED Value = true ∧ Value.Exponent = FPU_REAL10_BIAS + 63)
          ↔ Value.Exponent = FPU_REAL10_BIAS + 63 :=
        ⟨fun h => h.2.2.2, fun h => ⟨hz', hn, hnorm, h⟩⟩
      rw [hrhs]
      simp only [Fast486FpuToInteger, hz', hc, Bool.false_eq_true, if_false]
      split_ifs <;> (dsimp only; exact hkey)

/-- C13, at the operand 2^63 (normalized, unbiased exponent 63) and in general.
`Fast486FpuToInteger` returns FALSE exactly when its operand is non-zero and
is NaN/special, or not normalized, or has an unbiased exponent
`Exponent - BIAS` outside [0,63].  In that case it sets Ie and changes nothing
else: the other status bits, the rest of the state and the output integer are
as before.  In every other case the state, Ie included, is unchanged and the
statements of the function lead to `return TRUE`; but for a 64-bit mantissa
the `ASSERT` on the way fails exactly when the operand is non-zero, passes
the validity check and has the unbiased exponent 63, so for those operands
the call does not return TRUE. -/
theorem C13_to_integer_invalid (sm : ShiftModel) (State : FAST486_STATE)
    (Value : FAST486_FPU_DATA_REG) (Result0 Next0 : Nat) (hE : Value.Exponent < 2 ^ 16) :
    ((Fast486FpuToInteger sm State Value Result0 Next0).Ok = false ↔
      (FPU_IS_ZERO Value = false ∧
        (FPU_IS_NAN Value = true ∨ FPU_IS_NORMALIZED Value = false ∨
          (Value.Exponent : Int) - FPU_REAL10_BIAS < 0 ∨
          (Value.Exponent : Int) - FPU_REAL10_BIAS > 63))) ∧
    ((Fast486FpuToInteger sm State Value Result0 Next0).Ok = false →
      (Fast486FpuToInteger sm State Value Result0 Next0).State
          = { State with FpuStatus := { State.FpuStatus with Ie := true } } ∧
      (Fast486FpuToInteger sm State Value Result0 Next0).Result = Result0 ∧
      (Fast486FpuToInteger sm State Value Result0 Next0).Next = Next0) ∧
    ((Fast486FpuToInteger sm State Value Result0 Next0).Ok = true →
      (Fast486FpuToInteger sm State Value Result0 Next0).State = State) ∧
    (Value.Mantissa < 2 ^ 64 →
      ((Fast486FpuToInteger sm State Value Result0 Next0).AssertFailed = true ↔
        (FPU_IS_ZERO Value = false ∧ FPU_IS_NAN Value = false ∧
          FPU_IS_NORMALIZED Value = true ∧ Value.Exponent = FPU_REAL10_BIAS + 63))) := by
  have hold :
      ((Fast486FpuToInteger sm State Value Result0 Next0).Ok = false ↔
        (FPU_IS_ZERO Value = false ∧
          (FPU_IS_NAN Value = true ∨ FPU_IS_NORMALIZED Value = false ∨
            (Value.Exponent : Int) - FPU_REAL10_BIAS < 0 ∨
            (Value.Exponent : Int) - FPU_REAL10_BIAS > 63))) ∧
      ((Fast486FpuToInteger sm State Value Result0 Next0).Ok = false →
        (Fast486FpuToInteger sm State Value Result0 Next0).State
            = { State with FpuStatus := { State.FpuStatus with Ie := true } } ∧
        (Fast486FpuToInteger sm State Value Result0 Next0).Result = Result0 ∧
        (Fast486FpuToInteger sm State Value Result0 Next0).Next = Next0) ∧
      ((Fast486FpuToInteger sm State Value Result0 Next0).Ok = true →
        (Fast486FpuToInteger sm State Value Result0 Next0).State = State) := by
    obtain ⟨hiff, hval⟩ := UnbiasedExp_eq Value.Exponent hE
    have hU : (UnbiasedExp Value.Exponent < 0 ∨ UnbiasedExp Value.Exponent > 63) ↔
        ((Value.Exponent : Int) - FPU_REAL10_BIAS < 0 ∨
          (Value.Exponent : Int) - FPU_REAL10_BIAS > 63) := by
      constructor
      · intro h
        by_contra hc
        have := hiff.mpr ⟨by omega, by omega⟩
        omega
      · intro h
        by_contra hc
        have := hiff.mp ⟨by omega, by omega⟩
        omega
    by_cases hz : FPU_IS_ZERO Value = true
    · simp [Fast486FpuToInteger, hz]
    · have hz' : FPU_IS_ZERO Value = false := by simpa using hz
      by_cases hc : (FPU_IS_NAN Value || !FPU_IS_NORMALIZED Value ||
          decide (UnbiasedExp Value.Exponent < 0) || decide (UnbiasedExp Value.Exponent > 63)) = true
      · have hc' : FPU_IS_NAN Value = true ∨ FPU_IS_NORMALIZED Value = false ∨
            (Value.Exponent : Int) - FPU_REAL10_BIAS < 0 ∨
            (Value.Exponent : Int) - FPU_REAL10_BIAS > 63 := by
          simp only [Bool.or_eq_true, Bool.not_eq_true', decide_eq_true_eq] at hc
          rcases hc with ((h | h) | h) | h
          · exact Or.inl h
          · exact Or.inr (Or.inl h)
          · exact Or.inr (Or.inr (hU.mp (Or.inl h)))
          · exact Or.inr (Or.inr (hU.mp (Or.inr h)))
        simp only [Fast486FpuToInteger, hz', hc, Bool.false_eq_true, if_false, if_true]
        exact ⟨⟨fun _ => ⟨trivial, hc'⟩, fun _ => trivial⟩, fun _ => ⟨trivial, trivial, trivial⟩,
          fun h => absurd h (by decide)⟩
      · have hc' : ¬ (FPU_IS_NAN Value = true ∨ FPU_IS_NORMALIZED Value = false ∨
            (Value.Exponent : Int) - FPU_REAL10_BIAS < 0 ∨
            (Value.Exponent : Int) - FPU_REAL10_BIAS > 63) := by
          intro h
          apply hc
          simp only [Bool.or_eq_true, Bool.not_eq_true', decide_eq_true_eq]
          rcases h with h | h | h
          · exact Or.inl (Or.inl (Or.inl h))
          · exact Or.inl (Or.inl (Or.inr h))
          · rcases hU.mpr h with h | h
            · exact Or.inl (Or.inr h)
            · exact Or.inr h
        simp only [Fast486FpuToInteger, hz', hc, Bool.false_eq_true, if_false]
        split_ifs <;>
          exact ⟨⟨fun h => absurd h (by decide), fun h => absurd h.2 hc'⟩,
            fun h => absurd h (by decide), fun _ => rfl⟩
  exact ⟨hold.1, hold.2.1, hold.2.2,
    fun hM => Fast486FpuToInteger_assert sm State Value Result0 Next0 hE hM⟩

/-- Witness of C13 and its failing input: the operand 2^63 in the state after
`FINIT`.  It passes the validity check and the `ASSERT` fails. -/
theorem C13_to_integer_invalid_witness :
    (⟨0x8000000000000000, 0x403E, false⟩ : FAST486_FPU_DATA_REG).Exponent < 2 ^ 16 ∧
    (Fast486FpuToInteger ShiftModel.masked (initState 0)
        ⟨0x8000000000000000, 0x403E, false⟩ 5 7).Ok ≠ false ∧
    (Fast486FpuToInteger ShiftModel.masked (initState 0)
        ⟨0x8000000000000000, 0x403E, false⟩ 5 7).AssertFailed = true :=
  ⟨by decide,
    fun h => absurd ((C13_to_integer_invalid ShiftModel.masked (initState 0)
      ⟨0x8000000000000000, 0x403E, false⟩ 5 7 (by decide)).1.mp h).2 (by decide),
    ((C13_to_integer_invalid ShiftModel.masked (initState 0)
      ⟨0x8000000000000000, 0x403E, false⟩ 5 7 (by decide)).2.2.2 (by decide)).mpr
      ⟨by decide, by decide, by decide, by decide⟩⟩

/-- The valid path of `Fast486FpuToInteger` in a rounding mode that is none of
Nearest-Even, Down and Up: the magnitude is stored, negated when the sign is
set, and nothing else changes. -/
theorem Fast486FpuToInteger_truncate (sm : ShiftModel) (State : FAST486_STATE)
    (Value : FAST486_FPU_DATA_REG) (Result0 Next0 : Nat)
    (h1 : State.FpuControl.Rc ≠ FPU_ROUND_NEAREST) (h2 : State.FpuControl.Rc ≠ FPU_ROUND_DOWN)
    (h3 : State.FpuControl.Rc ≠ FPU_ROUND_UP)
    (hM : Value.Mantissa < 2 ^ 64) (hNorm : FPU_IS_NORMALIZED Value = true)
    (hlo : FPU_REAL10_BIAS ≤ Value.Exponent) (hhi : Value.Exponent ≤ FPU_REAL10_BIAS + 63) :
    Fast486FpuToInteger sm State Value Result0 Next0
      = ⟨true, State,
          if Value.Sign then neg64 (Value.Mantissa >>> (63 - (Value.Exponent - FPU_REAL10_BIAS)))
          else Value.Mantissa >>> (63 - (Value.Exponent - FPU_REAL10_BIAS)),
          Next0,
          !decide (toInt64 (Value.Mantissa >>> (63 - (Value.Exponent - FPU_REAL10_BIAS))) ≥ 0)⟩ := by
  have hE : Value.Exponent < 2 ^ 16 := by unfold FPU_REAL10_BIAS at hhi; omega
  have hU := (UnbiasedExp_eq Value.Exponent hE).2 hlo hhi
  have hz : FPU_IS_ZERO Value = false := by
    unfold FPU_REAL10_BIAS at hlo
    simp [FPU_IS_ZERO]; omega
  have hN : FPU_IS_NAN Value = false := by
    unfold FPU_REAL10_BIAS at hhi
    simp [FPU_IS_NAN, FPU_MAX_EXPONENT]; omega
  have hB : (63 - ((Value.Exponent : Int) - FPU_REAL10_BIAS)).toNat
      = 63 - (Value.Exponent - FPU_REAL10_BIAS) := by omega
  have hc : ¬ ((false || !true || decide ((Value.Exponent : Int) - FPU_REAL10_BIAS < 0) ||
      decide ((Value.Exponent : Int) - FPU_REAL10_BIAS > 63)) = true) := by
    simp; omega
  have hR : Value.Mantissa >>> (63 - (Value.Exponent - FPU_REAL10_BIAS)) % 2 ^ 64
      = Value.Mantissa >>> (63 - (Value.Exponent - FPU_REAL10_BIAS)) := by
    apply Nat.mod_eq_of_lt
    rw [Nat.shiftRight_eq_div_pow]
    exact Nat.lt_of_le_of_lt (Nat.div_le_self _ _) hM
  simp only [Fast486FpuToInteger, hU, hz, hN, hNorm, hB, hR, hc, if_neg h1, if_neg h2, if_neg h3,
    if_false, Bool.false_eq_true]
  cases Value.Sign <;> simp

/-- C15, at the operand 2^63 (unbiased exponent 63) and in general.  In Truncate
mode, for every normalized operand with a 64-bit mantissa and unbiased
exponent `e = Exponent - BIAS` in [0,63], the statements of
`Fast486FpuToInteger` store the magnitude `Mantissa >> (63 - e)`, negated in
64-bit two's complement when the sign bit is set and unchanged otherwise,
write nothing else and lead to `return TRUE`; but the `ASSERT` on the way
fails exactly when `e = 63`, so for those operands the call does not return
TRUE. -/
theorem C15_truncate (sm : ShiftModel) (State : FAST486_STATE)
    (Value : FAST486_FPU_DATA_REG) (Result0 Next0 : Nat)
    (hRc : State.FpuControl.Rc = FPU_ROUND_TRUNCATE)
    (hM : Value.Mantissa < 2 ^ 64) (hNorm : FPU_IS_NORMALIZED Value = true)
    (hlo : FPU_REAL10_BIAS ≤ Value.Exponent) (hhi : Value.Exponent ≤ FPU_REAL10_BIAS + 63) :
    (Fast486FpuToInteger sm State Value Result0 Next0).Ok = true ∧
    (Fast486FpuToInteger sm State Value Result0 Next0).Result
      = (if Value.Sign then neg64 (Value.Mantissa >>> (63 - (Value.Exponent - FPU_REAL10_BIAS)))
          else Value.Mantissa >>> (63 - (Value.Exponent - FPU_REAL10_BIAS))) ∧
    (Fast486FpuToInteger sm State Value Result0 Next0).Next = Next0 ∧
    (Fast486FpuToInteger sm State Value Result0 Next0).State = State ∧
    ((Fast486FpuToInteger sm State Value Result0 Next0).AssertFailed = true ↔
      Value.Exponent = FPU_REAL10_BIAS + 63) := by
  have hE : Value.Exponent < 2 ^ 16 := by unfold FPU_REAL10_BIAS at hhi; omega
  have hz : FPU_IS_ZERO Value = false := by
    unfold FPU_REAL10_BIAS at hlo
    simp [FPU_IS_ZERO]; omega
  have hN : FPU_IS_NAN Value = false := by
    unfold FPU_REAL10_BIAS at hhi
    simp [FPU_IS_NAN, FPU_MAX_EXPONENT]; omega
  have hA := Fast486FpuToInteger_assert sm State Value Result0 Next0 hE hM
  refine ⟨?_, ?_, ?_, ?_, ⟨fun h => (hA.mp h).2.2.2, fun h => hA.mpr ⟨hz, hN, hNorm, h⟩⟩⟩
  all_goals
    rw [Fast486FpuToInteger_truncate sm State Value Result0 Next0 (by rw [hRc]; decide)
      (by rw [hRc]; decide) (by rw [hRc]; decide) hM hNorm hlo hhi]

/-- Witness of C15 and its failing input: the operand 2^63 in Truncate mode.  The
statements store the pattern `0x8000000000000000` and the `ASSERT` fails. -/
theorem C15_truncate_witness :
    (Fast486FpuToInteger ShiftModel.masked (initState FPU_ROUND_TRUNCATE)
        ⟨0x8000000000000000, 0x403E, false⟩ 0 0).Result = 0x8000000000000000 ∧
    (Fast486FpuToInteger ShiftModel.masked (initState FPU_ROUND_TRUNCATE)
        ⟨0x8000000000000000, 0x403E, false⟩ 0 0).AssertFailed = true := by
  have h := C15_truncate ShiftModel.masked (initState FPU_ROUND_TRUNCATE)
    ⟨0x8000000000000000, 0x403E, false⟩ 0 0 rfl (by decide) (by decide) (by decide) (by decide)
  refine ⟨?_, h.2.2.2.2.mpr (by decide)⟩
  rw [h.2.1]
  decide

/-- C14, at 2^33 + 0.5 and its negative (63 - e = 30, remainder 2^29): in Up mode
`Fast486FpuToInteger` leaves the magnitude 2^33 in the integer of the caller
for the positive operand, where the ceiling is 2^33 + 1; in Down mode it
leaves +2^33 for the negative operand, where the floor is -(2^33 + 1), and
negates the next memory cell instead.  `*Result++` advances the pointer: the
magnitude is never incremented, and the sign is then applied to the wrong
cell.  In Up mode 2.5 gives 2. -/
theorem C14_directed_rounding_not_applied (sm : ShiftModel) (Result0 Next0 : Nat) :
    (Fast486FpuToInteger sm (initState FPU_ROUND_UP)
        ⟨0x8000000020000000, FPU_REAL10_BIAS + 33, false⟩ Result0 Next0).Result = 2 ^ 33 ∧
    (Fast486FpuToInteger sm (initState FPU_ROUND_DOWN)
        ⟨0x8000000020000000, FPU_REAL10_BIAS + 33, true⟩ Result0 Next0).Result = 2 ^ 33 ∧
    (Fast486FpuToInteger sm (initState FPU_ROUND_DOWN)
        ⟨0x8000000020000000, FPU_REAL10_BIAS + 33, true⟩ Result0 Next0).Next = neg64 Next0 ∧
    (Fast486FpuToInteger sm (initState FPU_ROUND_UP)
        ⟨0xA000000000000000, FPU_REAL10_BIAS + 1, false⟩ Result0 Next0).Result = 2 := by
  have e33 : UnbiasedExp 16416 = 33 := by decide
  have e1 : UnbiasedExp 16384 = 1 := by decide
  have hm : intMask sm 30 = 2 ^ 30 - 1 := by
    simp [intMask, intShl1, sext32]
  refine ⟨?_, ?_, ?_, ?_⟩
  · simp [Fast486FpuToInteger, e33, initState, FPU_IS_ZERO, FPU_IS_NAN, FPU_IS_NORMALIZED,
      FPU_REAL10_BIAS, FPU_MAX_EXPONENT, FPU_MANTISSA_HIGH_BIT]
  · simp [Fast486FpuToInteger, e33, hm, initState, FPU_IS_ZERO, FPU_IS_NAN, FPU_IS_NORMALIZED,
      FPU_REAL10_BIAS, FPU_MAX_EXPONENT, FPU_MANTISSA_HIGH_BIT, FPU_ROUND_DOWN,
      FPU_ROUND_NEAREST]
  · simp [Fast486FpuToInteger, e33, hm, initState, FPU_IS_ZERO, FPU_IS_NAN, FPU_IS_NORMALIZED,
      FPU_REAL10_BIAS, FPU_MAX_EXPONENT, FPU_MANTISSA_HIGH_BIT, FPU_ROUND_DOWN,
      FPU_ROUND_NEAREST]
  · simp [Fast486FpuToInteger, e1, initState, FPU_IS_ZERO, FPU_IS_NAN, FPU_IS_NORMALIZED,
      FPU_REAL10_BIAS, FPU_MAX_EXPONENT, FPU_MANTISSA_HIGH_BIT]

theorem single_mantissa (Value : Nat) :
    (((Value &&& 0x7FFFFF) ||| 0x800000) <<< 40) % 2 ^ 64
      = 2 ^ 63 + Value % 2 ^ 23 * 2 ^ 40 := by
  have h1 : Value &&& 0x7FFFFF = Value % 2 ^ 23 := Nat.and_pow_two_sub_one_eq_mod Value 23
  have hf : Value % 2 ^ 23 < 2 ^ 23 := Nat.mod_lt _ (by decide)
  have h2 : (Value % 2 ^ 23) ||| 0x800000 = 2 ^ 23 + Value % 2 ^ 23 := by
    have := Nat.mul_add_lt_is_or hf 1
    rw [Nat.lor_comm]
    simpa using this.symm
  rw [h1, h2, Nat.shiftLeft_eq]
  omega

theorem single_exponent_field (Value : Nat) :
    (Value >>> 23) &&& 0xFF = Value / 2 ^ 23 % 2 ^ 8 := by
  rw [Nat.shiftRight_eq_div_pow]
  exact Nat.and_pow_two_sub_one_eq_mod _ 8

/-- C16: `Fast486FpuFromInteger` represents every signed 64-bit integer exactly.
For 0 it yields the zero value.  For `n ≠ 0`, the minimum `-2^63` included,
the sign is set exactly when `n < 0`, the mantissa is `|n|` shifted left by
`clz(|n|)`, which sets bit 63 and keeps it below `2^64`, and the exponent is
`BIAS + 63 - clz(|n|)`, so that `mantissa × 2^(exponent − BIAS) = |n| × 2^63`. -/
theorem C16_from_integer_exact (n : Int) (hlo : -2 ^ 63 ≤ n) (hhi : n < 2 ^ 63) :
    (n = 0 → Fast486FpuFromInteger n = ⟨0, 0, false⟩) ∧
    (n ≠ 0 →
      (Fast486FpuFromInteger n).Sign = decide (n < 0) ∧
      (Fast486FpuFromInteger n).Mantissa = n.natAbs <<< CountLeadingZeros64 n.natAbs ∧
      2 ^ 63 ≤ (Fast486FpuFromInteger n).Mantissa ∧
      (Fast486FpuFromInteger n).Mantissa < 2 ^ 64 ∧
      (Fast486FpuFromInteger n).Exponent
        = FPU_REAL10_BIAS + 63 - CountLeadingZeros64 n.natAbs ∧
      (Fast486FpuFromInteger n).Mantissa *
          2 ^ ((Fast486FpuFromInteger n).Exponent - FPU_REAL10_BIAS)
        = n.natAbs * 2 ^ 63) := by
  constructor
  · intro h
    simp [Fast486FpuFromInteger, h]
  · intro h0
    obtain ⟨hv, hz, h1, h2⟩ := Fast486FpuFromInteger_nonzero n h0 hlo hhi
    rw [hv]
    refine ⟨rfl, (Nat.shiftLeft_eq _ _).symm, h1, h2, rfl, ?_⟩
    show n.natAbs * 2 ^ CountLeadingZeros64 n.natAbs *
        2 ^ (FPU_REAL10_BIAS + 63 - CountLeadingZeros64 n.natAbs - FPU_REAL10_BIAS)
      = n.natAbs * 2 ^ 63
    have he : FPU_REAL10_BIAS + 63 - CountLeadingZeros64 n.natAbs - FPU_REAL10_BIAS
        = 63 - CountLeadingZeros64 n.natAbs := by omega
    rw [he, Nat.mul_assoc, ← Nat.pow_add]
    have : CountLeadingZeros64 n.natAbs + (63 - CountLeadingZeros64 n.natAbs) = 63 := by omega
    rw [this]

/-- Witness of C16: the minimum value `-2^63`. -/
theorem C16_from_integer_exact_witness :
    (-2 ^ 63 : Int) ≤ -2 ^ 63 ∧ (-2 ^ 63 : Int) < 2 ^ 63 ∧
    ((-2 ^ 63 : Int) ≠ 0 →
      (Fast486FpuFromInteger (-2 ^ 63)).Sign = decide ((-2 ^ 63 : Int) < 0) ∧
      (Fast486FpuFromInteger (-2 ^ 63)).Mantissa
        = (-2 ^ 63 : Int).natAbs <<< CountLeadingZeros64 (-2 ^ 63 : Int).natAbs ∧
      2 ^ 63 ≤ (Fast486FpuFromInteger (-2 ^ 63)).Mantissa ∧
      (Fast486FpuFromInteger (-2 ^ 63)).Mantissa < 2 ^ 64 ∧
      (Fast486FpuFromInteger (-2 ^ 63)).Exponent
        = FPU_REAL10_BIAS + 63 - CountLeadingZeros64 (-2 ^ 63 : Int).natAbs ∧
      (Fast486FpuFromInteger (-2 ^ 63)).Mantissa *
          2 ^ ((Fast486FpuFromInteger (-2 ^ 63)).Exponent - FPU_REAL10_BIAS)
        = (-2 ^ 63 : Int).natAbs * 2 ^ 63) :=
  ⟨by decide, by decide, (C16_from_integer_exact (-2 ^ 63) (by decide) (by decide)).2⟩

/-- C17: for every 32-bit pattern whose exponent field `e` is in [1,254],
`Fast486FpuFromSingleReal` yields the sign bit of the pattern, the exponent
`e - 127 + BIAS` and the mantissa `(1 << 63) | (f << 40)` for the fraction
`f`; the result is normalized and stands for the same real number as the
single. -/
theorem C17_single_normal (Value : Nat) (hV : Value < 2 ^ 32)
    (h1 : 1 ≤ Value / 2 ^ 23 % 2 ^ 8) (h2 : Value / 2 ^ 23 % 2 ^ 8 ≤ 254) :
    (Fast486FpuFromSingleReal Value).Sign = decide (Value / 2 ^ 31 % 2 = 1) ∧
    (Fast486FpuFromSingleReal Value).Exponent
      = Value / 2 ^ 23 % 2 ^ 8 + FPU_REAL10_BIAS - FPU_REAL4_BIAS ∧
    (Fast486FpuFromSingleReal Value).Mantissa = 2 ^ 63 ||| (Value % 2 ^ 23) <<< 40 ∧
    FPU_IS_NORMALIZED (Fast486FpuFromSingleReal Value) = true ∧
    extValue (Fast486FpuFromSingleReal Value) = real4Value Value := by
  have hf : Value % 2 ^ 23 < 2 ^ 23 := Nat.mod_lt _ (by decide)
  have hne : Value ≠ 0 := by
    intro h
    rw [h] at h1
    simp at h1
  have hs : Value >>> 31 % 2 ^ 8 = Value / 2 ^ 31 % 2 := by
    rw [Nat.shiftRight_eq_div_pow]
    omega
  have hor : 2 ^ 63 ||| (Value % 2 ^ 23) <<< 40 = 2 ^ 63 + Value % 2 ^ 23 * 2 ^ 40 := by
    rw [Nat.shiftLeft_eq]
    have hlt : Value % 2 ^ 23 * 2 ^ 40 < 2 ^ 63 := by omega
    have := Nat.mul_add_lt_is_or hlt 1
    simpa using this.symm
  have hval : Fast486FpuFromSingleReal Value
      = ⟨2 ^ 63 + Value % 2 ^ 23 * 2 ^ 40,
          Value / 2 ^ 23 % 2 ^ 8 + FPU_REAL10_BIAS - FPU_REAL4_BIAS,
          decide (Value / 2 ^ 31 % 2 = 1)⟩ := by
    unfold Fast486FpuFromSingleReal
    simp only [single_mantissa, single_exponent_field, hs, hne, if_false]
    have hff : ¬ Value / 2 ^ 23 % 2 ^ 8 = 0xFF := by omega
    rw [if_neg hff]
    have he : (Value / 2 ^ 23 % 2 ^ 8 + (FPU_REAL10_BIAS - FPU_REAL4_BIAS)) % 2 ^ 16
        = Value / 2 ^ 23 % 2 ^ 8 + FPU_REAL10_BIAS - FPU_REAL4_BIAS := by
      unfold FPU_REAL10_BIAS FPU_REAL4_BIAS
      omega
    have hsg : decide (Value / 2 ^ 31 % 2 ≠ 0) = decide (Value / 2 ^ 31 % 2 = 1) := by
      have : Value / 2 ^ 31 % 2 = 0 ∨ Value / 2 ^ 31 % 2 = 1 := by omega
      rcases this with h | h <;> simp [h]
    rw [he, hsg]
  rw [hval]
  refine ⟨rfl, rfl, hor.symm, ?_, ?_⟩
  · have := and_high_bit_ne_zero (2 ^ 63 + Value % 2 ^ 23 * 2 ^ 40) (by omega) (by omega)
    simp only [FPU_IS_NORMALIZED, FPU_MANTISSA_HIGH_BIT, Bool.or_eq_true, bne_iff_ne]
    exact Or.inr this
  · unfold extValue real4Value
    have hexp : (((Value / 2 ^ 23 % 2 ^ 8 + FPU_REAL10_BIAS - FPU_REAL4_BIAS : Nat) : ℤ)
        - (FPU_REAL10_BIAS : ℤ)) = ((Value / 2 ^ 23 % 2 ^ 8 : Nat) : ℤ) - 127 := by
      unfold FPU_REAL10_BIAS FPU_REAL4_BIAS
      omega
    simp only [hexp]
    have hm : ((2 ^ 63 + Value % 2 ^ 23 * 2 ^ 40 : Nat) : ℚ) / 2 ^ 63
        = 1 + ((Value % 2 ^ 23 : Nat) : ℚ) / 2 ^ 23 := by
      push_cast
      field_simp
      ring
    rw [hm]
    simp

/-- Witness of C17: the single 1.5 (`0x3FC00000`). -/
theorem C17_single_normal_witness :
    (0x3FC00000 : Nat) < 2 ^ 32 ∧ 1 ≤ 0x3FC00000 / 2 ^ 23 % 2 ^ 8 ∧
    0x3FC00000 / 2 ^ 23 % 2 ^ 8 ≤ 254 ∧
    extValue (Fast486FpuFromSingleReal 0x3FC00000) = real4Value 0x3FC00000 :=
  ⟨by decide, by decide, by decide,
    (C17_single_normal 0x3FC00000 (by decide) (by decide) (by decide)).2.2.2.2⟩

/-- C18, at the double 1.0 (`0x3FF0000000000000`, exponent field `0x3FF`):
`Fast486FpuFromDoubleReal` yields the special exponent `MAX_EXPONENT + 1`
with mantissa `1 << 63`, which is the encoding of +infinity and not the
extended value 1.0 (exponent BIAS).  The test for the all-ones exponent
compares with `0x3FF` where the 11-bit field is all ones at `0x7FF`. -/
theorem C18_double_one_becomes_special :
    Fast486FpuFromDoubleReal 0x3FF0000000000000
      = ⟨0x8000000000000000, FPU_MAX_EXPONENT + 1, false⟩ ∧
    FPU_IS_POS_INF (Fast486FpuFromDoubleReal 0x3FF0000000000000) = true := by
  decide

/-- C19, at the double +infinity (`0x7FF0000000000000`) and in general:
`Fast486FpuFromDoubleReal` yields the exponent `0x43FF` for +infinity, not
`MAX_EXPONENT + 1`; the patterns for which it yields `MAX_EXPONENT + 1` are
exactly those whose exponent field is `0x3FF`, the doubles of magnitude in
[1,2). -/
theorem C19_double_special_exponent (Value : Nat) :
    (Fast486FpuFromDoubleReal 0x7FF0000000000000).Exponent = 0x43FF ∧
    ((Fast486FpuFromDoubleReal Value).Exponent = FPU_MAX_EXPONENT + 1 ↔
      (Value >>> 52) &&& 0x7FF = 0x3FF) := by
  refine ⟨by decide, ?_⟩
  have hle : (Value >>> 52) &&& 0x7FF ≤ 0x7FF := Nat.and_le_right
  unfold Fast486FpuFromDoubleReal FPU_MAX_EXPONENT FPU_REAL10_BIAS FPU_REAL8_BIAS
  simp only []
  by_cases h0 : Value = 0
  · subst h0
    decide
  · rw [if_neg h0]
    by_cases he : (Value >>> 52) &&& 0x7FF = 0x3FF
    · rw [if_pos he]
      simp [he]
    · rw [if_neg he]
      simp only [he, iff_false]
      generalize (Value >>> 52) &&& 0x7FF = e at hle he
      omega

/-- C20: `Fast486FpuFromSingleReal` yields the special exponent
`MAX_EXPONENT + 1` exactly for the patterns whose 8-bit exponent field is
`0xFF`; for those the fraction bits sit unchanged in mantissa bits 40..62,
above 40 zero bits and below the set bit 63. -/
theorem C20_single_special_exponent (Value : Nat) :
    ((Fast486FpuFromSingleReal Value).Exponent = FPU_MAX_EXPONENT + 1 ↔
      (Value >>> 23) &&& 0xFF = 0xFF) ∧
    ((Value >>> 23) &&& 0xFF = 0xFF →
      (Fast486FpuFromSingleReal Value).Mantissa / 2 ^ 40 % 2 ^ 23 = Value % 2 ^ 23 ∧
      (Fast486FpuFromSingleReal Value).Mantissa % 2 ^ 40 = 0 ∧
      (Fast486FpuFromSingleReal Value).Mantissa / 2 ^ 63 = 1) := by
  have hle : (Value >>> 23) &&& 0xFF ≤ 0xFF := Nat.and_le_right
  have hf : Value % 2 ^ 23 < 2 ^ 23 := Nat.mod_lt _ (by decide)
  have hM : (Fast486FpuFromSingleReal Value).Mantissa = 2 ^ 63 + Value % 2 ^ 23 * 2 ^ 40 := by
    unfold Fast486FpuFromSingleReal
    simp only [single_mantissa]
    split_ifs <;> rfl
  constructor
  · unfold Fast486FpuFromSingleReal FPU_MAX_EXPONENT FPU_REAL10_BIAS FPU_REAL4_BIAS
    simp only []
    by_cases h0 : Value = 0
    · subst h0
      decide
    · rw [if_neg h0]
      by_cases he : (Value >>> 23) &&& 0xFF = 0xFF
      · rw [if_pos he]
        simp [he]
      · rw [if_neg he]
        simp only [he, iff_false]
        generalize (Value >>> 23) &&& 0xFF = e at hle he
        omega
  · intro _
    rw [hM]
    omega

/-! ## Frame lemmas: what the arithmetic functions leave alone -/

theorem Fast486FpuAdd_frame (sm : ShiftModel) (State : FAST486_STATE)
    (a b : FAST486_FPU_DATA_REG) :
    (Fast486FpuAdd sm State a b).1.FpuRegisters = State.FpuRegisters ∧
    (Fast486FpuAdd sm State a b).1.FpuControl = State.FpuControl ∧
    (Fast486FpuAdd sm State a b).1.FpuTag = State.FpuTag ∧
    (Fast486FpuAdd sm State a b).1.FpuStatus.Top = State.FpuStatus.Top := by
  simp only [Fast486FpuAdd, apply_ite Prod.fst, apply_ite FAST486_STATE.FpuStatus,
    apply_ite FAST486_STATE.FpuRegisters, apply_ite FAST486_STATE.FpuControl,
    apply_ite FAST486_STATE.FpuTag, apply_ite FAST486_FPU_STATUS.Top, ite_self, and_self]

theorem Fast486FpuAdd_sticky (sm : ShiftModel) (State : FAST486_STATE)
    (a b : FAST486_FPU_DATA_REG) :
    stickyKept State.FpuStatus (Fast486FpuAdd sm State a b).1.FpuStatus := by
  unfold stickyKept
  refine ⟨?_, ?_, ?_, ?_, ?_, ?_⟩ <;> intro h
  · simp only [Fast486FpuAdd, apply_ite Prod.fst, apply_ite FAST486_STATE.FpuStatus,
      apply_ite FAST486_FPU_STATUS.Ie, h, ite_self]
  · simp only [Fast486FpuAdd, apply_ite Prod.fst, apply_ite FAST486_STATE.FpuStatus,
      apply_ite FAST486_FPU_STATUS.De, h, ite_self]
  · simp only [Fast486FpuAdd, apply_ite Prod.fst, apply_ite FAST486_STATE.FpuStatus,
      apply_ite FAST486_FPU_STATUS.Ze, h, ite_self]
  · simp only [Fast486FpuAdd, apply_ite Prod.fst, apply_ite FAST486_STATE.FpuStatus,
      apply_ite FAST486_FPU_STATUS.Oe, h, ite_self]
  · simp only [Fast486FpuAdd, apply_ite Prod.fst, apply_ite FAST486_STATE.FpuStatus,
      apply_ite FAST486_FPU_STATUS.Ue, h, ite_self]
  · simp only [Fast486FpuAdd, apply_ite Prod.fst, apply_ite FAST486_STATE.FpuStatus,
      apply_ite FAST486_FPU_STATUS.Pe, h, ite_self]

theorem Fast486FpuMultiply_frame (State : FAST486_STATE) (a b : FAST486_FPU_DATA_REG) :
    (Fast486FpuMultiply State a b).1.FpuRegisters = State.FpuRegisters ∧
    (Fast486FpuMultiply State a b).1.FpuControl = State.FpuControl ∧
    (Fast486FpuMultiply State a b).1.FpuTag = State.FpuTag ∧
    (Fast486FpuMultiply State a b).1.FpuStatus.Top = State.FpuStatus.Top := by
  simp only [Fast486FpuMultiply, apply_ite FAST486_STATE.FpuStatus,
    apply_ite FAST486_STATE.FpuRegisters, apply_ite FAST486_STATE.FpuControl,
    apply_ite FAST486_STATE.FpuTag, apply_ite FAST486_FPU_STATUS.Top, ite_self, and_self]

theorem Fast486FpuMultiply_sticky (State : FAST486_STATE) (a b : FAST486_FPU_DATA_REG) :
    stickyKept State.FpuStatus (Fast486FpuMultiply State a b).1.FpuStatus := by
  unfold stickyKept Fast486FpuMultiply
  simp only []
  split_ifs <;> simp

theorem Fast486FpuDivide_frame (State : FAST486_STATE) (a b r : FAST486_FPU_DATA_REG) :
    (Fast486FpuDivide State a b r).1.FpuRegisters = State.FpuRegisters ∧
    (Fast486FpuDivide State a b r).1.FpuControl = State.FpuControl ∧
    (Fast486FpuDivide State a b r).1.FpuTag = State.FpuTag ∧
    (Fast486FpuDivide State a b r).1.FpuStatus.Top = State.FpuStatus.Top := by
  unfold Fast486FpuDivide
  split_ifs <;> simp

theorem Fast486FpuDivide_sticky (State : FAST486_STATE) (a b r : FAST486_FPU_DATA_REG) :
    stickyKept State.FpuStatus (Fast486FpuDivide State a b r).1.FpuStatus := by
  unfold stickyKept Fast486FpuDivide
  split_ifs <;> simp

theorem Fast486FpuCompare_frame (sm : ShiftModel) (State : FAST486_STATE)
    (a b t : FAST486_FPU_DATA_REG) :
    (Fast486FpuCompare sm State a b t).FpuRegisters = State.FpuRegisters ∧
    (Fast486FpuCompare sm State a b t).FpuControl = State.FpuControl ∧
    (Fast486FpuCompare sm State a b t).FpuTag = State.FpuTag ∧
    (Fast486FpuCompare sm State a b t).FpuStatus.Top = State.FpuStatus.Top := by
  obtain ⟨h1, h2, h3, h4⟩ := Fast486FpuAdd_frame sm State t a
  unfold Fast486FpuCompare Fast486FpuSubtract setCodes
  simp only []
  split_ifs <;> simp [h1, h2, h3, h4]

theorem Fast486FpuCompare_sticky (sm : ShiftModel) (State : FAST486_STATE)
    (a b t : FAST486_FPU_DATA_REG) :
    stickyKept State.FpuStatus (Fast486FpuCompare sm State a b t).FpuStatus := by
  have h := Fast486FpuAdd_sticky sm State t a
  unfold stickyKept at h ⊢
  unfold Fast486FpuCompare Fast486FpuSubtract setCodes
  simp only []
  split_ifs <;> simp <;> exact h

theorem Fast486FpuToInteger_state (sm : ShiftModel) (State : FAST486_STATE)
    (Value : FAST486_FPU_DATA_REG) (Result0 Next0 : Nat) :
    ((Fast486FpuToInteger sm State Value Result0 Next0).Ok = true →
      (Fast486FpuToInteger sm State Value Result0 Next0).State = State) ∧
    ((Fast486FpuToInteger sm State Value Result0 Next0).Ok = false →
      (Fast486FpuToInteger sm State Value Result0 Next0).State = setIe State) := by
  unfold Fast486FpuToInteger setIe
  simp only []
  split_ifs <;> simp

/-- C21, at the patterns 0: `Fast486FpuFromSingleReal` and
`Fast486FpuFromDoubleReal` return exponent 0 with mantissa `1 << 63`, not
the zero value, and the zero predicate rejects both results.  The mantissa
is assigned with the leading 1 inserted before the test `Value == 0`
returns. -/
theorem C21_zero_pattern_keeps_leading_one :
    Fast486FpuFromSingleReal 0 = ⟨0x8000000000000000, 0, false⟩ ∧
    Fast486FpuFromDoubleReal 0 = ⟨0x8000000000000000, 0, false⟩ ∧
    FPU_IS_ZERO (Fast486FpuFromSingleReal 0) = false ∧
    FPU_IS_ZERO (Fast486FpuFromDoubleReal 0) = false := by
  decide

/-- C22, at 1.0 × 1.0: `Fast486FpuMultiply` returns exponent `2 * BIAS - 1 = 0x7FFD`
with mantissa `1 << 63`, not 1.0 (exponent BIAS).  The two biased exponents
are added and the bias is never subtracted. -/
theorem C22_multiply_one_by_one (State : FAST486_STATE) :
    (Fast486FpuMultiply State ⟨0x8000000000000000, FPU_REAL10_BIAS, false⟩
        ⟨0x8000000000000000, FPU_REAL10_BIAS, false⟩).2
      = ⟨0x8000000000000000, 2 * FPU_REAL10_BIAS - 1, false⟩ :=
  rfl

theorem bytes8 (M : Nat) (hM : M < 2 ^ 64) :
    byteAt M 0 % 256 + byteAt M 1 % 256 * 256 + byteAt M 2 % 256 * 256 ^ 2
      + byteAt M 3 % 256 * 256 ^ 3 + byteAt M 4 % 256 * 256 ^ 4 + byteAt M 5 % 256 * 256 ^ 5
      + byteAt M 6 % 256 * 256 ^ 6 + byteAt M 7 % 256 * 256 ^ 7 = M := by
  unfold byteAt
  norm_num
  omega

theorem word_low15 (W : Nat) (hW : W < 2 ^ 16) :
    (byteAt W 0 % 256 + byteAt W 1 % 256 * 256) &&& (FPU_MAX_EXPONENT + 1) = W % 2 ^ 15 := by
  have h : byteAt W 0 % 256 + byteAt W 1 % 256 * 256 = W := by
    unfold byteAt
    norm_num
    omega
  rw [h]
  exact Nat.and_pow_two_sub_one_eq_mod W 15

theorem word_top (W : Nat) (hW : W < 2 ^ 16) :
    (byteAt W 1 % 256) >>> 7 = W / 2 ^ 15 := by
  unfold byteAt
  rw [Nat.shiftRight_eq_div_pow]
  norm_num
  omega

theorem or_sign_bit (E : Nat) (hE : E < 2 ^ 15) : E ||| 0x8000 = E + 2 ^ 15 := by
  have := Nat.mul_add_lt_is_or hE 1
  simp only [Nat.mul_one] at this
  rw [Nat.lor_comm, show (0x8000 : Nat) = 2 ^ 15 from rfl, ← this]
  omega

/-- C23: the 10-byte layout round-trips.  For every register value with a 64-bit
mantissa and a 15-bit exponent, decoding as FLD does the 10 bytes that FSTP
builds returns the same mantissa, exponent and sign. -/
theorem C23_real10_roundtrip (v : FAST486_FPU_DATA_REG)
    (hM : v.Mantissa < 2 ^ 64) (hE : v.Exponent < 2 ^ 15) :
    decodeReal10 (encodeReal10 v) = v := by
  obtain ⟨M, E, S⟩ := v
  simp only at hM hE
  have hMm : M % 2 ^ 64 = M := Nat.mod_eq_of_lt hM
  have h8 := bytes8 M hM
  cases S
  · have hW : (E ||| 0) % 2 ^ 16 = E := by
      rw [Nat.or_zero]; omega
    have h1 := word_low15 E (by omega)
    have h2 := word_top E (by omega)
    have h3 : E % 2 ^ 15 = E := Nat.mod_eq_of_lt hE
    have h4 : E / 2 ^ 15 = 0 := by omega
    simp only [decodeReal10, encodeReal10, Bool.false_eq_true, if_false,
      List.getD_cons_zero, List.getD_cons_succ]
    rw [hW, hMm, h8, h1, h2, h3, h4]
    rfl
  · have hW : (E ||| 0x8000) % 2 ^ 16 = E + 32768 := by
      rw [or_sign_bit E hE]; omega
    have h1 := word_low15 (E + 32768) (by omega)
    have h2 := word_top (E + 32768) (by omega)
    have h3 : (E + 32768) % 2 ^ 15 = E := by omega
    have h4 : (E + 32768) / 2 ^ 15 = 1 := by omega
    simp only [decodeReal10, encodeReal10, if_true,
      List.getD_cons_zero, List.getD_cons_succ]
    rw [hW, hMm, h8, h1, h2, h3, h4]
    rfl

/-- Witness of C23: the value -2.5. -/
theorem C23_real10_roundtrip_witness :
    (⟨0xA000000000000000, 0x4000, true⟩ : FAST486_FPU_DATA_REG).Mantissa < 2 ^ 64 ∧
    (⟨0xA000000000000000, 0x4000, true⟩ : FAST486_FPU_DATA_REG).Exponent < 2 ^ 15 ∧
    decodeReal10 (encodeReal10 ⟨0xA000000000000000, 0x4000, true⟩)
      = ⟨0xA000000000000000, 0x4000, true⟩ :=
  ⟨by decide, by decide, C23_real10_roundtrip _ (by decide) (by decide)⟩

/-- C24: in the handlers of D8/DC and of DE, when the tag of ST0 is Empty, or in
the register form the tag of the selected ST(i) is Empty (for DE: in an
encoding other than the rejected `Register = 3, SecondRegister ≠ 1`), the
handler sets Ie and returns: the resulting state is the prior state with Ie
set and nothing else changed, and no Undefined-Opcode is raised. -/
theorem C24_empty_tag_aborts (sm : ShiftModel) (State : FAST486_STATE) (Opcode : Nat)
    (ModRegRm : FAST486_MOD_REG_RM) (Value : Option Nat) (TempResult : FAST486_FPU_DATA_REG) :
    ((FPU_GET_TAG State 0 = FPU_TAG_EMPTY ∨
        (ModRegRm.Memory = false ∧
          FPU_GET_TAG State ModRegRm.SecondRegister = FPU_TAG_EMPTY)) →
      Fast486FpuOpcodeD8DC sm State Opcode ModRegRm Value TempResult
        = { State with FpuStatus := { State.FpuStatus with Ie := true } }) ∧
    ((FPU_GET_TAG State 0 = FPU_TAG_EMPTY ∨
        (ModRegRm.Memory = false ∧
          ¬ (ModRegRm.Register = 3 ∧ ModRegRm.SecondRegister ≠ 1) ∧
          FPU_GET_TAG State ModRegRm.SecondRegister = FPU_TAG_EMPTY)) →
      Fast486FpuOpcodeDE sm State ModRegRm Value TempResult
        = ({ State with FpuStatus := { State.FpuStatus with Ie := true } }, false)) := by
  constructor
  · intro h
    unfold Fast486FpuOpcodeD8DC setIe
    by_cases h0 : FPU_GET_TAG State 0 = FPU_TAG_EMPTY
    · rw [if_pos h0]
    · rcases h with h | ⟨hm, ht⟩
      · exact absurd h h0
      · rw [if_neg h0, hm, if_neg (by decide), if_pos ht]
  · intro h
    unfold Fast486FpuOpcodeDE setIe
    by_cases h0 : FPU_GET_TAG State 0 = FPU_TAG_EMPTY
    · rw [if_pos h0]
    · rcases h with h | ⟨hm, hv, ht⟩
      · exact absurd h h0
      · rw [if_neg h0, hm, if_neg (by decide), if_neg hv, if_pos ht]

/-- Witness of C24: the state after `FINIT`, in which every tag is Empty; D8 /0
with a memory operand and DE C1. -/
theorem C24_empty_tag_aborts_witness :
    FPU_GET_TAG (initState 0) 0 = FPU_TAG_EMPTY ∧
    Fast486FpuOpcodeD8DC ShiftModel.masked (initState 0) 0xD8 ⟨true, 0, 0⟩ (some 0x3FC00000)
        ⟨0, 0, false⟩
      = { initState 0 with FpuStatus := { (initState 0).FpuStatus with Ie := true } } ∧
    Fast486FpuOpcodeDE ShiftModel.masked (initState 0) ⟨false, 0, 1⟩ none ⟨0, 0, false⟩
      = ({ initState 0 with FpuStatus := { (initState 0).FpuStatus with Ie := true } }, false) :=
  ⟨by decide,
    (C24_empty_tag_aborts ShiftModel.masked (initState 0) 0xD8 ⟨true, 0, 0⟩ (some 0x3FC00000)
      ⟨0, 0, false⟩).1 (Or.inl (by decide)),
    (C24_empty_tag_aborts ShiftModel.masked (initState 0) 0xD8 ⟨false, 0, 1⟩ none
      ⟨0, 0, false⟩).2 (Or.inl (by decide))⟩

/-- C25, for every FIST/FISTP whose ST0 is neither Empty nor Special and whose
conversion succeeds with a negative integer `v` (pattern at least `2^63`):
the handler sets Ie, writes nothing to memory and does not pop, also when
`-2^31 ≤ v`.  The range test shifts `(ULONGLONG)Temp` right by 31, which for
a negative `v` leaves `0x1FFFFFFFF` and not all ones, so adding 1 never
wraps to 0.  The handler fails the `ASSERT` of the conversion exactly when
the conversion does. -/
theorem C25_fist_rejects_negative (sm : ShiftModel) (State : FAST486_STATE)
    (ModRegRm : FAST486_MOD_REG_RM) (DefaultControl : FAST486_FPU_CONTROL)
    (Dword : Option Nat) (Buffer : Option (List Nat)) (WriteOk : Bool) (Temp0 Next0 : Nat)
    (hM : ModRegRm.Memory = true) (hR : ModRegRm.Register = 2 ∨ ModRegRm.Register = 3)
    (hE : FPU_GET_TAG State 0 ≠ FPU_TAG_EMPTY) (hS : FPU_GET_TAG State 0 ≠ FPU_TAG_SPECIAL)
    (hOk : (Fast486FpuToInteger sm State (FPU_ST State 0) Temp0 Next0).Ok = true)
    (hNeg : 2 ^ 63 ≤ (Fast486FpuToInteger sm State (FPU_ST State 0) Temp0 Next0).Result
      % 2 ^ 64) :
    (Fast486FpuOpcodeDB sm State ModRegRm DefaultControl Dword Buffer WriteOk Temp0
        Next0).Dword = none ∧
    (Fast486FpuOpcodeDB sm State ModRegRm DefaultControl Dword Buffer WriteOk Temp0
        Next0).State = { State with FpuStatus := { State.FpuStatus with Ie := true } } ∧
    (Fast486FpuOpcodeDB sm State ModRegRm DefaultControl Dword Buffer WriteOk Temp0
        Next0).AssertFailed
      = (Fast486FpuToInteger sm State (FPU_ST State 0) Temp0 Next0).AssertFailed := by
  have hSt := (Fast486FpuToInteger_state sm State (FPU_ST State 0) Temp0 Next0).1 hOk
  have hT : ¬ (FPU_GET_TAG State 0 = FPU_TAG_EMPTY ∨ FPU_GET_TAG State 0 = FPU_TAG_SPECIAL) := by
    intro h
    rcases h with h | h
    · exact hE h
    · exact hS h
  have hFit : ((((Fast486FpuToInteger sm State (FPU_ST State 0) Temp0 Next0).Result
      % 2 ^ 64) >>> 31) + 1) % 2 ^ 64 > 1 := by
    rw [Nat.shiftRight_eq_div_pow]
    omega
  unfold Fast486FpuOpcodeDB
  rw [hM, if_pos rfl]
  rcases hR with hR | hR <;>
    simp only [hR, if_neg hT, hOk, Bool.not_true, Bool.false_eq_true, if_false, hFit, if_true,
      hSt, setIe, and_self]

/-- Witness of C25 and its failing input: FIST in Truncate mode with ST0 = -1.0.
The conversion succeeds with -1, which fits a signed 32-bit integer, yet
nothing is written and Ie is set. -/
theorem C25_fist_rejects_negative_witness :
    toInt64 (Fast486FpuToInteger ShiftModel.masked
        (Fast486FpuPush (initState FPU_ROUND_TRUNCATE) ⟨0x8000000000000000, 0x3FFF, true⟩)
        ⟨0x8000000000000000, 0x3FFF, true⟩ 0 0).Result = -1 ∧
    (Fast486FpuOpcodeDB ShiftModel.masked
        (Fast486FpuPush (initState FPU_ROUND_TRUNCATE) ⟨0x8000000000000000, 0x3FFF, true⟩)
        ⟨true, 2, 0⟩ ⟨0, 0⟩ none none true 0 0).Dword = none ∧
    (Fast486FpuOpcodeDB ShiftModel.masked
        (Fast486FpuPush (initState FPU_ROUND_TRUNCATE) ⟨0x8000000000000000, 0x3FFF, true⟩)
        ⟨true, 2, 0⟩ ⟨0, 0⟩ none none true 0 0).State.FpuStatus.Ie = true ∧
    (Fast486FpuOpcodeDB ShiftModel.masked
        (Fast486FpuPush (initState FPU_ROUND_TRUNCATE) ⟨0x8000000000000000, 0x3FFF, true⟩)
        ⟨true, 2, 0⟩ ⟨0, 0⟩ none none true 0 0).AssertFailed = false := by
  have h := C25_fist_rejects_negative ShiftModel.masked
    (Fast486FpuPush (initState FPU_ROUND_TRUNCATE) ⟨0x8000000000000000, 0x3FFF, true⟩)
    ⟨true, 2, 0⟩ ⟨0, 0⟩ none none true 0 0 rfl (Or.inl rfl) (by decide) (by decide)
    (by decide) (by decide)
  refine ⟨by decide, h.1, ?_, ?_⟩
  · rw [h.2.1]
  · rw [h.2.2]
    decide

/-- C26, for every register-form encoding with `Register = 5` or
`SecondRegister = 1` and with ST0 and ST1 not Empty: the DA handler raises no
Undefined-Opcode, compares ST0 with ST1 and pops twice.  The guard reads
`Register != 5 && SecondRegister != 1`, so it rejects only the encodings in
which both sub-fields differ from those of FUCOMPP. -/
theorem C26_da_accepts_other_encodings (sm : ShiftModel) (State : FAST486_STATE)
    (ModRegRm : FAST486_MOD_REG_RM) (Value : Option Nat) (TempResult : FAST486_FPU_DATA_REG)
    (hM : ModRegRm.Memory = false)
    (hEnc : ModRegRm.Register = 5 ∨ ModRegRm.SecondRegister = 1)
    (h0 : FPU_GET_TAG State 0 ≠ FPU_TAG_EMPTY) (h1 : FPU_GET_TAG State 1 ≠ FPU_TAG_EMPTY) :
    Fast486FpuOpcodeDA sm State ModRegRm Value TempResult
      = (Fast486FpuPop (Fast486FpuPop
          (Fast486FpuCompare sm State (FPU_ST State 0) (FPU_ST State 1) TempResult)), false) := by
  have hg : ¬ (ModRegRm.Register ≠ 5 ∧ ModRegRm.SecondRegister ≠ 1) := by
    intro h
    rcases hEnc with he | he
    · exact h.1 he
    · exact h.2 he
  have ht : ¬ (FPU_GET_TAG State 0 = FPU_TAG_EMPTY ∨ FPU_GET_TAG State 1 = FPU_TAG_EMPTY) := by
    intro h
    rcases h with h | h
    · exact h0 h
    · exact h1 h
  unfold Fast486FpuOpcodeDA
  rw [hM]
  simp only [Bool.not_false, if_true, if_neg hg, if_neg ht]

/-- Witness of C26 and its failing input: DA C1 (`Register = 0`,
`SecondRegister = 1`, not FUCOMPP) with 2.0 in ST0 and 1.0 in ST1.  No
Undefined-Opcode is raised; the top-of-stack pointer moves from 6 to 0 and
both slots are tagged Empty. -/
theorem C26_da_accepts_other_encodings_witness :
    (Fast486FpuOpcodeDA ShiftModel.masked
        (Fast486FpuPush (Fast486FpuPush (initState 0) ⟨0x8000000000000000, 0x3FFF, false⟩)
          ⟨0x8000000000000000, 0x4000, false⟩)
        ⟨false, 0, 1⟩ none ⟨0, 0, false⟩).2 = false ∧
    (Fast486FpuPush (Fast486FpuPush (initState 0) ⟨0x8000000000000000, 0x3FFF, false⟩)
          ⟨0x8000000000000000, 0x4000, false⟩).FpuStatus.Top = 6 ∧
    (Fast486FpuOpcodeDA ShiftModel.masked
        (Fast486FpuPush (Fast486FpuPush (initState 0) ⟨0x8000000000000000, 0x3FFF, false⟩)
          ⟨0x8000000000000000, 0x4000, false⟩)
        ⟨false, 0, 1⟩ none ⟨0, 0, false⟩).1.FpuStatus.Top = 0 ∧
    (Fast486FpuOpcodeDA ShiftModel.masked
        (Fast486FpuPush (Fast486FpuPush (initState 0) ⟨0x8000000000000000, 0x3FFF, false⟩)
          ⟨0x8000000000000000, 0x4000, false⟩)
        ⟨false, 0, 1⟩ none ⟨0, 0, false⟩).1.FpuTag = 0xFFFF := by
  have h := C26_da_accepts_other_encodings ShiftModel.masked
    (Fast486FpuPush (Fast486FpuPush (initState 0) ⟨0x8000000000000000, 0x3FFF, false⟩)
      ⟨0x8000000000000000, 0x4000, false⟩)
    ⟨false, 0, 1⟩ none ⟨0, 0, false⟩ rfl (Or.inr rfl) (by decide) (by decide)
  rw [h]
  decide

/-- C27: FCLEX (DB E2: register form, `Register = 4`, `SecondRegister = 2`) clears
Ie, De, Ze, Oe, Ue, Pe, the stack-fault, error-summary and busy flags,
whatever they were, and changes nothing else: the resulting state is the
prior state with those nine flags cleared, so the condition codes, the
top-of-stack pointer, the control word, the tags and the data registers are
as before.  It raises no exception and writes no memory. -/
theorem C27_fclex (sm : ShiftModel) (State : FAST486_STATE)
    (DefaultControl : FAST486_FPU_CONTROL) (Dword : Option Nat) (Buffer : Option (List Nat))
    (WriteOk : Bool) (Temp0 Next0 : Nat) :
    Fast486FpuOpcodeDB sm State ⟨false, 4, 2⟩ DefaultControl Dword Buffer WriteOk Temp0 Next0
      = ⟨{ FpuRegisters := State.FpuRegisters
           FpuControl := State.FpuControl
           FpuStatus :=
             { Ie := false, De := false, Ze := false, Oe := false, Ue := false, Pe := false,
               Sf := false, Es := false, Code0 := State.FpuStatus.Code0,
               Code2 := State.FpuStatus.Code2, Top := State.FpuStatus.Top,
               Code3 := State.FpuStatus.Code3, Busy := false }
           FpuTag := State.FpuTag }, false, none, none, false⟩ :=
  rfl

/-- C28: FINIT (DB E3) sets the control word to its default value, the status word
to zero (every flag and condition code clear, top-of-stack pointer 0) and
the tag word to `0xFFFF`, in which each of the eight slots is tagged Empty;
the data registers are unchanged.  FENI (DB E0) and FDISI (DB E1) leave the
state as it was.  None of the three raises an exception or writes memory. -/
theorem C28_finit_feni_fdisi (sm : ShiftModel) (State : FAST486_STATE)
    (DefaultControl : FAST486_FPU_CONTROL) (Dword : Option Nat) (Buffer : Option (List Nat))
    (WriteOk : Bool) (Temp0 Next0 : Nat) :
    Fast486FpuOpcodeDB sm State ⟨false, 4, 3⟩ DefaultControl Dword Buffer WriteOk Temp0 Next0
      = ⟨{ FpuRegisters := State.FpuRegisters
           FpuControl := DefaultControl
           FpuStatus :=
             { Ie := false, De := false, Ze := false, Oe := false, Ue := false, Pe := false,
               Sf := false, Es := false, Code0 := false, Code2 := false, Top := 0,
               Code3 := false, Busy := false }
           FpuTag := 0xFFFF }, false, none, none, false⟩ ∧
    (∀ p : Fin 8, getTag 0xFFFF p = FPU_TAG_EMPTY) ∧
    Fast486FpuOpcodeDB sm State ⟨false, 4, 0⟩ DefaultControl Dword Buffer WriteOk Temp0 Next0
      = ⟨State, false, none, none, false⟩ ∧
    Fast486FpuOpcodeDB sm State ⟨false, 4, 1⟩ DefaultControl Dword Buffer WriteOk Temp0 Next0
      = ⟨State, false, none, none, false⟩ := by
  refine ⟨rfl, by decide, rfl, rfl⟩

/-- The switch shared by the arithmetic handlers never touches the tag word,
except through the pop of sub-field 3. -/
theorem fpuOperation_tag (sm : ShiftModel) (State : FAST486_STATE) (Register Dest : Nat)
    (Source TempResult : FAST486_FPU_DATA_REG) (h3 : Register ≠ 3) :
    (fpuOperation sm State Register Dest Source TempResult).FpuTag = State.FpuTag := by
  unfold fpuOperation
  split
  · exact (Fast486FpuAdd_frame sm State _ _).2.2.1
  · exact (Fast486FpuMultiply_frame State _ _).2.2.1
  · exact (Fast486FpuCompare_frame sm State _ _ _).2.2.1
  · exact absurd rfl h3
  · exact (Fast486FpuAdd_frame sm State _ _).2.2.1
  · exact (Fast486FpuAdd_frame sm State _ _).2.2.1
  · exact (Fast486FpuDivide_frame State _ _ _).2.2.1
  · exact (Fast486FpuDivide_frame State _ _ _).2.2.1
  · rfl

/-- C29, at D8 C0 (FADD ST0, ST0) with the largest finite power of two in ST0,
tagged Valid: the handler writes +infinity into ST0 and sets Overflow, and
the tag of ST0 is still Valid, where the classification of the value
written is Special.  No arithmetic handler updates a tag after it writes. -/
theorem C29_tag_not_rederived (sm : ShiftModel) (TempResult : FAST486_FPU_DATA_REG) :
    FPU_GET_TAG (Fast486FpuPush (initState 0) ⟨0x8000000000000000, FPU_MAX_EXPONENT, false⟩) 0
      = FPU_TAG_VALID ∧
    FPU_ST (Fast486FpuOpcodeD8DC sm
        (Fast486FpuPush (initState 0) ⟨0x8000000000000000, FPU_MAX_EXPONENT, false⟩)
        0xD8 ⟨false, 0, 0⟩ none TempResult) 0
      = ⟨0x8000000000000000, FPU_MAX_EXPONENT + 1, false⟩ ∧
    FPU_GET_TAG (Fast486FpuOpcodeD8DC sm
        (Fast486FpuPush (initState 0) ⟨0x8000000000000000, FPU_MAX_EXPONENT, false⟩)
        0xD8 ⟨false, 0, 0⟩ none TempResult) 0 = FPU_TAG_VALID ∧
    classify (FPU_ST (Fast486FpuOpcodeD8DC sm
        (Fast486FpuPush (initState 0) ⟨0x8000000000000000, FPU_MAX_EXPONENT, false⟩)
        0xD8 ⟨false, 0, 0⟩ none TempResult) 0) = FPU_TAG_SPECIAL := by
  have hA : ∀ S : FAST486_STATE,
      Fast486FpuAdd sm S ⟨0x8000000000000000, FPU_MAX_EXPONENT, false⟩
          ⟨0x8000000000000000, FPU_MAX_EXPONENT, false⟩
        = ({ S with FpuStatus := { S.FpuStatus with Oe := true } },
            ⟨0x8000000000000000, FPU_MAX_EXPONENT + 1, false⟩) := by
    intro S
    simp [Fast486FpuAdd, adjustTo, FPU_IS_NORMALIZED, FPU_IS_ZERO, FPU_MANTISSA_HIGH_BIT,
      FPU_MAX_EXPONENT]
    decide
  have hst : FPU_ST (Fast486FpuPush (initState 0)
      ⟨0x8000000000000000, FPU_MAX_EXPONENT, false⟩) 0
        = ⟨0x8000000000000000, FPU_MAX_EXPONENT, false⟩ := by decide
  have htag : FPU_GET_TAG (Fast486FpuPush (initState 0)
      ⟨0x8000000000000000, FPU_MAX_EXPONENT, false⟩) 0 = FPU_TAG_VALID := by decide
  have hne : ¬ FPU_GET_TAG (Fast486FpuPush (initState 0)
      ⟨0x8000000000000000, FPU_MAX_EXPONENT, false⟩) 0 = FPU_TAG_EMPTY := by decide
  have hH : Fast486FpuOpcodeD8DC sm
        (Fast486FpuPush (initState 0) ⟨0x8000000000000000, FPU_MAX_EXPONENT, false⟩)
        0xD8 ⟨false, 0, 0⟩ none TempResult
      = setST { Fast486FpuPush (initState 0) ⟨0x8000000000000000, FPU_MAX_EXPONENT, false⟩ with
          FpuStatus := { (Fast486FpuPush (initState 0)
            ⟨0x8000000000000000, FPU_MAX_EXPONENT, false⟩).FpuStatus with Oe := true } } 0
          ⟨0x8000000000000000, FPU_MAX_EXPONENT + 1, false⟩ := by
    unfold Fast486FpuOpcodeD8DC
    simp only [if_neg hne, Bool.false_eq_true, if_false, fpuOperation, hst, hA]
    rfl
  rw [hH]
  refine ⟨htag, ?_, ?_, ?_⟩ <;> decide

theorem Fast486FpuToInteger_sticky (sm : ShiftModel) (State : FAST486_STATE)
    (Value : FAST486_FPU_DATA_REG) (Result0 Next0 : Nat) :
    stickyKept State.FpuStatus
      (Fast486FpuToInteger sm State Value Result0 Next0).State.FpuStatus := by
  obtain ⟨h1, h2⟩ := Fast486FpuToInteger_state sm State Value Result0 Next0
  cases hOk : (Fast486FpuToInteger sm State Value Result0 Next0).Ok
  · rw [h2 hOk]
    unfold stickyKept setIe
    simp
  · rw [h1 hOk]
    unfold stickyKept
    simp

/-- C30: none of `Fast486FpuAdd`, `Fast486FpuSubtract`, `Fast486FpuMultiply`,
`Fast486FpuDivide`, `Fast486FpuCompare` and `Fast486FpuToInteger` clears a
sticky exception flag: each of Ie, De, Ze, Oe, Ue, Pe that is set before the
call is set after it, for every input, shift model and prior content of the
output cells. -/
theorem C30_sticky_flags_kept (sm : ShiftModel) (State : FAST486_STATE)
    (a b Result TempResult : FAST486_FPU_DATA_REG) (Result0 Next0 : Nat) :
    stickyKept State.FpuStatus (Fast486FpuAdd sm State a b).1.FpuStatus ∧
    stickyKept State.FpuStatus (Fast486FpuSubtract sm State a b Result).1.FpuStatus ∧
    stickyKept State.FpuStatus (Fast486FpuMultiply State a b).1.FpuStatus ∧
    stickyKept State.FpuStatus (Fast486FpuDivide State a b Result).1.FpuStatus ∧
    stickyKept State.FpuStatus (Fast486FpuCompare sm State a b TempResult).FpuStatus ∧
    stickyKept State.FpuStatus (Fast486FpuToInteger sm State a Result0 Next0).State.FpuStatus :=
  ⟨Fast486FpuAdd_sticky sm State a b, Fast486FpuAdd_sticky sm State Result a,
    Fast486FpuMultiply_sticky State a b, Fast486FpuDivide_sticky State a b Result,
    Fast486FpuCompare_sticky sm State a b TempResult,
    Fast486FpuToInteger_sticky sm State a Result0 Next0⟩

/-- Witness of C30: with Ie set before the call, an addition of 1.0 and 2.0 leaves
it set. -/
theorem C30_sticky_flags_kept_witness :
    (setIe (initState 0)).FpuStatus.Ie = true ∧
    (Fast486FpuAdd ShiftModel.masked (setIe (initState 0))
        ⟨0x8000000000000000, 0x3FFF, false⟩
        ⟨0x8000000000000000, 0x4000, false⟩).1.FpuStatus.Ie = true :=
  ⟨rfl, (C30_sticky_flags_kept ShiftModel.masked (setIe (initState 0))
    ⟨0x8000000000000000, 0x3FFF, false⟩ ⟨0x8000000000000000, 0x4000, false⟩
    ⟨0, 0, false⟩ ⟨0, 0, false⟩ 0 0).1.1 rfl⟩

/-- C33: `UnsignedMult128` computes the exact 128-bit product.  For all 64-bit
unsigned `a` and `b`, `HighProduct * 2^64` plus the returned low word equals
`a * b`, and both words fit 64 bits. -/
theorem C33_mult128_exact (a b : Nat) (ha : a < 2 ^ 64) (hb : b < 2 ^ 64) :
    (UnsignedMult128 a b).1 * 2 ^ 64 + (UnsignedMult128 a b).2 = a * b ∧
    (UnsignedMult128 a b).1 < 2 ^ 64 ∧ (UnsignedMult128 a b).2 < 2 ^ 64 := by
  have e1 : ∀ x, (x &&& 0xFFFFFFFF) = x % 2 ^ 32 := fun x => Nat.and_pow_two_sub_one_eq_mod x 32
  unfold UnsignedMult128
  simp only [e1, Nat.shiftRight_eq_div_pow, Nat.shiftLeft_eq, Nat.mod_mod]
  have hal : a % 2 ^ 32 < 2 ^ 32 := Nat.mod_lt _ (by decide)
  have hbl : b % 2 ^ 32 < 2 ^ 32 := Nat.mod_lt _ (by decide)
  have hah : a / 2 ^ 32 < 2 ^ 32 := by omega
  have hbh : b / 2 ^ 32 < 2 ^ 32 := by omega
  have hah' : a / 2 ^ 32 % 2 ^ 32 = a / 2 ^ 32 := Nat.mod_eq_of_lt hah
  have hbh' : b / 2 ^ 32 % 2 ^ 32 = b / 2 ^ 32 := Nat.mod_eq_of_lt hbh
  rw [hah', hbh']
  have hab : a * b = (a / 2 ^ 32) * (b / 2 ^ 32) * 2 ^ 64
      + ((a % 2 ^ 32) * (b / 2 ^ 32) + (a / 2 ^ 32) * (b % 2 ^ 32)) * 2 ^ 32
      + (a % 2 ^ 32) * (b % 2 ^ 32) := by
    have h1 := Nat.div_add_mod a (2 ^ 32)
    have h2 := Nat.div_add_mod b (2 ^ 32)
    generalize a / 2 ^ 32 = ah at h1 ⊢
    generalize a % 2 ^ 32 = al at h1 ⊢
    generalize b / 2 ^ 32 = bh at h2 ⊢
    generalize b % 2 ^ 32 = bl at h2 ⊢
    rw [← h1, ← h2]
    ring
  have b0 : (a % 2 ^ 32) * (b % 2 ^ 32) ≤ (2 ^ 32 - 1) * (2 ^ 32 - 1) :=
    Nat.mul_le_mul (by omega) (by omega)
  have b1 : (a % 2 ^ 32) * (b / 2 ^ 32) ≤ (2 ^ 32 - 1) * (2 ^ 32 - 1) :=
    Nat.mul_le_mul (by omega) (by omega)
  have b2 : (a / 2 ^ 32) * (b % 2 ^ 32) ≤ (2 ^ 32 - 1) * (2 ^ 32 - 1) :=
    Nat.mul_le_mul (by omega) (by omega)
  have b3 : (a / 2 ^ 32) * (b / 2 ^ 32) ≤ (2 ^ 32 - 1) * (2 ^ 32 - 1) :=
    Nat.mul_le_mul (by omega) (by omega)
  rw [hab]
  generalize (a % 2 ^ 32) * (b % 2 ^ 32) = p0 at b0 ⊢
  generalize (a % 2 ^ 32) * (b / 2 ^ 32) = p1 at b1 ⊢
  generalize (a / 2 ^ 32) * (b % 2 ^ 32) = p2 at b2 ⊢
  generalize (a / 2 ^ 32) * (b / 2 ^ 32) = p3 at b3 ⊢
  norm_num at b0 b1 b2 b3 ⊢
  split_ifs <;> omega

/-- Witness of C33: the largest operands. -/
theorem C33_mult128_exact_witness :
    (2 ^ 64 - 1 : Nat) < 2 ^ 64 ∧
    (UnsignedMult128 (2 ^ 64 - 1) (2 ^ 64 - 1)).1 * 2 ^ 64
      + (UnsignedMult128 (2 ^ 64 - 1) (2 ^ 64 - 1)).2 = (2 ^ 64 - 1) * (2 ^ 64 - 1) :=
  ⟨by decide, (C33_mult128_exact (2 ^ 64 - 1) (2 ^ 64 - 1) (by decide) (by decide)).1⟩

theorem shr64_one (sm : ShiftModel) (m : Nat) : shr64 sm m 1 = m >>> 1 := by
  simp [shr64]

/-- C34, at 2.0 + (-1.0), 1.0 + (-2.0) and 1.0 + (-1.0): `Fast486FpuAdd` returns
5.0, -3.0 and 2.0, where the signed differences are 1.0, -1.0 and zero.  The
carry block runs whenever both aligned mantissas have bit 63 set, although
no carry occurred, and the mantissa of a negative operand enters the result
as its two's complement. -/
theorem C34_add_opposite_signs (sm : ShiftModel) (State : FAST486_STATE) :
    (Fast486FpuAdd sm State ⟨0x8000000000000000, FPU_REAL10_BIAS + 1, false⟩
        ⟨0x8000000000000000, FPU_REAL10_BIAS, true⟩).2
      = ⟨0xA000000000000000, FPU_REAL10_BIAS + 2, false⟩ ∧
    (Fast486FpuAdd sm State ⟨0x8000000000000000, FPU_REAL10_BIAS, false⟩
        ⟨0x8000000000000000, FPU_REAL10_BIAS + 1, true⟩).2
      = ⟨0xC000000000000000, FPU_REAL10_BIAS + 1, true⟩ ∧
    (Fast486FpuAdd sm State ⟨0x8000000000000000, FPU_REAL10_BIAS, false⟩
        (negate ⟨0x8000000000000000, FPU_REAL10_BIAS, false⟩)).2
      = ⟨0x8000000000000000, FPU_REAL10_BIAS + 1, false⟩ := by
  have h1 : (4611686018427387904 &&& 9223372036854775808 : Nat) = 0 := by decide
  refine ⟨?_, ?_, ?_⟩ <;>
    simp [Fast486FpuAdd, adjustTo, negate, shr64_one, FPU_REAL10_BIAS,
      FPU_IS_NORMALIZED, FPU_IS_ZERO, FPU_MANTISSA_HIGH_BIT, FPU_MAX_EXPONENT, neg64, h1] <;>
    decide

/-- C35, at 3.5 + 1.5 (exponents differ, aligned mantissas sum to `2^64` or more):
`Fast486FpuAdd` returns 1.0, not 5.0.  The carry block is entered only when
both aligned mantissas still have bit 63 set; the mantissa of the operand
with the smaller exponent has lost it in the alignment shift, so the carry
out of the 64-bit sum is dropped. -/
theorem C35_add_carry_lost (sm : ShiftModel) (State : FAST486_STATE) :
    (Fast486FpuAdd sm State ⟨0xE000000000000000, FPU_REAL10_BIAS + 1, false⟩
        ⟨0xC000000000000000, FPU_REAL10_BIAS, false⟩).2
      = ⟨0x8000000000000000, FPU_REAL10_BIAS, false⟩ := by
  have h1 : (6917529027641081856 &&& 9223372036854775808 : Nat) = 0 := by decide
  simp [Fast486FpuAdd, adjustTo, shr64_one, FPU_REAL10_BIAS,
    FPU_IS_NORMALIZED, FPU_IS_ZERO, FPU_MANTISSA_HIGH_BIT, FPU_MAX_EXPONENT, h1]
  decide

/-- C36, in both directions.  With the same-sign normalized operands
`1.75 × 2^(MAX_EXPONENT − BIAS)` and `1.5 × 2^(MAX_EXPONENT − 1 − BIAS)` the
aligned mantissas `0xE000000000000000` and `0x6000000000000000` carry out of
64 bits at the largest exponent, yet `Fast486FpuAdd` leaves Oe as it was and
returns a finite value.  With `2^(MAX_EXPONENT − BIAS)` and
`-2^(MAX_EXPONENT − 1 − BIAS)`, whose aligned mantissas `1 << 63` and `1 << 62`
do not carry and whose sum is finite, it sets Oe and returns +infinity. -/
theorem C36_add_overflow_test (sm : ShiftModel) (State : FAST486_STATE) :
    ((Fast486FpuAdd sm State ⟨0xE000000000000000, FPU_MAX_EXPONENT, false⟩
        ⟨0xC000000000000000, FPU_MAX_EXPONENT - 1, false⟩).1.FpuStatus.Oe = State.FpuStatus.Oe ∧
     (Fast486FpuAdd sm State ⟨0xE000000000000000, FPU_MAX_EXPONENT, false⟩
        ⟨0xC000000000000000, FPU_MAX_EXPONENT - 1, false⟩).2
      = ⟨0x8000000000000000, FPU_MAX_EXPONENT - 1, false⟩) ∧
    ((Fast486FpuAdd sm State ⟨0x8000000000000000, FPU_MAX_EXPONENT, false⟩
        ⟨0x8000000000000000, FPU_MAX_EXPONENT - 1, true⟩).1.FpuStatus.Oe = true ∧
     (Fast486FpuAdd sm State ⟨0x8000000000000000, FPU_MAX_EXPONENT, false⟩
        ⟨0x8000000000000000, FPU_MAX_EXPONENT - 1, true⟩).2
      = ⟨0x8000000000000000, FPU_MAX_EXPONENT + 1, false⟩) := by
  have h1 : (6917529027641081856 &&& 9223372036854775808 : Nat) = 0 := by decide
  refine ⟨⟨?_, ?_⟩, ⟨?_, ?_⟩⟩
  · simp [Fast486FpuAdd, adjustTo, shr64_one, FPU_IS_NORMALIZED, FPU_IS_ZERO,
      FPU_MANTISSA_HIGH_BIT, FPU_MAX_EXPONENT, h1]
  · simp [Fast486FpuAdd, adjustTo, shr64_one, FPU_IS_NORMALIZED, FPU_IS_ZERO,
      FPU_MANTISSA_HIGH_BIT, FPU_MAX_EXPONENT, h1]
    decide
  · simp [Fast486FpuAdd, adjustTo, shr64_one, FPU_IS_NORMALIZED, FPU_IS_ZERO,
      FPU_MANTISSA_HIGH_BIT, FPU_MAX_EXPONENT, neg64]
  · simp [Fast486FpuAdd, adjustTo, shr64_one, FPU_IS_NORMALIZED, FPU_IS_ZERO,
      FPU_MANTISSA_HIGH_BIT, FPU_MAX_EXPONENT, neg64]
    decide

/-- C37, at 2^63 (mantissa `1 << 63`, unbiased exponent 63, the value
`Fast486FpuFromInteger` gives for `-2^63` up to the sign): the operand passes
the validity check, so the statements of `Fast486FpuToInteger` lead to
`return TRUE`, and the value the assertion tests is `-2^63`, which is
negative: the `ASSERT` fails.  The check admits the unbiased exponent 63, for
which the shift count is 0 and bit 63 of the mantissa becomes the sign bit of
the `LONGLONG`. -/
theorem C37_assertion_fails_at_63 (sm : ShiftModel) (State : FAST486_STATE)
    (Result0 Next0 : Nat) :
    (Fast486FpuToInteger sm State ⟨0x8000000000000000, FPU_REAL10_BIAS + 63, false⟩
        Result0 Next0).Ok = true ∧
    UnbiasedExp (FPU_REAL10_BIAS + 63) = 63 ∧
    ToIntegerAsserted ⟨0x8000000000000000, FPU_REAL10_BIAS + 63, false⟩ = -2 ^ 63 ∧
    Fast486FpuFromInteger (-2 ^ 63) = ⟨0x8000000000000000, FPU_REAL10_BIAS + 63, true⟩ ∧
    ToIntegerAsserted (Fast486FpuFromInteger (-2 ^ 63)) = -2 ^ 63 ∧
    (Fast486FpuToInteger sm State ⟨0x8000000000000000, FPU_REAL10_BIAS + 63, false⟩
        Result0 Next0).AssertFailed = true ∧
    (Fast486FpuToInteger sm State (Fast486FpuFromInteger (-2 ^ 63))
        Result0 Next0).AssertFailed = true := by
  have e : UnbiasedExp 16446 = 63 := by decide
  have hf : Fast486FpuFromInteger (-2 ^ 63)
      = ⟨0x8000000000000000, FPU_REAL10_BIAS + 63, true⟩ := by decide
  refine ⟨?_, by decide, by decide, hf, by decide,
    (Fast486FpuToInteger_assert sm State _ Result0 Next0 (by decide) (by decide)).mpr
      ⟨by decide, by decide, by decide, rfl⟩,
    ?_⟩
  · simp [Fast486FpuToInteger, e, FPU_IS_ZERO, FPU_IS_NAN, FPU_IS_NORMALIZED, FPU_REAL10_BIAS,
      FPU_MAX_EXPONENT, FPU_MANTISSA_HIGH_BIT]
  · rw [hf]
    exact (Fast486FpuToInteger_assert sm State _ Result0 Next0 (by decide) (by decide)).mpr
      ⟨by decide, by decide, by decide, rfl⟩

theorem Fast486FpuPop_registers (State : FAST486_STATE) :
    (Fast486FpuPop State).FpuRegisters = State.FpuRegisters := rfl

theorem Fast486FpuSubtract_registers (sm : ShiftModel) (State : FAST486_STATE)
    (a b r : FAST486_FPU_DATA_REG) :
    (Fast486FpuSubtract sm State a b r).1.FpuRegisters = State.FpuRegisters :=
  (Fast486FpuAdd_frame sm State r a).1

/-- The shared switch writes no data register other than the destination, and
none at all for a sub-field other than 0 and 1. -/
theorem fpuOperation_registers (sm : ShiftModel) (State : FAST486_STATE)
    (Register Dest : Nat) (Source TempResult : FAST486_FPU_DATA_REG) (p : Fin 8)
    (hp : p ≠ stSlot State Dest ∨ (Register ≠ 0 ∧ Register ≠ 1)) :
    (fpuOperation sm State Register Dest Source TempResult).FpuRegisters p
      = State.FpuRegisters p := by
  unfold fpuOperation
  split
  · rcases hp with hp | hp
    · have hT := (Fast486FpuAdd_frame sm State (FPU_ST State Dest) Source).2.2.2
      have hR := (Fast486FpuAdd_frame sm State (FPU_ST State Dest) Source).1
      have hs : stSlot (Fast486FpuAdd sm State (FPU_ST State Dest) Source).1 Dest
          = stSlot State Dest := by
        unfold stSlot
        rw [hT]
      simp only [setST, hs, hR]
      exact Function.update_noteq hp _ _
    · exact absurd rfl hp.1
  · rcases hp with hp | hp
    · have hT := (Fast486FpuMultiply_frame State (FPU_ST State Dest) Source).2.2.2
      have hR := (Fast486FpuMultiply_frame State (FPU_ST State Dest) Source).1
      have hs : stSlot (Fast486FpuMultiply State (FPU_ST State Dest) Source).1 Dest
          = stSlot State Dest := by
        unfold stSlot
        rw [hT]
      simp only [setST, hs, hR]
      exact Function.update_noteq hp _ _
    · exact absurd rfl hp.2
  · rw [(Fast486FpuCompare_frame sm State _ _ _).1]
  · rw [Fast486FpuPop_registers, (Fast486FpuCompare_frame sm State _ _ _).1]
  · rw [Fast486FpuSubtract_registers]
  · rw [Fast486FpuSubtract_registers]
  · rw [(Fast486FpuDivide_frame State _ _ _).1]
  · rw [(Fast486FpuDivide_frame State _ _ _).1]
  · rfl

/-- The outcome of the shared switch, sub-field by sub-field, for the destination
`ST(Dest)` and the source value `Source`. -/
theorem fpuOperation_cases (sm : ShiftModel) (State : FAST486_STATE) (Register Dest : Nat)
    (Source TempResult : FAST486_FPU_DATA_REG) :
    (Register = 0 → fpuOperation sm State Register Dest Source TempResult
      = setST (Fast486FpuAdd sm State (FPU_ST State Dest) Source).1 Dest
          (Fast486FpuAdd sm State (FPU_ST State Dest) Source).2) ∧
    (Register = 1 → fpuOperation sm State Register Dest Source TempResult
      = setST (Fast486FpuMultiply State (FPU_ST State Dest) Source).1 Dest
          (Fast486FpuMultiply State (FPU_ST State Dest) Source).2) ∧
    (Register = 2 → fpuOperation sm State Register Dest Source TempResult
      = Fast486FpuCompare sm State (FPU_ST State Dest) Source TempResult) ∧
    (Register = 3 → fpuOperation sm State Register Dest Source TempResult
      = Fast486FpuPop (Fast486FpuCompare sm State (FPU_ST State Dest) Source TempResult)) ∧
    (Register = 4 → fpuOperation sm State Register Dest Source TempResult
      = (Fast486FpuSubtract sm State (FPU_ST State Dest) Source (FPU_ST State Dest)).1) ∧
    (Register = 5 → fpuOperation sm State Register Dest Source TempResult
      = (Fast486FpuSubtract sm State Source (FPU_ST State Dest) (FPU_ST State Dest)).1) ∧
    (Register = 6 → fpuOperation sm State Register Dest Source TempResult
      = (Fast486FpuDivide State (FPU_ST State Dest) Source (FPU_ST State Dest)).1) ∧
    (Register = 7 → fpuOperation sm State Register Dest Source TempResult
      = (Fast486FpuDivide State Source (FPU_ST State Dest) (FPU_ST State Dest)).1) := by
  refine ⟨?_, ?_, ?_, ?_, ?_, ?_, ?_, ?_⟩ <;> intro h <;> rw [h] <;> rfl

/-- C38: an instruction of group D8/DC writes at most one data register.  Every
physical register other than the slot of the destination is left unchanged,
where the destination is `ST0` for every memory form and for the register
forms of `0xD8`, and `ST(SecondRegister)` for the register forms of `0xDC`;
for a sub-field other than 0 and 1 (the compares 2 and 3 among them) no data
register is written at all.  With non-empty operands the handler passes the
destination `ST(Dest)` and the source `Source` to the arithmetic function of
its sub-field: `Dest = 0` and `Source` the converted memory operand in the
memory forms, `Dest = 0` and `Source = ST(SecondRegister)` in the register
forms of `0xD8`, `Dest = SecondRegister` and `Source = ST0` in the register
forms of `0xDC`; sub-fields 0 and 1 store the sum and the product in
`ST(Dest)`, sub-fields 2 and 3 compare, sub-fields 4 and 6 call Subtract and
Divide with `(ST(Dest), Source)` and sub-fields 5 and 7 with the same two
operands in swapped order, `(Source, ST(Dest))`. -/
theorem C38_d8dc_writes_destination_only (sm : ShiftModel) (State : FAST486_STATE)
    (Opcode : Nat) (ModRegRm : FAST486_MOD_REG_RM) (Value : Option Nat)
    (TempResult : FAST486_FPU_DATA_REG) (p : Fin 8)
    (hp : p ≠ stSlot State (d8dcDest Opcode ModRegRm) ∨
      (ModRegRm.Register ≠ 0 ∧ ModRegRm.Register ≠ 1)) :
    (Fast486FpuOpcodeD8DC sm State Opcode ModRegRm Value TempResult).FpuRegisters p
        = State.FpuRegisters p ∧
    (∀ (Dest : Nat) (Source : FAST486_FPU_DATA_REG),
      FPU_GET_TAG State 0 ≠ FPU_TAG_EMPTY →
      ((ModRegRm.Memory = true ∧ Dest = 0 ∧
          ∃ v, Value = some v ∧
            Source = (if Opcode = 0xDC then Fast486FpuFromDoubleReal v
              else Fast486FpuFromSingleReal v)) ∨
        (ModRegRm.Memory = false ∧
          FPU_GET_TAG State ModRegRm.SecondRegister ≠ FPU_TAG_EMPTY ∧ Opcode ≠ 0xDC ∧
          Dest = 0 ∧ Source = FPU_ST State ModRegRm.SecondRegister) ∨
        (ModRegRm.Memory = false ∧
          FPU_GET_TAG State ModRegRm.SecondRegister ≠ FPU_TAG_EMPTY ∧ Opcode = 0xDC ∧
          Dest = ModRegRm.SecondRegister ∧ Source = FPU_ST State 0)) →
      (ModRegRm.Register = 0 → Fast486FpuOpcodeD8DC sm State Opcode ModRegRm Value TempResult
        = setST (Fast486FpuAdd sm State (FPU_ST State Dest) Source).1 Dest
            (Fast486FpuAdd sm State (FPU_ST State Dest) Source).2) ∧
      (ModRegRm.Register = 1 → Fast486FpuOpcodeD8DC sm State Opcode ModRegRm Value TempResult
        = setST (Fast486FpuMultiply State (FPU_ST State Dest) Source).1 Dest
            (Fast486FpuMultiply State (FPU_ST State Dest) Source).2) ∧
      (ModRegRm.Register = 2 → Fast486FpuOpcodeD8DC sm State Opcode ModRegRm Value TempResult
        = Fast486FpuCompare sm State (FPU_ST State Dest) Source TempResult) ∧
      (ModRegRm.Register = 3 → Fast486FpuOpcodeD8DC sm State Opcode ModRegRm Value TempResult
        = Fast486FpuPop (Fast486FpuCompare sm State (FPU_ST State Dest) Source TempResult)) ∧
      (ModRegRm.Register = 4 → Fast486FpuOpcodeD8DC sm State Opcode ModRegRm Value TempResult
        = (Fast486FpuSubtract sm State (FPU_ST State Dest) Source (FPU_ST State Dest)).1) ∧
      (ModRegRm.Register = 5 → Fast486FpuOpcodeD8DC sm State Opcode ModRegRm Value TempResult
        = (Fast486FpuSubtract sm State Source (FPU_ST State Dest) (FPU_ST State Dest)).1) ∧
      (ModRegRm.Register = 6 → Fast486FpuOpcodeD8DC sm State Opcode ModRegRm Value TempResult
        = (Fast486FpuDivide State (FPU_ST State Dest) Source (FPU_ST State Dest)).1) ∧
      (ModRegRm.Register = 7 → Fast486FpuOpcodeD8DC sm State Opcode ModRegRm Value TempResult
        = (Fast486FpuDivide State Source (FPU_ST State Dest) (FPU_ST State Dest)).1)) := by
  refine ⟨?_, ?_⟩
  · unfold Fast486FpuOpcodeD8DC
    by_cases h1 : FPU_GET_TAG State 0 = FPU_TAG_EMPTY
    · rw [if_pos h1]
      rfl
    rw [if_neg h1]
    by_cases h2 : ModRegRm.Memory = true
    · rw [if_pos h2]
      have hd : d8dcDest Opcode ModRegRm = 0 := by simp [d8dcDest, h2]
      rw [hd] at hp
      cases Value with
      | none => rfl
      | some v => exact fpuOperation_registers sm State _ 0 _ _ p hp
    rw [if_neg h2]
    by_cases h3 : FPU_GET_TAG State ModRegRm.SecondRegister = FPU_TAG_EMPTY
    · rw [if_pos h3]
      rfl
    rw [if_neg h3]
    by_cases h4 : Opcode = 0xDC
    · rw [if_pos h4]
      have hd : d8dcDest Opcode ModRegRm = ModRegRm.SecondRegister := by
        simp [d8dcDest, h2, h4]
      rw [hd] at hp
      exact fpuOperation_registers sm State _ _ _ _ p hp
    · rw [if_neg h4]
      have hd : d8dcDest Opcode ModRegRm = 0 := by simp [d8dcDest, h2, h4]
      rw [hd] at hp
      exact fpuOperation_registers sm State _ 0 _ _ p hp
  · intro Dest Source h0 hform
    have hH : Fast486FpuOpcodeD8DC sm State Opcode ModRegRm Value TempResult
        = fpuOperation sm State ModRegRm.Register Dest Source TempResult := by
      unfold Fast486FpuOpcodeD8DC
      rw [if_neg h0]
      rcases hform with ⟨hm, hd, v, hv, hS⟩ | ⟨hm, ht, ho, hd, hS⟩ | ⟨hm, ht, ho, hd, hS⟩
      · rw [if_pos hm, hv, hd, hS]
      · have hm' : ¬ ModRegRm.Memory = true := by simp [hm]
        rw [if_neg hm', if_neg ht, if_neg ho, hd, hS]
      · have hm' : ¬ ModRegRm.Memory = true := by simp [hm]
        rw [if_neg hm', if_neg ht, if_pos ho, hd, hS]
    rw [hH]
    exact fpuOperation_cases sm State ModRegRm.Register Dest Source TempResult

/-- Witness of C38: `FSUBR ST(2), ST0` (opcode `0xDC`, sub-field 5) on a stack whose
registers are all tagged valid leaves physical register 5 unchanged and calls
Subtract with the source `ST0` first and the destination `ST(2)` second. -/
theorem C38_d8dc_writes_destination_only_witness :
    (5 : Fin 8) ≠ stSlot { initState 0 with FpuTag := 0 } (d8dcDest 0xDC ⟨false, 5, 2⟩) ∧
    (Fast486FpuOpcodeD8DC ShiftModel.masked { initState 0 with FpuTag := 0 } 0xDC
        ⟨false, 5, 2⟩ none ⟨0, 0, false⟩).FpuRegisters 5
      = ({ initState 0 with FpuTag := 0 } : FAST486_STATE).FpuRegisters 5 ∧
    Fast486FpuOpcodeD8DC ShiftModel.masked { initState 0 with FpuTag := 0 } 0xDC
        ⟨false, 5, 2⟩ none ⟨0, 0, false⟩
      = (Fast486FpuSubtract ShiftModel.masked { initState 0 with FpuTag := 0 }
          (FPU_ST { initState 0 with FpuTag := 0 } 0)
          (FPU_ST { initState 0 with FpuTag := 0 } 2)
          (FPU_ST { initState 0 with FpuTag := 0 } 2)).1 :=
  ⟨by decide,
    (C38_d8dc_writes_destination_only ShiftModel.masked
      { initState 0 with FpuTag := 0 } 0xDC ⟨false, 5, 2⟩ none ⟨0, 0, false⟩ 5
      (Or.inl (by decide))).1,
    ((C38_d8dc_writes_destination_only ShiftModel.masked
      { initState 0 with FpuTag := 0 } 0xDC ⟨false, 5, 2⟩ none ⟨0, 0, false⟩ 5
      (Or.inl (by decide))).2 2 (FPU_ST { initState 0 with FpuTag := 0 } 0) (by decide)
      (Or.inr (Or.inr ⟨rfl, by decide, rfl, rfl, rfl⟩))).2.2.2.2.2.1 rfl⟩

end Fast486

namespace Widl

theorem hashLoop_eq_foldl (pnLookup : List Nat) (m : Nat) (str : List (Fin 256)) :
    ∀ h : Nat, hashLoop pnLookup m h str
      = (cString str).foldl
          (fun h c => (37 * h + pnLookup.getD (hashIndex m c) 0) % 2 ^ 32) h := by
  induction str with
  | nil => intro h; rfl
  | cons c str ih =>
    intro h
    by_cases hc : c.val = 0
    · simp [hashLoop, cString, hc]
    · simp only [hashLoop, cString, if_neg hc]
      rw [List.takeWhile_cons_of_pos (by simpa using hc)]
      simp only [List.foldl_cons]
      exact ih _

theorem ite_mem {α : Type} (c : Prop) [Decidable c] (a b : α) (l : List α)
    (ha : a ∈ l) (hb : b ∈ l) : (if c then a else b) ∈ l := by
  split <;> assumption

theorem selectTable_mem (H : NlsHeaders) (lcid : Nat) :
    selectTable H lcid ∈
      [(16, Lookup_16), (32, Lookup_32), (48, Lookup_48), (64, Lookup_64), (80, Lookup_80),
       (112, Lookup_112), (128, Lookup_128), (144, Lookup_144), (160, Lookup_160),
       (176, Lookup_176), (208, Lookup_208), (224, Lookup_224)] := by
  unfold selectTable
  repeat' apply ite_mem
  all_goals simp only [List.mem_cons, true_or, or_true]

theorem selectTable_default (H : NlsHeaders) (lcid : Nat)
    (hm : H.PRIMARYLANGID (H.LANGIDFROMLCID lcid) ∉
        [H.LANG_CZECH, H.LANG_HUNGARIAN, H.LANG_POLISH, H.LANG_SLOVAK, H.LANG_SPANISH,
         H.LANG_HEBREW, H.LANG_JAPANESE, H.LANG_KOREAN, H.LANG_CHINESE, H.LANG_GREEK,
         H.LANG_ICELANDIC, H.LANG_TURKISH, H.LANG_NORWEGIAN, H.LANG_ARABIC, H.LANG_FARSI,
         H.LANG_RUSSIAN]) :
    selectTable H lcid = (16, Lookup_16) := by
  simp only [List.mem_cons, List.mem_singleton, List.not_mem_nil, or_false, not_or] at hm
  obtain ⟨h1, h2, h3, h4, h5, h6, h7, h8, h9, h10, h11, h12, h13, h14, h15, h16⟩ := hm
  unfold selectTable
  rw [if_neg (by tauto), if_neg h6, if_neg h7, if_neg h8, if_neg h9, if_neg h10, if_neg h11,
    if_neg h12, if_neg h13, if_neg (by tauto), if_neg h16]

/-- The `switch` of `lhash_val_of_name_sys`, case group by case group: for pairwise
distinct labels, the offset and the table each language selects. -/
theorem selectTable_cases (H : NlsHeaders) (lcid : Nat) (hd : (caseLabels H).Nodup) :
    ((H.PRIMARYLANGID (H.LANGIDFROMLCID lcid) = H.LANG_CZECH ∨ H.PRIMARYLANGID (H.LANGIDFROMLCID lcid) = H.LANG_HUNGARIAN ∨
        H.PRIMARYLANGID (H.LANGIDFROMLCID lcid) = H.LANG_POLISH ∨ H.PRIMARYLANGID (H.LANGIDFROMLCID lcid) = H.LANG_SLOVAK ∨
        H.PRIMARYLANGID (H.LANGIDFROMLCID lcid) = H.LANG_SPANISH) →
      selectTable H lcid = (32, Lookup_32)) ∧
    (H.PRIMARYLANGID (H.LANGIDFROMLCID lcid) = H.LANG_HEBREW →
      selectTable H lcid = (48, Lookup_48)) ∧
    (H.PRIMARYLANGID (H.LANGIDFROMLCID lcid) = H.LANG_JAPANESE →
      selectTable H lcid = (64, Lookup_64)) ∧
    (H.PRIMARYLANGID (H.LANGIDFROMLCID lcid) = H.LANG_KOREAN →
      selectTable H lcid = (80, Lookup_80)) ∧
    (H.PRIMARYLANGID (H.LANGIDFROMLCID lcid) = H.LANG_CHINESE →
      selectTable H lcid = (112, Lookup_112)) ∧
    (H.PRIMARYLANGID (H.LANGIDFROMLCID lcid) = H.LANG_GREEK →
      selectTable H lcid = (128, Lookup_128)) ∧
    (H.PRIMARYLANGID (H.LANGIDFROMLCID lcid) = H.LANG_ICELANDIC →
      selectTable H lcid = (144, Lookup_144)) ∧
    (H.PRIMARYLANGID (H.LANGIDFROMLCID lcid) = H.LANG_TURKISH →
      selectTable H lcid = (160, Lookup_160)) ∧
    (H.PRIMARYLANGID (H.LANGIDFROMLCID lcid) = H.LANG_NORWEGIAN →
      H.SUBLANGID (H.LANGIDFROMLCID lcid) = H.SUBLANG_NORWEGIAN_NYNORSK →
      selectTable H lcid = (176, Lookup_176)) ∧
    (H.PRIMARYLANGID (H.LANGIDFROMLCID lcid) = H.LANG_NORWEGIAN →
      H.SUBLANGID (H.LANGIDFROMLCID lcid) ≠ H.SUBLANG_NORWEGIAN_NYNORSK →
      selectTable H lcid = (16, Lookup_16)) ∧
    ((H.PRIMARYLANGID (H.LANGIDFROMLCID lcid) = H.LANG_ARABIC ∨ H.PRIMARYLANGID (H.LANGIDFROMLCID lcid) = H.LANG_FARSI) →
      selectTable H lcid = (208, Lookup_208)) ∧
    (H.PRIMARYLANGID (H.LANGIDFROMLCID lcid) = H.LANG_RUSSIAN →
      selectTable H lcid = (224, Lookup_224)) ∧
    (H.PRIMARYLANGID (H.LANGIDFROMLCID lcid) ∉ caseLabels H →
      selectTable H lcid = (16, Lookup_16)) := by
  have hinj := List.nodup_iff_injective_get.mp hd
  have ne : ∀ i j : Fin 16, i ≠ j → (caseLabels H).get i ≠ (caseLabels H).get j :=
    fun i j hij e => hij (hinj e)
  refine ⟨?_, ?_, ?_, ?_, ?_, ?_, ?_, ?_, ?_, ?_, ?_, ?_, ?_⟩
  · intro h
    unfold selectTable
    rw [if_pos h]
  · intro h
    have hx : ∀ j : Fin 16, (⟨5, by decide⟩ : Fin 16) ≠ j →
        ¬ H.PRIMARYLANGID (H.LANGIDFROMLCID lcid) = (caseLabels H).get j :=
      fun j hj e => ne ⟨5, by decide⟩ j hj (h.symm.trans e)
    unfold selectTable
    rw [if_neg (by rintro (e | e | e | e | e); exacts [hx 0 (by decide) e, hx 1 (by decide) e, hx 2 (by decide) e, hx 3 (by decide) e, hx 4 (by decide) e]),
      if_pos h]
  · intro h
    have hx : ∀ j : Fin 16, (⟨6, by decide⟩ : Fin 16) ≠ j →
        ¬ H.PRIMARYLANGID (H.LANGIDFROMLCID lcid) = (caseLabels H).get j :=
      fun j hj e => ne ⟨6, by decide⟩ j hj (h.symm.trans e)
    unfold selectTable
    rw [if_neg (by rintro (e | e | e | e | e); exacts [hx 0 (by decide) e, hx 1 (by decide) e, hx 2 (by decide) e, hx 3 (by decide) e, hx 4 (by decide) e]),
      if_neg (show ¬ H.PRIMARYLANGID (H.LANGIDFROMLCID lcid) = H.LANG_HEBREW from hx 5 (by decide)),
      if_pos h]
  · intro h
    have hx : ∀ j : Fin 16, (⟨7, by decide⟩ : Fin 16) ≠ j →
        ¬ H.PRIMARYLANGID (H.LANGIDFROMLCID lcid) = (caseLabels H).get j :=
      fun j hj e => ne ⟨7, by decide⟩ j hj (h.symm.trans e)
    unfold selectTable
    rw [if_neg (by rintro (e | e | e | e | e); exacts [hx 0 (by decide) e, hx 1 (by decide) e, hx 2 (by decide) e, hx 3 (by decide) e, hx 4 (by decide) e]),
      if_neg (show ¬ H.PRIMARYLANGID (H.LANGIDFROMLCID lcid) = H.LANG_HEBREW from hx 5 (by decide)),
      if_neg (show ¬ H.PRIMARYLANGID (H.LANGIDFROMLCID lcid) = H.LANG_JAPANESE from hx 6 (by decide)),
      if_pos h]
  · intro h
    have hx : ∀ j : Fin 16, (⟨8, by decide⟩ : Fin 16) ≠ j →
        ¬ H.PRIMARYLANGID (H.LANGIDFROMLCID lcid) = (caseLabels H).get j :=
      fun j hj e => ne ⟨8, by decide⟩ j hj (h.symm.trans e)
    unfold selectTable
    rw [if_neg (by rintro (e | e | e | e | e); exacts [hx 0 (by decide) e, hx 1 (by decide) e, hx 2 (by decide) e, hx 3 (by decide) e, hx 4 (by decide) e]),
      if_neg (show ¬ H.PRIMARYLANGID (H.LANGIDFROMLCID lcid) = H.LANG_HEBREW from hx 5 (by decide)),
      if_neg (show ¬ H.PRIMARYLANGID (H.LANGIDFROMLCID lcid) = H.LANG_JAPANESE from hx 6 (by decide)),
      if_neg (show ¬ H.PRIMARYLANGID (H.LANGIDFROMLCID lcid) = H.LANG_KOREAN from hx 7 (by decide)),
      if_pos h]
  · intro h
    have hx : ∀ j : Fin 16, (⟨9, by decide⟩ : Fin 16) ≠ j →
        ¬ H.PRIMARYLANGID (H.LANGIDFROMLCID lcid) = (caseLabels H).get j :=
      fun j hj e => ne ⟨9, by decide⟩ j hj (h.symm.trans e)
    unfold selectTable
    rw [if_neg (by rintro (e | e | e | e | e); exacts [hx 0 (by decide) e, hx 1 (by decide) e, hx 2 (by decide) e, hx 3 (by decide) e, hx 4 (by decide) e]),
      if_neg (show ¬ H.PRIMARYLANGID (H.LANGIDFROMLCID lcid) = H.LANG_HEBREW from hx 5 (by decide)),
      if_neg (show ¬ H.PRIMARYLANGID (H.LANGIDFROMLCID lcid) = H.LANG_JAPANESE from hx 6 (by decide)),
      if_neg (show ¬ H.PRIMARYLANGID (H.LANGIDFROMLCID lcid) = H.LANG_KOREAN from hx 7 (by decide)),
      if_neg (show ¬ H.PRIMARYLANGID (H.LANGIDFROMLCID lcid) = H.LANG_CHINESE from hx 8 (by decide)),
      if_pos h]
  · intro h
    have hx : ∀ j : Fin 16, (⟨10, by decide⟩ : Fin 16) ≠ j →
        ¬ H.PRIMARYLANGID (H.LANGIDFROMLCID lcid) = (caseLabels H).get j :=
      fun j hj e => ne ⟨10, by decide⟩ j hj (h.symm.trans e)
    unfold selectTable
    rw [if_neg (by rintro (e | e | e | e | e); exacts [hx 0 (by decide) e, hx 1 (by decide) e, hx 2 (by decide) e, hx 3 (by decide) e, hx 4 (by decide) e]),
      if_neg (show ¬ H.PRIMARYLANGID (H.LANGIDFROMLCID lcid) = H.LANG_HEBREW from hx 5 (by decide)),
      if_neg (show ¬ H.PRIMARYLANGID (H.LANGIDFROMLCID lcid) = H.LANG_JAPANESE from hx 6 (by decide)),
      if_neg (show ¬ H.PRIMARYLANGID (H.LANGIDFROMLCID lcid) = H.LANG_KOREAN from hx 7 (by decide)),
      if_neg (show ¬ H.PRIMARYLANGID (H.LANGIDFROMLCID lcid) = H.LANG_CHINESE from hx 8 (by decide)),
      if_neg (show ¬ H.PRIMARYLANGID (H.LANGIDFROMLCID lcid) = H.LANG_GREEK from hx 9 (by decide)),
      if_pos h]
  · intro h
    have hx : ∀ j : Fin 16, (⟨11, by decide⟩ : Fin 16) ≠ j →
        ¬ H.PRIMARYLANGID (H.LANGIDFROMLCID lcid) = (caseLabels H).get j :=
      fun j hj e => ne ⟨11, by decide⟩ j hj (h.symm.trans e)
    unfold selectTable
    rw [if_neg (by rintro (e | e | e | e | e); exacts [hx 0 (by decide) e, hx 1 (by decide) e, hx 2 (by decide) e, hx 3 (by decide) e, hx 4 (by decide) e]),
      if_neg (show ¬ H.PRIMARYLANGID (H.LANGIDFROMLCID lcid) = H.LANG_HEBREW from hx 5 (by decide)),
      if_neg (show ¬ H.PRIMARYLANGID (H.LANGIDFROMLCID lcid) = H.LANG_JAPANESE from hx 6 (by decide)),
      if_neg (show ¬ H.PRIMARYLANGID (H.LANGIDFROMLCID lcid) = H.LANG_KOREAN from hx 7 (by decide)),
      if_neg (show ¬ H.PRIMARYLANGID (H.LANGIDFROMLCID lcid) = H.LANG_CHINESE from hx 8 (by decide)),
      if_neg (show ¬ H.PRIMARYLANGID (H.LANGIDFROMLCID lcid) = H.LANG_GREEK from hx 9 (by decide)),
      if_neg (show ¬ H.PRIMARYLANGID (H.LANGIDFROMLCID lcid) = H.LANG_ICELANDIC from hx 10 (by decide)),
      if_pos h]
  · intro h hs
    have hx : ∀ j : Fin 16, (⟨12, by decide⟩ : Fin 16) ≠ j →
        ¬ H.PRIMARYLANGID (H.LANGIDFROMLCID lcid) = (caseLabels H).get j :=
      fun j hj e => ne ⟨12, by decide⟩ j hj (h.symm.trans e)
    unfold selectTable
    rw [if_neg (by rintro (e | e | e | e | e); exacts [hx 0 (by decide) e, hx 1 (by decide) e, hx 2 (by decide) e, hx 3 (by decide) e, hx 4 (by decide) e]),
      if_neg (show ¬ H.PRIMARYLANGID (H.LANGIDFROMLCID lcid) = H.LANG_HEBREW from hx 5 (by decide)),
      if_neg (show ¬ H.PRIMARYLANGID (H.LANGIDFROMLCID lcid) = H.LANG_JAPANESE from hx 6 (by decide)),
      if_neg (show ¬ H.PRIMARYLANGID (H.LANGIDFROMLCID lcid) = H.LANG_KOREAN from hx 7 (by decide)),
      if_neg (show ¬ H.PRIMARYLANGID (H.LANGIDFROMLCID lcid) = H.LANG_CHINESE from hx 8 (by decide)),
      if_neg (show ¬ H.PRIMARYLANGID (H.LANGIDFROMLCID lcid) = H.LANG_GREEK from hx 9 (by decide)),
      if_neg (show ¬ H.PRIMARYLANGID (H.LANGIDFROMLCID lcid) = H.LANG_ICELANDIC from hx 10 (by decide)),
      if_neg (show ¬ H.PRIMARYLANGID (H.LANGIDFROMLCID lcid) = H.LANG_TURKISH from hx 11 (by decide)),
      if_pos h,
      if_pos hs]
  · intro h hs
    have hx : ∀ j : Fin 16, (⟨12, by decide⟩ : Fin 16) ≠ j →
        ¬ H.PRIMARYLANGID (H.LANGIDFROMLCID lcid) = (caseLabels H).get j :=
      fun j hj e => ne ⟨12, by decide⟩ j hj (h.symm.trans e)
    unfold selectTable
    rw [if_neg (by rintro (e | e | e | e | e); exacts [hx 0 (by decide) e, hx 1 (by decide) e, hx 2 (by decide) e, hx 3 (by decide) e, hx 4 (by decide) e]),
      if_neg (show ¬ H.PRIMARYLANGID (H.LANGIDFROMLCID lcid) = H.LANG_HEBREW from hx 5 (by decide)),
      if_neg (show ¬ H.PRIMARYLANGID (H.LANGIDFROMLCID lcid) = H.LANG_JAPANESE from hx 6 (by decide)),
      if_neg (show ¬ H.PRIMARYLANGID (H.LANGIDFROMLCID lcid) = H.LANG_KOREAN from hx 7 (by decide)),
      if_neg (show ¬ H.PRIMARYLANGID (H.LANGIDFROMLCID lcid) = H.LANG_CHINESE from hx 8 (by decide)),
      if_neg (show ¬ H.PRIMARYLANGID (H.LANGIDFROMLCID lcid) = H.LANG_GREEK from hx 9 (by decide)),
      if_neg (show ¬ H.PRIMARYLANGID (H.LANGIDFROMLCID lcid) = H.LANG_ICELANDIC from hx 10 (by decide)),
      if_neg (show ¬ H.PRIMARYLANGID (H.LANGIDFROMLCID lcid) = H.LANG_TURKISH from hx 11 (by decide)),
      if_pos h,
      if_neg hs]
  · intro h'
    rcases h' with h | h
    · have hx : ∀ j : Fin 16, (⟨13, by decide⟩ : Fin 16) ≠ j →
          ¬ H.PRIMARYLANGID (H.LANGIDFROMLCID lcid) = (caseLabels H).get j :=
        fun j hj e => ne ⟨13, by decide⟩ j hj (h.symm.trans e)
      unfold selectTable
      rw [if_neg (by rintro (e | e | e | e | e); exacts [hx 0 (by decide) e, hx 1 (by decide) e, hx 2 (by decide) e, hx 3 (by decide) e, hx 4 (by decide) e]),
        if_neg (show ¬ H.PRIMARYLANGID (H.LANGIDFROMLCID lcid) = H.LANG_HEBREW from hx 5 (by decide)),
        if_neg (show ¬ H.PRIMARYLANGID (H.LANGIDFROMLCID lcid) = H.LANG_JAPANESE from hx 6 (by decide)),
        if_neg (show ¬ H.PRIMARYLANGID (H.LANGIDFROMLCID lcid) = H.LANG_KOREAN from hx 7 (by decide)),
        if_neg (show ¬ H.PRIMARYLANGID (H.LANGIDFROMLCID lcid) = H.LANG_CHINESE from hx 8 (by decide)),
        if_neg (show ¬ H.PRIMARYLANGID (H.LANGIDFROMLCID lcid) = H.LANG_GREEK from hx 9 (by decide)),
        if_neg (show ¬ H.PRIMARYLANGID (H.LANGIDFROMLCID lcid) = H.LANG_ICELANDIC from hx 10 (by decide)),
        if_neg (show ¬ H.PRIMARYLANGID (H.LANGIDFROMLCID lcid) = H.LANG_TURKISH from hx 11 (by decide)),
        if_neg (show ¬ H.PRIMARYLANGID (H.LANGIDFROMLCID lcid) = H.LANG_NORWEGIAN from hx 12 (by decide)),
        if_pos (Or.inl h)]
    · have hx : ∀ j : Fin 16, (⟨14, by decide⟩ : Fin 16) ≠ j →
          ¬ H.PRIMARYLANGID (H.LANGIDFROMLCID lcid) = (caseLabels H).get j :=
        fun j hj e => ne ⟨14, by decide⟩ j hj (h.symm.trans e)
      unfold selectTable
      rw [if_neg (by rintro (e | e | e | e | e); exacts [hx 0 (by decide) e, hx 1 (by decide) e, hx 2 (by decide) e, hx 3 (by decide) e, hx 4 (by decide) e]),
        if_neg (show ¬ H.PRIMARYLANGID (H.LANGIDFROMLCID lcid) = H.LANG_HEBREW from hx 5 (by decide)),
        if_neg (show ¬ H.PRIMARYLANGID (H.LANGIDFROMLCID lcid) = H.LANG_JAPANESE from hx 6 (by decide)),
        if_neg (show ¬ H.PRIMARYLANGID (H.LANGIDFROMLCID lcid) = H.LANG_KOREAN from hx 7 (by decide)),
        if_neg (show ¬ H.PRIMARYLANGID (H.LANGIDFROMLCID lcid) = H.LANG_CHINESE from hx 8 (by decide)),
        if_neg (show ¬ H.PRIMARYLANGID (H.LANGIDFROMLCID lcid) = H.LANG_GREEK from hx 9 (by decide)),
        if_neg (show ¬ H.PRIMARYLANGID (H.LANGIDFROMLCID lcid) = H.LANG_ICELANDIC from hx 10 (by decide)),
        if_neg (show ¬ H.PRIMARYLANGID (H.LANGIDFROMLCID lcid) = H.LANG_TURKISH from hx 11 (by decide)),
        if_neg (show ¬ H.PRIMARYLANGID (H.LANGIDFROMLCID lcid) = H.LANG_NORWEGIAN from hx 12 (by decide)),
        if_pos (Or.inr h)]
  · intro h
    have hx : ∀ j : Fin 16, (⟨15, by decide⟩ : Fin 16) ≠ j →
        ¬ H.PRIMARYLANGID (H.LANGIDFROMLCID lcid) = (caseLabels H).get j :=
      fun j hj e => ne ⟨15, by decide⟩ j hj (h.symm.trans e)
    unfold selectTable
    rw [if_neg (by rintro (e | e | e | e | e); exacts [hx 0 (by decide) e, hx 1 (by decide) e, hx 2 (by decide) e, hx 3 (by decide) e, hx 4 (by decide) e]),
      if_neg (show ¬ H.PRIMARYLANGID (H.LANGIDFROMLCID lcid) = H.LANG_HEBREW from hx 5 (by decide)),
      if_neg (show ¬ H.PRIMARYLANGID (H.LANGIDFROMLCID lcid) = H.LANG_JAPANESE from hx 6 (by decide)),
      if_neg (show ¬ H.PRIMARYLANGID (H.LANGIDFROMLCID lcid) = H.LANG_KOREAN from hx 7 (by decide)),
      if_neg (show ¬ H.PRIMARYLANGID (H.LANGIDFROMLCID lcid) = H.LANG_CHINESE from hx 8 (by decide)),
      if_neg (show ¬ H.PRIMARYLANGID (H.LANGIDFROMLCID lcid) = H.LANG_GREEK from hx 9 (by decide)),
      if_neg (show ¬ H.PRIMARYLANGID (H.LANGIDFROMLCID lcid) = H.LANG_ICELANDIC from hx 10 (by decide)),
      if_neg (show ¬ H.PRIMARYLANGID (H.LANGIDFROMLCID lcid) = H.LANG_TURKISH from hx 11 (by decide)),
      if_neg (show ¬ H.PRIMARYLANGID (H.LANGIDFROMLCID lcid) = H.LANG_NORWEGIAN from hx 12 (by decide)),
      if_neg (by rintro (e | e); exacts [hx 13 (by decide) e, hx 14 (by decide) e]),
      if_pos h]
  · intro h
    exact selectTable_default H lcid h

theorem nMask_cases (H : NlsHeaders) (skind : Nat) :
    nMask H skind = 0 ∨ nMask H skind = 1 := by
  unfold nMask
  split_ifs
  · exact Or.inr rfl
  · exact Or.inl rfl

theorem hiWord_lt (H : NlsHeaders) (skind lcid : Nat) :
    (selectTable H lcid).1 ||| nMask H skind < 2 ^ 16 := by
  have hm := selectTable_mem H lcid
  simp only [List.mem_cons, List.mem_singleton, List.not_mem_nil, or_false] at hm
  rcases nMask_cases H skind with h | h <;> rw [h] <;>
    rcases hm with h | h | h | h | h | h | h | h | h | h | h | h <;> rw [h] <;> decide

theorem lhash_split (H : NlsHeaders) (skind lcid : Nat) (str : List (Fin 256)) :
    lhash_val_of_name_sys H skind lcid (some str)
      = ((selectTable H lcid).1 ||| nMask H skind) * 2 ^ 16
        + specLowWord (selectTable H lcid).2 (nMask H skind) (cString str) ∧
    specLowWord (selectTable H lcid).2 (nMask H skind) (cString str) < 2 ^ 16 := by
  have hX := hiWord_lt H skind lcid
  have hlow : specLowWord (selectTable H lcid).2 (nMask H skind) (cString str) < 2 ^ 16 := by
    unfold specLowWord
    exact Nat.lt_of_le_of_lt Nat.and_le_right (by decide)
  refine ⟨?_, hlow⟩
  simp only [lhash_val_of_name_sys, hashLoop_eq_foldl]
  change ((selectTable H lcid).1 ||| nMask H skind) <<< 16 % 2 ^ 32
      ||| specLowWord (selectTable H lcid).2 (nMask H skind) (cString str) = _
  rw [Nat.shiftLeft_eq, Nat.mod_eq_of_lt (by omega), Nat.mul_comm,
    ← Nat.mul_add_lt_is_or hlow, Nat.mul_comm]

/-- C31: `lhash_val_of_name_sys` produces a two-part hash.  For every non-NULL
string the result is `((nOffset | nMask) << 16) | low`; the high word
`nOffset | nMask` does not depend on the string; `nMask` is 1 exactly when
`skind` is `SYS_MAC`; `nOffset` and the table are one of the twelve pairs,
and the pair is `(16, Lookup_16)` unless the primary language is one of the
sixteen that label another case; and `low` is `(h mod 65599) & 0xffff` for
the `h` that starts at `0x0deadbee` and is updated to
`37 * h + lookup[index(c)]` modulo `2^32` by each byte `c` of the string.
For pairwise distinct case labels the offset is 32 for Czech, Hungarian,
Polish, Slovak and Spanish, 48 for Hebrew, 64 for Japanese, 80 for Korean,
112 for Chinese, 128 for Greek, 144 for Icelandic, 160 for Turkish, 176 for
Norwegian with the Nynorsk sublanguage and 16 for Norwegian otherwise, 208
for Arabic and Farsi, 224 for Russian, and 16 for every other language, each
with the table of that number. -/
theorem C31_two_part_hash (H : NlsHeaders) (skind lcid : Nat) (str : List (Fin 256)) :
    lhash_val_of_name_sys H skind lcid (some str)
      = (((selectTable H lcid).1 ||| nMask H skind) <<< 16)
        ||| specLowWord (selectTable H lcid).2 (nMask H skind) (cString str) ∧
    lhash_val_of_name_sys H skind lcid (some str) / 2 ^ 16
      = (selectTable H lcid).1 ||| nMask H skind ∧
    lhash_val_of_name_sys H skind lcid (some str) % 2 ^ 16
      = specLowWord (selectTable H lcid).2 (nMask H skind) (cString str) ∧
    (nMask H skind = 1 ↔ skind = H.SYS_MAC) ∧
    (nMask H skind = 0 ↔ skind ≠ H.SYS_MAC) ∧
    selectTable H lcid ∈
      [(16, Lookup_16), (32, Lookup_32), (48, Lookup_48), (64, Lookup_64), (80, Lookup_80),
       (112, Lookup_112), (128, Lookup_128), (144, Lookup_144), (160, Lookup_160),
       (176, Lookup_176), (208, Lookup_208), (224, Lookup_224)] ∧
    (selectTable H lcid = (16, Lookup_16) ∨
      H.PRIMARYLANGID (H.LANGIDFROMLCID lcid) ∈
        [H.LANG_CZECH, H.LANG_HUNGARIAN, H.LANG_POLISH, H.LANG_SLOVAK, H.LANG_SPANISH,
         H.LANG_HEBREW, H.LANG_JAPANESE, H.LANG_KOREAN, H.LANG_CHINESE, H.LANG_GREEK,
         H.LANG_ICELANDIC, H.LANG_TURKISH, H.LANG_NORWEGIAN, H.LANG_ARABIC, H.LANG_FARSI,
         H.LANG_RUSSIAN]) ∧
    ((caseLabels H).Nodup →
      ((H.PRIMARYLANGID (H.LANGIDFROMLCID lcid) = H.LANG_CZECH ∨ H.PRIMARYLANGID (H.LANGIDFROMLCID lcid) = H.LANG_HUNGARIAN ∨
          H.PRIMARYLANGID (H.LANGIDFROMLCID lcid) = H.LANG_POLISH ∨ H.PRIMARYLANGID (H.LANGIDFROMLCID lcid) = H.LANG_SLOVAK ∨
          H.PRIMARYLANGID (H.LANGIDFROMLCID lcid) = H.LANG_SPANISH) →
        selectTable H lcid = (32, Lookup_32)) ∧
      (H.PRIMARYLANGID (H.LANGIDFROMLCID lcid) = H.LANG_HEBREW →
        selectTable H lcid = (48, Lookup_48)) ∧
      (H.PRIMARYLANGID (H.LANGIDFROMLCID lcid) = H.LANG_JAPANESE →
        selectTable H lcid = (64, Lookup_64)) ∧
      (H.PRIMARYLANGID (H.LANGIDFROMLCID lcid) = H.LANG_KOREAN →
        selectTable H lcid = (80, Lookup_80)) ∧
      (H.PRIMARYLANGID (H.LANGIDFROMLCID lcid) = H.LANG_CHINESE →
        selectTable H lcid = (112, Lookup_112)) ∧
      (H.PRIMARYLANGID (H.LANGIDFROMLCID lcid) = H.LANG_GREEK →
        selectTable H lcid = (128, Lookup_128)) ∧
      (H.PRIMARYLANGID (H.LANGIDFROMLCID lcid) = H.LANG_ICELANDIC →
        selectTable H lcid = (144, Lookup_144)) ∧
      (H.PRIMARYLANGID (H.LANGIDFROMLCID lcid) = H.LANG_TURKISH →
        selectTable H lcid = (160, Lookup_160)) ∧
      (H.PRIMARYLANGID (H.LANGIDFROMLCID lcid) = H.LANG_NORWEGIAN →
        H.SUBLANGID (H.LANGIDFROMLCID lcid) = H.SUBLANG_NORWEGIAN_NYNORSK →
        selectTable H lcid = (176, Lookup_176)) ∧
      (H.PRIMARYLANGID (H.LANGIDFROMLCID lcid) = H.LANG_NORWEGIAN →
        H.SUBLANGID (H.LANGIDFROMLCID lcid) ≠ H.SUBLANG_NORWEGIAN_NYNORSK →
        selectTable H lcid = (16, Lookup_16)) ∧
      ((H.PRIMARYLANGID (H.LANGIDFROMLCID lcid) = H.LANG_ARABIC ∨ H.PRIMARYLANGID (H.LANGIDFROMLCID lcid) = H.LANG_FARSI) →
        selectTable H lcid = (208, Lookup_208)) ∧
      (H.PRIMARYLANGID (H.LANGIDFROMLCID lcid) = H.LANG_RUSSIAN →
        selectTable H lcid = (224, Lookup_224)) ∧
      (H.PRIMARYLANGID (H.LANGIDFROMLCID lcid) ∉ caseLabels H →
        selectTable H lcid = (16, Lookup_16))) := by
  obtain ⟨hs, hlow⟩ := lhash_split H skind lcid str
  have hX := hiWord_lt H skind lcid
  refine ⟨?_, ?_, ?_, ?_, ?_, selectTable_mem H lcid, ?_, selectTable_cases H lcid⟩
  · rw [hs, Nat.shiftLeft_eq, Nat.mul_comm, Nat.mul_add_lt_is_or hlow]
  · rw [hs]
    omega
  · rw [hs]
    omega
  · unfold nMask
    split_ifs with h <;> simp [h]
  · unfold nMask
    split_ifs with h <;> simp [h]
  · by_cases hm : H.PRIMARYLANGID (H.LANGIDFROMLCID lcid) ∈
        [H.LANG_CZECH, H.LANG_HUNGARIAN, H.LANG_POLISH, H.LANG_SLOVAK, H.LANG_SPANISH,
         H.LANG_HEBREW, H.LANG_JAPANESE, H.LANG_KOREAN, H.LANG_CHINESE, H.LANG_GREEK,
         H.LANG_ICELANDIC, H.LANG_TURKISH, H.LANG_NORWEGIAN, H.LANG_ARABIC, H.LANG_FARSI,
         H.LANG_RUSSIAN]
    · exact Or.inr hm
    · exact Or.inl (selectTable_default H lcid hm)

/-- Witness of C31: under the Windows values of the constants, the locale ids
`0x0814` (Norwegian, Nynorsk) and `0x040D` (Hebrew) select the offsets 176 and
48, and with `SYS_MAC` the high word of the hash of "Ab" under `0x0814` is
`176 | 1`. -/
theorem C31_two_part_hash_witness :
    (caseLabels winHeaders).Nodup ∧
    selectTable winHeaders 0x0814 = (176, Lookup_176) ∧
    selectTable winHeaders 0x040D = (48, Lookup_48) ∧
    lhash_val_of_name_sys winHeaders 2 0x0814 (some [0x41, 0x62]) / 2 ^ 16 = 177 := by
  have hd : (caseLabels winHeaders).Nodup := by decide
  have h1 := C31_two_part_hash winHeaders 2 0x0814 [0x41, 0x62]
  have h2 := C31_two_part_hash winHeaders 2 0x040D [0x41, 0x62]
  have e1 := (h1.2.2.2.2.2.2.2 hd).2.2.2.2.2.2.2.2.1 rfl rfl
  have e2 := (h2.2.2.2.2.2.2.2 hd).2.1 rfl
  refine ⟨hd, e1, e2, ?_⟩
  rw [h1.2.1, e1]
  rfl

/-- C32: `lhash_val_of_name_sys` returns 0 when `lpStr` is NULL, for every
`skind` and every `lcid`. -/
theorem C32_null_string_hashes_to_zero (H : NlsHeaders) (skind lcid : Nat) :
    lhash_val_of_name_sys H skind lcid none = 0 := rfl

set_option maxRecDepth 10000 in
theorem selectTable_length (H : NlsHeaders) (lcid : Nat) :
    (selectTable H lcid).2.length = 384 := by
  have hm := selectTable_mem H lcid
  simp only [List.mem_cons, List.mem_singleton, List.not_mem_nil, or_false] at hm
  rcases hm with h | h | h | h | h | h | h | h | h | h | h | h <;> rw [h] <;> rfl

/-- C40: table lookups in `lhash_val_of_name_sys` are in bounds.  For every
`skind`, every `lcid` and every byte `c`, the table the `switch` has selected
has 384 entries, and the index used, `c + 0x80` when `c > 0x7f` and `skind` is
`SYS_MAC` and `c` otherwise, is below 384.  Every path through the `switch`
assigns `pnLookup` one of the twelve tables, so it is not NULL at the loop. -/
theorem C40_lookup_in_bounds (H : NlsHeaders) (skind lcid : Nat) (c : Fin 256) :
    (selectTable H lcid).2.length = 384 ∧
    hashIndex (nMask H skind) c
      = (if c.val > 0x7f ∧ skind = H.SYS_MAC then c.val + 0x80 else c.val) ∧
    hashIndex (nMask H skind) c < (selectTable H lcid).2.length ∧
    (selectTable H lcid).2 ∈
      [Lookup_16, Lookup_32, Lookup_48, Lookup_64, Lookup_80, Lookup_112, Lookup_128,
       Lookup_144, Lookup_160, Lookup_176, Lookup_208, Lookup_224] := by
  have hc := c.isLt
  refine ⟨selectTable_length H lcid, ?_, ?_, ?_⟩
  · unfold hashIndex nMask
    by_cases hs : skind = H.SYS_MAC
    · simp [hs]
    · simp [hs]
  · rw [selectTable_length]
    unfold hashIndex
    split_ifs <;> omega
  · have hm := selectTable_mem H lcid
    simp only [List.mem_cons, List.mem_singleton, List.not_mem_nil, or_false] at hm ⊢
    rcases hm with h | h | h | h | h | h | h | h | h | h | h | h <;> rw [h] <;>
      simp only [true_or, or_true]

theorem asciiUpper_val (c : Fin 256) :
    (asciiUpper c).val = if 0x61 ≤ c.val ∧ c.val ≤ 0x7A then c.val - 0x20 else c.val := by
  unfold asciiUpper
  split_ifs <;> rfl

/-- A table that maps every lowercase ASCII letter to the byte of its uppercase
letter gives a hash that does not see the case of ASCII letters. -/
theorem hashLoop_asciiUpper (tbl : List Nat) (m : Nat)
    (htbl : ∀ i : Fin 26, tbl.getD (0x61 + i.val) 0 = tbl.getD (0x41 + i.val) 0)
    (str : List (Fin 256)) :
    ∀ h : Nat, hashLoop tbl m h (str.map asciiUpper) = hashLoop tbl m h str := by
  induction str with
  | nil => intro h; rfl
  | cons c str ih =>
    intro h
    have hv := asciiUpper_val c
    have hc := c.isLt
    simp only [List.map_cons, hashLoop]
    by_cases hl : 0x61 ≤ c.val ∧ c.val ≤ 0x7A
    · rw [if_pos hl] at hv
      have h0 : ¬ (asciiUpper c).val = 0 := by omega
      have h1 : ¬ c.val = 0 := by omega
      have i1 : hashIndex m (asciiUpper c) = c.val - 0x20 := by
        unfold hashIndex
        rw [if_neg (by omega), hv]
      have i2 : hashIndex m c = c.val := by
        unfold hashIndex
        rw [if_neg (by omega)]
      have ht := htbl ⟨c.val - 0x61, by omega⟩
      have e1 : 0x61 + (c.val - 0x61) = c.val := by omega
      have e2 : 0x41 + (c.val - 0x61) = c.val - 0x20 := by omega
      simp only [e1, e2] at ht
      rw [if_neg h0, if_neg h1, i1, i2, ← ht]
      exact ih _
    · rw [if_neg hl] at hv
      have e : asciiUpper c = c := Fin.ext hv
      rw [e]
      split_ifs
      · rfl
      · exact ih _

theorem otherTables_upper (H : NlsHeaders) (lcid : Nat)
    (hJ : selectTable H lcid ≠ (64, Lookup_64)) :
    ∀ i : Fin 26, (selectTable H lcid).2.getD (0x61 + i.val) 0
      = (selectTable H lcid).2.getD (0x41 + i.val) 0 := by
  have hm := selectTable_mem H lcid
  simp only [List.mem_cons, List.mem_singleton, List.not_mem_nil, or_false] at hm
  rcases hm with h | h | h | h | h | h | h | h | h | h | h | h
  all_goals first
    | exact absurd h hJ
    | (rw [h]; decide)

theorem specLowWord_single (tbl : List Nat) (m : Nat) (c : Fin 256) (hc : c.val ≠ 0) :
    specLowWord tbl m (cString [c])
      = ((37 * 0x0deadbee + tbl.getD (hashIndex m c) 0) % 2 ^ 32 % 65599) &&& 0xffff := by
  have hs : cString [c] = [c] := by
    unfold cString
    rw [List.takeWhile_cons_of_pos (by simpa using hc)]
    rfl
  rw [hs]
  rfl

theorem hashIndex_ascii (m : Nat) (c : Fin 256) (hc : c.val ≤ 0x7f) :
    hashIndex m c = c.val := by
  unfold hashIndex
  rw [if_neg (fun h => absurd h.1 (by omega))]

theorem specLowWord_n (m : Nat) : specLowWord Lookup_64 m (cString [0x6E]) = 4242 := by
  have g : Lookup_64.getD 110 0 = 0x7B := by decide
  have hi : hashIndex m (0x6E : Fin 256) = 110 := hashIndex_ascii m 0x6E (by decide)
  rw [specLowWord_single Lookup_64 m 0x6E (by decide), hi, g]
  rfl

theorem specLowWord_N (m : Nat) : specLowWord Lookup_64 m (cString [0x4E]) = 4210 := by
  have g : Lookup_64.getD 78 0 = 0x5B := by decide
  have hi : hashIndex m (0x4E : Fin 256) = 78 := hashIndex_ascii m 0x4E (by decide)
  rw [specLowWord_single Lookup_64 m 0x4E (by decide), hi, g]
  rfl

/-- C39, for a locale whose language selects `Lookup_64` (Japanese) and the
strings "n" and "N": the low words of the two hashes are 4242 and 4210, so
the hashes differ although the strings differ only in the case of an ASCII
letter.  `Lookup_64` lacks the first row of its initializer list, which moves
every entry 13 places down: it maps `n` to `0x7B` and `N` to `0x5B`.  For a
locale that selects any of the other eleven tables, two strings that differ
only in the case of ASCII letters hash to the same value. -/
theorem C39_lookup_64_sees_case (H : NlsHeaders) (skind lcid : Nat) :
    (selectTable H lcid = (64, Lookup_64) →
      asciiUpper 0x6E = 0x4E ∧
      Lookup_64.getD 0x6E 0 = 0x7B ∧ Lookup_64.getD 0x4E 0 = 0x5B ∧
      lhash_val_of_name_sys H skind lcid (some [0x6E]) % 2 ^ 16 = 4242 ∧
      lhash_val_of_name_sys H skind lcid (some [0x4E]) % 2 ^ 16 = 4210 ∧
      lhash_val_of_name_sys H skind lcid (some [0x6E])
        ≠ lhash_val_of_name_sys H skind lcid (some [0x4E])) ∧
    (selectTable H lcid ≠ (64, Lookup_64) →
      ∀ s t : List (Fin 256), s.map asciiUpper = t.map asciiUpper →
        lhash_val_of_name_sys H skind lcid (some s)
          = lhash_val_of_name_sys H skind lcid (some t)) := by
  constructor
  · intro hJ
    obtain ⟨h1, l1⟩ := lhash_split H skind lcid [0x6E]
    obtain ⟨h2, l2⟩ := lhash_split H skind lcid [0x4E]
    rw [hJ] at h1 h2
    simp only [specLowWord_n] at h1
    simp only [specLowWord_N] at h2
    refine ⟨by decide, by decide, by decide, ?_, ?_, ?_⟩
    · rw [h1]
      omega
    · rw [h2]
      omega
    · rw [h1, h2]
      omega
  · intro hJ s t hst
    have hu := otherTables_upper H lcid hJ
    simp only [lhash_val_of_name_sys]
    rw [← hashLoop_asciiUpper _ _ hu s, ← hashLoop_asciiUpper _ _ hu t, hst]

/-- Witness of C39: the locale id `0x0411` (Japanese, Japan) under the Windows
values of the language constants. -/
theorem C39_lookup_64_sees_case_witness :
    selectTable winHeaders 0x0411 = (64, Lookup_64) ∧
    lhash_val_of_name_sys winHeaders 1 0x0411 (some [0x6E])
      ≠ lhash_val_of_name_sys winHeaders 1 0x0411 (some [0x4E]) :=
  ⟨rfl, ((C39_lookup_64_sees_case winHeaders 1 0x0411).1 rfl).2.2.2.2.2⟩

end Widl
